import Mathlib

/-!
# WebUIArmRouter: the topology visualizer (Graph Layout Engine)

A shallow embedding of `static/js/components/topology-visualizer.js` (namespace
`TopologyVisualizer`), of the scan flow, the load flow and the device panel
of `static/js/topology.js` (namespace `TopologyVisualizer.Controller`), and of
`static/js/api.js` (namespace `TopologyVisualizer.API`).

* JavaScript numbers are rationals (`ℚ`); no rounding, no `NaN`, no infinities.
* A JavaScript object is an insertion-ordered list of (key, value) pairs.
  A missing property and the value `undefined` are both `none`.
* A node object has an identity (`oid`): `===` on two node objects compares
  identities, never contents. A reference to a node is the node record as it
  was when the reference was stored, together with that identity.
* A method that can throw returns the state it leaves behind together with the
  exception, because the assignments made before a `throw` stay in place.
* The calls into d3 (`forceLink().links`, `simulation.nodes`, `selection.data`,
  `zoomIdentity.translate/scale`, `zoom.transform`) are embedded from the
  documented behaviour of the library, each in a definition of its own.
-/

namespace TopologyVisualizer

/-! ## JavaScript values -/

/-- A JSON value, as produced by `JSON.parse`. -/
inductive JsVal where
  | null
  | bool (b : Bool)
  | num (q : ℚ)
  | str (s : String)
  | arr (items : List JsVal)
  | obj (fields : List (String × JsVal))

/-- The own properties of a JSON object, in insertion order. -/
abbrev Props := List (String × JsVal)

/-- Property read `o[k]`: the value of the first pair with key `k`. -/
def getProp {α : Type} (k : String) : List (String × α) → Option α
  | [] => none
  | (k', v) :: rest => if k' = k then some v else getProp k rest

/-- Whether `k` is an own property (`k in o`). -/
def hasProp {α : Type} (k : String) (o : List (String × α)) : Bool :=
  o.any (fun p => decide (p.1 = k))

/-- Property write `o[k] = v`: overwrite in place, or append a new property. -/
def setProp {α : Type} (k : String) (v : α) : List (String × α) → List (String × α)
  | [] => [(k, v)]
  | (k', v') :: rest => if k' = k then (k, v) :: rest else (k', v') :: setProp k v rest

/-- The rest pattern of a destructuring: `const { k1, .., kn, ...rest } = o`. -/
def restProps {α : Type} (ks : List String) (o : List (String × α)) : List (String × α) :=
  o.filter (fun p => !(ks.contains p.1))

/-- Truthiness of a value read from a property (`none` is `undefined`). -/
def truthy : Option JsVal → Bool
  | none => false
  | some JsVal.null => false
  | some (JsVal.bool b) => b
  | some (JsVal.num q) => decide (q ≠ 0)
  | some (JsVal.str s) => decide (s ≠ "")
  | some (JsVal.arr _) => true
  | some (JsVal.obj _) => true

/-- Strict equality `a === b` of two values read from distinct parsed objects.
Primitives compare by value; two arrays or objects that come from different
`JSON.parse` results are different references, hence never equal. -/
def strictEq : Option JsVal → Option JsVal → Bool
  | none, none => true
  | some JsVal.null, some JsVal.null => true
  | some (JsVal.bool a), some (JsVal.bool b) => a == b
  | some (JsVal.num a), some (JsVal.num b) => decide (a = b)
  | some (JsVal.str a), some (JsVal.str b) => decide (a = b)
  | _, _ => false

/-- The values for which `typeof v === 'string' || typeof v === 'number'`. -/
def isStringOrNumber : Option JsVal → Bool
  | some (JsVal.str _) => true
  | some (JsVal.num _) => true
  | _ => false

/-! ## Nodes and links -/

/-- A node object of the engine: its identity and its own properties
(`id`, `type`, `name`, `status`, `x`, `y`, `vx`, `vy`, `fx`, `fy`, `index`, ...). -/
structure Node where
  oid : Nat
  props : Props

/-- The property `node.id`. -/
def Node.id (n : Node) : Option JsVal := getProp "id" n.props

/-- Reference equality `a === b` of two node objects. -/
def Node.same (a b : Node) : Bool := a.oid == b.oid

/-- A property value of a link object: a JSON value, or a reference to a node
(after `setData` stored `sourceNode`/`targetNode`, or after d3 resolved
`source`/`target`). -/
inductive Val where
  | json (v : JsVal)
  | node (n : Node)

/-- A link object: its own properties in insertion order. -/
abbrev Link := List (String × Val)

/-- The value of a link property seen as a JSON value, when it is one. -/
def Val.asJson : Option Val → Option JsVal
  | some (Val.json v) => some v
  | _ => none

/-- The test `typeof v === 'string' || typeof v === 'number'` on a link property. -/
def Val.isStringOrNumber : Option Val → Bool
  | some (Val.json v) => TopologyVisualizer.isStringOrNumber (some v)
  | _ => false

/-- The test `typeof v === 'object'` on a link property: node references,
arrays, objects and `null`. -/
def Val.isObject : Option Val → Bool
  | some (Val.node _) => true
  | some (Val.json JsVal.null) => true
  | some (Val.json (JsVal.arr _)) => true
  | some (Val.json (JsVal.obj _)) => true
  | _ => false

/-- The member read `v.id` on a link property. Reading a member of `undefined`
or `null` throws a `TypeError`; a primitive or an array has no `id`. -/
def Val.idOf : Option Val → Except String (Option JsVal)
  | none => Except.error "TypeError: cannot read properties of undefined (reading id)"
  | some (Val.json JsVal.null) => Except.error "TypeError: cannot read properties of null (reading id)"
  | some (Val.json (JsVal.obj fields)) => Except.ok (getProp "id" fields)
  | some (Val.json _) => Except.ok none
  | some (Val.node n) => Except.ok n.id

/-! ## The zoom transform (d3-zoom) -/

/-- A d3 zoom transform: the point `(px, py)` is displayed at
`(px * k + x, py * k + y)`. -/
structure Transform where
  k : ℚ
  x : ℚ
  y : ℚ
deriving DecidableEq

/-- The constant `d3.zoomIdentity`. -/
def zoomIdentity : Transform := ⟨1, 0, 0⟩

/-- The method `transform.scale(k)` of d3-zoom: `new Transform(this.k * k, this.x, this.y)`. -/
def Transform.scale (t : Transform) (k : ℚ) : Transform := ⟨t.k * k, t.x, t.y⟩

/-- The method `transform.translate(x, y)` of d3-zoom:
`new Transform(this.k, this.x + this.k * x, this.y + this.k * y)`. -/
def Transform.translate (t : Transform) (x y : ℚ) : Transform :=
  ⟨t.k, t.x + t.k * x, t.y + t.k * y⟩

/-- The method `transform.apply([px, py])` of d3-zoom: where a point is displayed. -/
def Transform.apply (t : Transform) (p : ℚ × ℚ) : ℚ × ℚ := (p.1 * t.k + t.x, p.2 * t.k + t.y)

/-- The method `transform.invert([sx, sy])` of d3-zoom: the point displayed at a
screen position. -/
def Transform.invert (t : Transform) (s : ℚ × ℚ) : ℚ × ℚ := ((s.1 - t.x) / t.k, (s.2 - t.y) / t.k)

/-! ## The parts of the host that are not rational arithmetic -/

/-- What the JavaScript runtime and d3 compute outside rational arithmetic.
`place i` is the position d3-force gives to the node of index `i` when it has
none (a point of a phyllotaxis spiral, computed with `sqrt`, `cos` and `sin`,
see `Runtime.spot`);
`toNum v` is `Number(v)` for a string, array or object (`none` is `NaN`);
`toStr v` is `String(v)` for a number, array or object. -/
structure Runtime where
  place : Nat → ℚ × ℚ
  toNum : JsVal → Option ℚ
  toStr : JsVal → String

/-- The position `initializeNodes()` of d3-force gives to the node of index `i`
when it has none: with radius `10 * sqrt(0.5 + i)` and angle
`i * pi * (3 - sqrt(5))`, `x = radius * cos(angle)` and
`y = radius * sin(angle)`. For index 0 the angle is 0, so `y` is exactly 0. -/
def Runtime.spot (rt : Runtime) (i : Nat) : ℚ × ℚ :=
  if i = 0 then ((rt.place 0).1, 0) else rt.place i

/-- The conversion `Number(v)`; `none` stands for `NaN`. -/
def Runtime.number (rt : Runtime) : Option JsVal → Option ℚ
  | none => none
  | some JsVal.null => some 0
  | some (JsVal.bool b) => some (if b then 1 else 0)
  | some (JsVal.num q) => some q
  | some v => rt.toNum v

/-- The global `isNaN(v)`. -/
def Runtime.isNaN (rt : Runtime) (v : Option JsVal) : Bool := (rt.number v).isNone

/-- The conversion `String(v)`, as used for the keys of a d3 data join. -/
def Runtime.string (rt : Runtime) : Option JsVal → String
  | none => "undefined"
  | some JsVal.null => "null"
  | some (JsVal.bool b) => if b then "true" else "false"
  | some (JsVal.str s) => s
  | some v => rt.toStr v

/-! ## Engine state -/

/-- The stroke of a node circle: `'#FF5722'` (selected), `'#FF9800'` (neighbour
of the selected node), or `d3.color(this.getNodeColor(d)).darker(0.5)`. -/
inductive Stroke where
  | primary
  | secondary
  | typeDarker
deriving DecidableEq

/-- The DOM group of a node (`.node-group`): the bound datum and the style of
its `.node-circle`. -/
structure NodeGroup where
  datum : Node
  stroke : Stroke
  strokeWidth : ℚ

/-- The stroke width of a link line: `getLinkWidth(d)` or `getLinkWidth(d) + 1`. -/
inductive LineWidth where
  | base
  | raised
deriving DecidableEq

/-- The DOM group of a link (`.link-group`): the bound datum and the style of
its `.link-line`. -/
structure LinkGroup where
  datum : Link
  opacity : ℚ
  width : LineWidth

/-- A `CustomEvent` dispatched on the container, with its `detail.node`. -/
inductive Event where
  | select (node : Node)
  | deselect (node : Node)

/-- The state of a `TopologyVisualizer`.
`simNodes` is the node array held by the d3 simulation and its link force;
`nodeGroups`/`linkGroups` are `undefined` (`none`) until the first render;
`events` is the log of dispatched events, oldest first; `zoomTargets` is the
log of the transforms handed to `zoom.transform`, oldest first (`none` is a
transform with a `NaN` component); `nextOid` numbers the objects created by
`JSON.parse`. -/
structure Engine where
  width : ℚ
  height : ℚ
  nodes : List Node
  links : List Link
  simNodes : List Node
  transform : Transform
  selectedNode : Option Node
  nodeGroups : Option (List NodeGroup)
  linkGroups : Option (List LinkGroup)
  events : List Event
  zoomTargets : List (Option Transform)
  nextOid : Nat

/-- The state left by the constructor on a container of the given size
(`container.clientHeight || 500`). -/
def create (clientWidth clientHeight : ℚ) : Engine :=
  { width := clientWidth
    height := if clientHeight = 0 then 500 else clientHeight
    nodes := []
    links := []
    simNodes := []
    transform := zoomIdentity
    selectedNode := none
    nodeGroups := none
    linkGroups := none
    events := []
    zoomTargets := []
    nextOid := 0 }

/-- A state together with the exception that ended the call, if any. -/
structure Outcome where
  state : Engine
  thrown : Option String

/-! ## d3-force: the link force and the simulation nodes -/

/-- The lookup `nodeById.get(key)` of the link force, where `nodeById` is
`new Map(nodes.map(d => [d.id, d]))`: a later node overwrites an earlier one
with the same id. -/
def findById (nodes : List Node) (key : Option JsVal) : Option Node :=
  (nodes.filter (fun n => strictEq n.id key)).getLast?

/-- One endpoint in `initialize()` of the link force:
`if (typeof link[k] !== "object") link[k] = find(nodeById, link[k])`,
where `find` throws when no node has that id. -/
def resolveEndpoint (simNodes : List Node) (k : String) (l : Link) : Except String Link :=
  if Val.isObject (getProp k l) then Except.ok l
  else match findById simNodes (Val.asJson (getProp k l)) with
    | some n => Except.ok (setProp k (Val.node n) l)
    | none => Except.error "Error: node not found"

/-- Whether a link property is `null`. -/
def Val.isNull : Option Val → Bool
  | some (Val.json JsVal.null) => true
  | _ => false

/-- The loop of `initialize()` of the link force over `links`, from index `i`:
set `link.index`, resolve `source` then `target`, then read
`link.source.index` and `link.target.index` (a `TypeError` on `null`).
The links are mutated in place, so what was done before a throw remains. -/
def bindLinksFrom (simNodes : List Node) : Nat → List Link → List Link × Option String
  | _, [] => ([], none)
  | i, l :: rest =>
    let l0 := setProp "index" (Val.json (JsVal.num i)) l
    match resolveEndpoint simNodes "source" l0 with
    | Except.error err => (l0 :: rest, some err)
    | Except.ok l1 =>
      match resolveEndpoint simNodes "target" l1 with
      | Except.error err => (l1 :: rest, some err)
      | Except.ok l2 =>
        if Val.isNull (getProp "source" l2) || Val.isNull (getProp "target" l2) then
          (l2 :: rest, some "TypeError: cannot read properties of null (reading index)")
        else
          let r := bindLinksFrom simNodes (i + 1) rest
          (l2 :: r.1, r.2)

/-- The call `force.links(links)` of the d3 link force. -/
def forceLinkLinks (simNodes : List Node) (links : List Link) : List Link × Option String :=
  bindLinksFrom simNodes 0 links

/-- The test `v != null`. -/
def notNullish : Option JsVal → Bool
  | none => false
  | some JsVal.null => false
  | _ => true

/-- The body of the loop of `initializeNodes()` of the d3 simulation for the
node at index `i`. -/
def simulationNode (rt : Runtime) (i : Nat) (n : Node) : Node :=
  let p0 := setProp "index" (JsVal.num i) n.props
  let p1 := match getProp "fx" p0 with
    | some v => if notNullish (some v) then setProp "x" v p0 else p0
    | none => p0
  let p2 := match getProp "fy" p1 with
    | some v => if notNullish (some v) then setProp "y" v p1 else p1
    | none => p1
  let p3 := if rt.isNaN (getProp "x" p2) || rt.isNaN (getProp "y" p2) then
      setProp "y" (JsVal.num (rt.spot i).2) (setProp "x" (JsVal.num (rt.spot i).1) p2)
    else p2
  let p4 := if rt.isNaN (getProp "vx" p3) || rt.isNaN (getProp "vy" p3) then
      setProp "vx" (JsVal.num 0) (setProp "vy" (JsVal.num 0) p3)
    else p3
  { n with props := p4 }

/-- The loop of `initializeNodes()` from index `i`. -/
def simulationNodesFrom (rt : Runtime) : Nat → List Node → List Node
  | _, [] => []
  | i, n :: rest => simulationNode rt i n :: simulationNodesFrom rt (i + 1) rest

/-- The call `simulation.nodes(nodes)` of d3-force. -/
def simulationNodes (rt : Runtime) (nodes : List Node) : List Node :=
  simulationNodesFrom rt 0 nodes

/-! ## setData and the render -/

/-- The node objects made by `JSON.parse(JSON.stringify(nodes))`: the same
JSON content in fresh objects, numbered from `oid`. -/
def parseNodes : Nat → List Props → List Node
  | _, [] => []
  | oid, p :: rest => { oid := oid, props := p } :: parseNodes (oid + 1) rest

/-- A link object made by `JSON.parse(JSON.stringify(links))`. -/
def parseLink (p : Props) : Link := p.map (fun kv => (kv.1, Val.json kv.2))

/-- The body of `this.links.forEach(link => ...)` in `setData`. -/
def annotateLink (nodes : List Node) (l : Link) : Link :=
  if Val.isStringOrNumber (getProp "source" l) then
    match nodes.find? (fun n => strictEq n.id (Val.asJson (getProp "source" l))),
          nodes.find? (fun n => strictEq n.id (Val.asJson (getProp "target" l))) with
    | some sourceNode, some targetNode =>
      setProp "targetNode" (Val.node targetNode) (setProp "sourceNode" (Val.node sourceNode) l)
    | _, _ => l
  else l

/-- The body of `this.nodes.forEach(node => ...)` in `updateVisualization`:
`if (node.x && node.y) { node.fx = node.x; node.fy = node.y; }`. -/
def pinNode (n : Node) : Node :=
  match getProp "x" n.props, getProp "y" n.props with
  | some x, some y =>
    if truthy (some x) && truthy (some y) then
      { n with props := setProp "fy" y (setProp "fx" x n.props) }
    else n
  | _, _ => n

/-- The data join of `updateNodes`, `selectAll('.node-group').data(this.nodes, d => d.id)`
followed by `enter`, `exit().remove()` and `merge`, on the existing groups `dom`.
A datum takes over the first existing group with its key (the key is `String(d.id)`),
keeping the stroke width of its circle; otherwise it gets a new group of stroke
width 2. Every circle then gets the stroke `d3.color(getNodeColor(d)).darker(0.5)`. -/
def joinNodes (rt : Runtime) : List NodeGroup → List Node → List NodeGroup
  | _, [] => []
  | dom, n :: rest =>
    match dom.find? (fun g => decide (rt.string g.datum.id = rt.string n.id)) with
    | some g =>
      { datum := n, stroke := Stroke.typeDarker, strokeWidth := g.strokeWidth } ::
        joinNodes rt (dom.filter (fun g' => !decide (rt.string g'.datum.id = rt.string n.id))) rest
    | none =>
      { datum := n, stroke := Stroke.typeDarker, strokeWidth := 2 } :: joinNodes rt dom rest

/-- The method `updateNodes`. -/
def updateNodes (rt : Runtime) (e : Engine) : Engine :=
  { e with nodeGroups := some (joinNodes rt (e.nodeGroups.getD []) e.nodes) }

/-- The conversion `String(v)` of a link property inside a template literal. -/
def Val.string (rt : Runtime) : Option Val → String
  | some (Val.node _) => "[object Object]"
  | v => rt.string (Val.asJson v)

/-- One half of the key of a link, `d.source.id || d.source`, as a string. -/
def linkKeyPart (rt : Runtime) (v : Option Val) : Except String String :=
  match Val.idOf v with
  | Except.error err => Except.error err
  | Except.ok id => if truthy id then Except.ok (rt.string id) else Except.ok (Val.string rt v)

/-- The key function of `updateLinks`:
the template literal with `d.source.id || d.source`, `d.target.id || d.target` and `i`. -/
def linkKey (rt : Runtime) (d : Link) (i : Nat) : Except String String :=
  match linkKeyPart rt (getProp "source" d) with
  | Except.error err => Except.error err
  | Except.ok s =>
    match linkKeyPart rt (getProp "target" d) with
    | Except.error err => Except.error err
    | Except.ok t => Except.ok (s ++ "-" ++ t ++ "-" ++ toString i)

/-- The keys of a list of link data, from index `i`; the first key function
that throws ends the computation. -/
def linkKeysFrom (rt : Runtime) : Nat → List Link → Except String (List String)
  | _, [] => Except.ok []
  | i, d :: rest =>
    match linkKey rt d i with
    | Except.error err => Except.error err
    | Except.ok k =>
      match linkKeysFrom rt (i + 1) rest with
      | Except.error err => Except.error err
      | Except.ok ks => Except.ok (k :: ks)

/-- The data join of `updateLinks` on keyed existing groups and keyed data:
a datum takes over the first existing group with its key, keeping the opacity
of its line; otherwise it gets a new group of opacity 0.7. Every line then
gets the stroke width `getLinkWidth(d)`. -/
def joinLinks : List (String × LinkGroup) → List (String × Link) → List LinkGroup
  | _, [] => []
  | dom, (k, d) :: rest =>
    match dom.find? (fun g => decide (g.1 = k)) with
    | some g =>
      { datum := d, opacity := g.2.opacity, width := LineWidth.base } ::
        joinLinks (dom.filter (fun g' => !decide (g'.1 = k))) rest
    | none =>
      { datum := d, opacity := 7 / 10, width := LineWidth.base } :: joinLinks dom rest

/-- The method `updateLinks`. The key function runs first on the existing
groups, then on the data; it throws when an endpoint is `undefined` or `null`. -/
def updateLinks (rt : Runtime) (e : Engine) : Outcome :=
  let dom := e.linkGroups.getD []
  match linkKeysFrom rt 0 (dom.map (fun g => g.datum)) with
  | Except.error err => ⟨e, some err⟩
  | Except.ok domKeys =>
    match linkKeysFrom rt 0 e.links with
    | Except.error err => ⟨e, some err⟩
    | Except.ok dataKeys =>
      ⟨{ e with linkGroups := some (joinLinks (domKeys.zip dom) (dataKeys.zip e.links)) }, none⟩

/-- The method `updateVisualization`: bind the links to the link force (which
still holds the previous node array), hand the nodes to the simulation, pin
the nodes that have a position, render nodes and links. -/
def updateVisualization (rt : Runtime) (e : Engine) : Outcome :=
  let bound := forceLinkLinks e.simNodes e.links
  match bound.2 with
  | some err => ⟨{ e with links := bound.1 }, some err⟩
  | none =>
    let ns := (simulationNodes rt e.nodes).map pinNode
    updateLinks rt (updateNodes rt { e with links := bound.1, nodes := ns, simNodes := ns })

/-- The method `setData(nodes, links)`. -/
def setData (rt : Runtime) (e : Engine) (nodes links : List Props) : Outcome :=
  let ns := parseNodes e.nextOid nodes
  updateVisualization rt
    { e with nodes := ns
             links := (links.map parseLink).map (annotateLink ns)
             nextOid := e.nextOid + nodes.length }

/-! ## getData -/

/-- A plain object returned by `getData`; a property may hold `undefined`. -/
abbrev Plain (α : Type) := List (String × Option α)

/-- The own property `k` of a plain object, `undefined` flattened to `none`. -/
def Plain.get {α : Type} (k : String) (o : Plain α) : Option α := (getProp k o).join

/-- The node mapper of `getData`: `{ ...rest, x, y }`. -/
def getDataNode (n : Node) : Plain JsVal :=
  (restProps ["x", "y", "vx", "vy", "fx", "fy", "index"] n.props).map (fun p => (p.1, some p.2)) ++
    [("x", getProp "x" n.props), ("y", getProp "y" n.props)]

/-- An endpoint in `getData`: `typeof v === 'object' ? v.id : v`. -/
def collapseEndpoint (v : Option Val) : Except String (Option Val) :=
  if Val.isObject v then
    match Val.idOf v with
    | Except.error err => Except.error err
    | Except.ok id => Except.ok (id.map Val.json)
  else Except.ok v

/-- The link mapper of `getData`: `{ ...rest, source: .., target: .. }`. -/
def getDataLink (l : Link) : Except String (Plain Val) :=
  match collapseEndpoint (getProp "source" l) with
  | Except.error err => Except.error err
  | Except.ok s =>
    match collapseEndpoint (getProp "target" l) with
    | Except.error err => Except.error err
    | Except.ok t =>
      Except.ok ((restProps ["source", "target", "sourceNode", "targetNode", "index"] l).map
        (fun p => (p.1, some p.2)) ++ [("source", s), ("target", t)])

/-- The call `this.links.map(...)` of `getData`: the first mapper that throws
ends the call. -/
def getDataLinks : List Link → Except String (List (Plain Val))
  | [] => Except.ok []
  | l :: rest =>
    match getDataLink l with
    | Except.error err => Except.error err
    | Except.ok o =>
      match getDataLinks rest with
      | Except.error err => Except.error err
      | Except.ok os => Except.ok (o :: os)

/-- The method `getData()`: `{ nodes, links }`. -/
def getData (e : Engine) : Except String (List (Plain JsVal) × List (Plain Val)) :=
  match getDataLinks e.links with
  | Except.error err => Except.error err
  | Except.ok ls => Except.ok (e.nodes.map getDataNode, ls)

/-! ## Zoom and centring -/

/-- The transform that the body of the method `zoom(factor)` hands to `zoom.transform`:
`zoomIdentity.translate(tx, ty).scale(newScale).translate((1 - factor) * centerX, (1 - factor) * centerY)`
with `newScale = Math.max(0.2, Math.min(3, currentScale * factor))`. -/
def zoomTarget (e : Engine) (factor : ℚ) : Transform :=
  let currentScale := e.transform.k
  let newScale := max (1 / 5) (min 3 (currentScale * factor))
  let centerX := e.width / 2
  let centerY := e.height / 2
  ((zoomIdentity.translate e.transform.x e.transform.y).scale newScale).translate
    ((1 - factor) * centerX) ((1 - factor) * centerY)

/-- The body of the method `zoom(factor)` of the class: start a transition
towards the target. An engine reaches it only as
`TopologyVisualizer.prototype.zoom.call(engine, factor)`, see `zoom`. -/
def prototypeZoom (e : Engine) (factor : ℚ) : Engine :=
  { e with zoomTargets := e.zoomTargets ++ [some (zoomTarget e factor)] }

/-- The call `engine.zoom(factor)`. The constructor runs `initializeSVG`, which
assigns `this.zoom = d3.zoom()...`; this own property is found before the
method `zoom` of the class, so the call runs the d3 zoom behaviour with the
number as its selection. The behaviour starts with
`selection.property("__zoom", ...)`, and a number has no `property`: the call
throws a `TypeError`, and no transition is started. -/
def zoom (e : Engine) (_factor : ℚ) : Outcome :=
  ⟨e, some "TypeError: selection.property is not a function"⟩

/-- The method `resetZoom()`. -/
def resetZoom (e : Engine) : Engine :=
  { e with zoomTargets := e.zoomTargets ++ [some zoomIdentity] }

/-- The method `handleZoom(event)`, called by d3-zoom with the current transform
on every frame of a transition and at its end. -/
def handleZoom (e : Engine) (t : Transform) : Engine := { e with transform := t }

/-- The end of a transition started by `zoom.transform`: the last `zoom` event
carries the target. -/
def endTransition (e : Engine) : Engine :=
  match e.zoomTargets.getLast? with
  | some (some t) => handleZoom e t
  | _ => e

/-- The transform that `centerNode(node)` hands to `zoom.transform`:
`zoomIdentity.translate(x, y).scale(scale)` with `x = -node.x * scale + width / 2`,
`y = -node.y * scale + height / 2`; `none` when a coordinate is `NaN`. -/
def centerTarget (rt : Runtime) (e : Engine) (node : Node) : Option Transform :=
  let scale := e.transform.k
  match rt.number (getProp "x" node.props), rt.number (getProp "y" node.props) with
  | some nx, some ny =>
    some ((zoomIdentity.translate (-nx * scale + e.width / 2) (-ny * scale + e.height / 2)).scale scale)
  | _, _ => none

/-- The method `centerNode(node)`. -/
def centerNode (rt : Runtime) (e : Engine) (node : Node) : Engine :=
  { e with zoomTargets := e.zoomTargets ++ [centerTarget rt e node] }

/-! ## Selection -/

/-- The method `deselectNode()`. Reading `this.nodeGroups` or `this.linkGroups`
before the first render throws a `TypeError`. -/
def deselectNode (e : Engine) : Outcome :=
  match e.selectedNode with
  | none => ⟨e, none⟩
  | some sel =>
    match e.nodeGroups with
    | none => ⟨e, some "TypeError: cannot read properties of undefined (reading select)"⟩
    | some gs =>
      let gs1 := gs.map (fun g => { g with strokeWidth := 2, stroke := Stroke.typeDarker })
      let e1 := { e with nodeGroups := some gs1 }
      match e1.linkGroups with
      | none => ⟨e1, some "TypeError: cannot read properties of undefined (reading select)"⟩
      | some ls =>
        let ls1 := ls.map (fun g => { g with opacity := 7 / 10, width := LineWidth.base })
        ⟨{ e1 with linkGroups := some ls1
                   events := e1.events ++ [Event.deselect sel]
                   selectedNode := none }, none⟩

/-- The predicate `link.source.id === nodeId || link.target.id === nodeId`. -/
def touches (nodeId : Option JsVal) (l : Link) : Except String Bool :=
  match Val.idOf (getProp "source" l) with
  | Except.error err => Except.error err
  | Except.ok s =>
    if strictEq s nodeId then Except.ok true
    else
      match Val.idOf (getProp "target" l) with
      | Except.error err => Except.error err
      | Except.ok t => Except.ok (strictEq t nodeId)

/-- The mapper `link.source.id === nodeId ? link.target.id : link.source.id`. -/
def otherEnd (nodeId : Option JsVal) (l : Link) : Except String (Option JsVal) :=
  match Val.idOf (getProp "source" l) with
  | Except.error err => Except.error err
  | Except.ok s => if strictEq s nodeId then Val.idOf (getProp "target" l) else Except.ok s

/-- The method `Array.prototype.filter` with a callback that can throw. -/
def filterE {α : Type} (p : α → Except String Bool) : List α → Except String (List α)
  | [] => Except.ok []
  | a :: rest =>
    match p a with
    | Except.error err => Except.error err
    | Except.ok b =>
      match filterE p rest with
      | Except.error err => Except.error err
      | Except.ok r => Except.ok (if b then a :: r else r)

/-- The method `Array.prototype.map` with a callback that can throw. -/
def mapE {α β : Type} (f : α → Except String β) : List α → Except String (List β)
  | [] => Except.ok []
  | a :: rest =>
    match f a with
    | Except.error err => Except.error err
    | Except.ok b =>
      match mapE f rest with
      | Except.error err => Except.error err
      | Except.ok r => Except.ok (b :: r)

/-- The array `connectedNodeIds` of `selectNode`. -/
def connectedNodeIds (nodeId : Option JsVal) (links : List Link) : Except String (List (Option JsVal)) :=
  match filterE (touches nodeId) links with
  | Except.error err => Except.error err
  | Except.ok ls => mapE (otherEnd nodeId) ls

/-- The argument of `selectNode`: an id string or a node object. -/
inductive SelectArg where
  | id (s : String)
  | node (n : Node)

/-- The method `selectNode(node)`. -/
def selectNode (rt : Runtime) (e : Engine) (arg : SelectArg) : Outcome :=
  let nodeId := match arg with
    | SelectArg.id s => some (JsVal.str s)
    | SelectArg.node n => n.id
  match e.nodes.find? (fun n => strictEq n.id nodeId) with
  | none => ⟨e, none⟩
  | some targetNode =>
    let d := deselectNode e
    match d.thrown with
    | some err => ⟨d.state, some err⟩
    | none =>
      let e1 := { d.state with selectedNode := some targetNode }
      match e1.nodeGroups with
      | none => ⟨e1, some "TypeError: cannot read properties of undefined (reading filter)"⟩
      | some gs =>
        let gs1 := gs.map (fun g =>
          if strictEq g.datum.id nodeId then { g with strokeWidth := 3, stroke := Stroke.primary } else g)
        let e2 := { e1 with nodeGroups := some gs1 }
        match connectedNodeIds nodeId e2.links with
        | Except.error err => ⟨e2, some err⟩
        | Except.ok ids =>
          let gs2 := gs1.map (fun g =>
            if ids.any (fun i => strictEq i g.datum.id) then
              { g with strokeWidth := 2, stroke := Stroke.secondary }
            else g)
          let e3 := { e2 with nodeGroups := some gs2 }
          match e3.linkGroups with
          | none => ⟨e3, some "TypeError: cannot read properties of undefined (reading filter)"⟩
          | some ls =>
            match mapE (fun g => touches nodeId g.datum) ls with
            | Except.error err => ⟨e3, some err⟩
            | Except.ok hits =>
              let ls1 := (ls.zip hits).map (fun gh =>
                if gh.2 then { gh.1 with opacity := 1, width := LineWidth.raised } else gh.1)
              let e4 := { e3 with linkGroups := some ls1
                                  events := e3.events ++ [Event.select targetNode] }
              ⟨centerNode rt e4 targetNode, none⟩

/-- The method `handleNodeClick(event, d)`: a click on the group whose datum is `d`. -/
def handleNodeClick (rt : Runtime) (e : Engine) (d : Node) : Outcome :=
  match e.selectedNode with
  | some sel => if Node.same sel d then deselectNode e else selectNode rt e (SelectArg.node d)
  | none => selectNode rt e (SelectArg.node d)

/-- The method `handleBackgroundClick()`. -/
def handleBackgroundClick (e : Engine) : Outcome := deselectNode e

/-- A pointer click: on the `i`-th node group, or on the background. -/
inductive Click where
  | node (i : Nat)
  | background

/-- The handler run for a click. A node click runs `handleNodeClick` with the
datum of that group and stops propagation; there is nothing to click before
the first render, or beyond the last group. -/
def click (rt : Runtime) (e : Engine) : Click → Outcome
  | Click.background => handleBackgroundClick e
  | Click.node i =>
    match (e.nodeGroups.getD [])[i]? with
    | some g => handleNodeClick rt e g.datum
    | none => ⟨e, none⟩

/-- The state after a sequence of clicks; an exception ends its handler and
the next click runs on the state left behind. -/
def clicks (rt : Runtime) (e : Engine) : List Click → Engine
  | [] => e
  | c :: rest => clicks rt (click rt e c).state rest

/-! ## Options, colours, icons and link widths -/

/-- The option `theme`: `'light'` or `'dark'`. -/
inductive Theme where
  | light
  | dark
deriving DecidableEq

/-- The options of the constructor that the methods below read. -/
structure Options where
  theme : Theme
  maxLinkWidth : ℚ

/-- The options the constructor sets when the caller gives none of them. -/
def defaultOptions : Options := { theme := Theme.light, maxLinkWidth := 8 }

/-- The table `this.options.nodeColors` of the constructor: for each device
type the colour of the light and of the dark theme. -/
def nodeColors : List (String × (String × String)) :=
  [("router", ("#4285F4", "#5C9AFF")),
   ("switch", ("#34A853", "#4DC975")),
   ("access_point", ("#FBBC05", "#FFCE35")),
   ("server", ("#EA4335", "#FF6B60")),
   ("device", ("#9E9E9E", "#BDBDBD")),
   ("internet", ("#673AB7", "#8959F6"))]

/-- The member read `colors[theme]` of one row of a colour table. -/
def themed (theme : Theme) (c : String × String) : String :=
  match theme with
  | Theme.light => c.1
  | Theme.dark => c.2

/-- The property key of `node.type || 'device'`. -/
def typeKey (rt : Runtime) (node : Node) : String :=
  if truthy (getProp "type" node.props) then rt.string (getProp "type" node.props) else "device"

/-- The method `getNodeColor(node)`:
`this.options.nodeColors[type]?.[theme] || this.options.nodeColors.device[theme]`.
A type that is no key of the table gives `undefined`, also when it names a
member inherited from `Object.prototype`, which has neither `light` nor `dark`. -/
def getNodeColor (rt : Runtime) (opts : Options) (node : Node) : String :=
  match getProp (typeKey rt node) nodeColors with
  | some c => if themed opts.theme c ≠ "" then themed opts.theme c else themed opts.theme ("#9E9E9E", "#BDBDBD")
  | none => themed opts.theme ("#9E9E9E", "#BDBDBD")

/-- The names every object literal inherits from `Object.prototype`; each is
bound to a function, or (`__proto__`) to the prototype object, all truthy. -/
def objectPrototypeKeys : List String :=
  ["constructor", "__defineGetter__", "__defineSetter__", "hasOwnProperty",
   "__lookupGetter__", "__lookupSetter__", "isPrototypeOf", "propertyIsEnumerable",
   "toString", "valueOf", "__proto__", "toLocaleString"]

/-- The table `icons` of `getNodeIcon`. -/
def icons : List (String × String) :=
  [("router", "🖧"), ("switch", "🖧"), ("access_point", "📶"), ("server", "🖥️"),
   ("device", "📱"), ("internet", "🌐")]

/-- What `getNodeIcon` returns: a glyph of the table, or a member inherited
from `Object.prototype`. -/
inductive Icon where
  | glyph (s : String)
  | inherited (name : String)
deriving DecidableEq

/-- The method `getNodeIcon(node)`: `icons[type] || icons.device`. -/
def getNodeIcon (rt : Runtime) (node : Node) : Icon :=
  match getProp (typeKey rt node) icons with
  | some g => if g ≠ "" then Icon.glyph g else Icon.glyph "📱"
  | none =>
    if objectPrototypeKeys.contains (typeKey rt node) then Icon.inherited (typeKey rt node)
    else Icon.glyph "📱"

/-- The number `link.bandwidth || 100` as used in a division; `none` is `NaN`. -/
def bandwidthOf (rt : Runtime) (link : Link) : Option ℚ :=
  match getProp "bandwidth" link with
  | some (Val.json v) => if truthy (some v) then rt.number (some v) else some 100
  | some (Val.node _) => none
  | none => some 100

/-- The method `getLinkWidth(link)`:
`minWidth + (bandwidth / maxBandwidth) * this.options.maxLinkWidth` with
`maxBandwidth = 1000` and `minWidth = 1`; `none` is `NaN`. -/
def getLinkWidth (rt : Runtime) (opts : Options) (link : Link) : Option ℚ :=
  (bandwidthOf rt link).map (fun bandwidth => 1 + (bandwidth / 1000) * opts.maxLinkWidth)

/-- The stroke width of the line of a link group, in pixels. -/
def LinkGroup.strokeWidth (rt : Runtime) (opts : Options) (g : LinkGroup) : Option ℚ :=
  match g.width with
  | LineWidth.base => getLinkWidth rt opts g.datum
  | LineWidth.raised => (getLinkWidth rt opts g.datum).map (fun w => w + 1)

/-! ## Link arrows on a tick -/

/-- The path of a link arrow, `M sx,sy Q cx,cy tx,ty`: start, control point
and end of a quadratic curve. -/
structure QuadPath where
  start : ℚ × ℚ
  control : ℚ × ℚ
  finish : ℚ × ℚ
deriving DecidableEq

/-- The test `d.dataFlow === 'incoming'`. -/
def isIncoming : Option Val → Bool
  | some (Val.json (JsVal.str s)) => decide (s = "incoming")
  | _ => false

/-- The `d` attribute that `handleTick` gives to the arrow of a link whose
endpoints are at `source` and `target`. -/
def arrowPath (dataFlow : Option Val) (source target : ℚ × ℚ) : QuadPath :=
  let sourceX := if isIncoming dataFlow then target.1 else source.1
  let sourceY := if isIncoming dataFlow then target.2 else source.2
  let targetX := if isIncoming dataFlow then source.1 else target.1
  let targetY := if isIncoming dataFlow then source.2 else target.2
  { start := (sourceX, sourceY)
    control := ((sourceX + targetX) / 2 + 20, (sourceY + targetY) / 2)
    finish := (targetX, targetY) }

/-! ## Dragging a node -/

/-- The assignment `o[k] = v` where `v` may be `undefined`. -/
def assignProp (k : String) (v : Option JsVal) (o : Props) : Props :=
  match v with
  | some w => setProp k w o
  | none => o.filter (fun p => !decide (p.1 = k))

/-- The method `handleDragStart(event, d)` on the dragged node:
`d.fx = d.x; d.fy = d.y`. The call `this.simulation.alphaTarget(0.3).restart()`
before it changes no node. -/
def handleDragStart (d : Node) : Node :=
  let p1 := assignProp "fx" (getProp "x" d.props) d.props
  { d with props := assignProp "fy" (getProp "y" p1) p1 }

/-- The method `handleDrag(event, d)`: `d.fx = event.x; d.fy = event.y`. -/
def handleDrag (event : ℚ × ℚ) (d : Node) : Node :=
  { d with props := setProp "fy" (JsVal.num event.2) (setProp "fx" (JsVal.num event.1) d.props) }

/-- The method `handleDragEnd(event, d)`: `d.x = d.fx; d.y = d.fy`. The call
`this.simulation.alphaTarget(0)` before it changes no node. -/
def handleDragEnd (d : Node) : Node :=
  let p1 := assignProp "x" (getProp "fx" d.props) d.props
  { d with props := assignProp "y" (getProp "fy" p1) p1 }

/-- A whole drag gesture: start, one `drag` event per pointer position, end. -/
def dragGesture (pointer : List (ℚ × ℚ)) (d : Node) : Node :=
  handleDragEnd (pointer.foldl (fun n p => handleDrag p n) (handleDragStart d))

/-! # The topology page (`static/js/topology.js`): the scan flow

The page script is event driven. Each handler below is one callback of the
script; what it asks of the outside is appended to a log of the state: the
HTTP requests it sends, the timers it starts, the notifications and alerts it
shows. A response or a timer reaches the script through the handler it was
registered with. -/

namespace Controller

/-- An HTTP request sent with `fetch`. -/
structure Request where
  method : String
  url : String
  body : Option JsVal

/-- The outcome of a `fetch`: a rejected promise (network error), or a
response with its `ok` flag and its body (`none` when the body is not JSON,
which rejects `response.json()`). -/
inductive Response where
  | networkError (message : String)
  | http (ok : Bool) (body : Option JsVal)

/-- A callback given to `setTimeout`. -/
inductive Callback where
  | checkScanStatus
  | resetScanForm
deriving DecidableEq

/-- A call `showNotification(message, type)`. -/
structure Notice where
  message : String
  kind : String
deriving DecidableEq

/-- An entry of `#scanDevicesList`: the checkbox of a discovered device. -/
structure ScanItem where
  dataId : String
  label : String
  checked : Bool
deriving DecidableEq

/-- The state of the scan dialog and of the script variables behind it.
`scanJobId` is `none` for `null` or `undefined`; `progressWidth` is the value
`v` of the width `v%` that the script assigns to `.progress-bar-value` (`none`
for `undefined%`; what the browser makes of the text is outside the script);
the logs are oldest first, and `timers` holds the callbacks that are still
pending, each with its delay in milliseconds. -/
structure Page where
  scanJobId : Option JsVal
  scanRange : String
  scanPorts : Bool
  scanVendors : Bool
  scanServices : Bool
  modalShown : Bool
  startScanBtnShown : Bool
  cancelScanBtnText : String
  scanProgressShown : Bool
  scanResultsShown : Bool
  scanDevicesList : List ScanItem
  scanFoundCount : String
  addDevicesBtnShown : Bool
  progressWidth : Option JsVal
  progressText : String
  alerts : List String
  notices : List Notice
  requests : List Request
  timers : List (Callback × Nat)

/-- The function `resetScanForm()`. -/
def resetScanForm (st : Page) : Page :=
  { st with startScanBtnShown := true
            cancelScanBtnText := "Отмена"
            scanProgressShown := false
            addDevicesBtnShown := false
            scanJobId := none }

/-- The function `checkScanStatus()` up to its `fetch`:
`if (!scanJobId) return;` and the request for the status of the job. -/
def checkScanStatus (rt : Runtime) (st : Page) : Page :=
  if truthy st.scanJobId then
    { st with requests := st.requests ++
        [{ method := "GET", url := "/api/topology/scan/" ++ rt.string st.scanJobId, body := none }] }
  else st

/-- The function `startScan()` up to its `fetch`. -/
def startScan (st : Page) : Page :=
  if st.scanRange = "" then
    { st with alerts := st.alerts ++ ["Введите диапазон IP-адресов"] }
  else
    { st with startScanBtnShown := false
              cancelScanBtnText := "Отмена"
              scanProgressShown := true
              scanResultsShown := false
              scanDevicesList := []
              scanFoundCount := "0"
              addDevicesBtnShown := false
              progressWidth := some (JsVal.num 0)
              progressText := "Подготовка к сканированию..."
              requests := st.requests ++
                [{ method := "POST", url := "/api/topology/scan",
                   body := some (JsVal.obj
                     [("range", JsVal.str st.scanRange),
                      ("options", JsVal.obj
                        [("scan_ports", JsVal.bool st.scanPorts),
                         ("detect_vendors", JsVal.bool st.scanVendors),
                         ("detect_services", JsVal.bool st.scanServices)])]) }] }

/-- The first `then` of every `fetch` of the script:
`if (!response.ok) throw new Error(failure); return response.json();`.
The result is the parsed body, or the message of the error that rejects. -/
def parseResponse (failure : String) : Response → Except String JsVal
  | Response.networkError message => Except.error message
  | Response.http false _ => Except.error failure
  | Response.http true none => Except.error "SyntaxError: the body is not JSON"
  | Response.http true (some data) => Except.ok data

/-- The member read `data[k]` on a parsed body: a `TypeError` on `null`,
`undefined` on a primitive or an array. -/
def member (k : String) : JsVal → Except String (Option JsVal)
  | JsVal.null => Except.error "TypeError: cannot read properties of null"
  | JsVal.obj fields => Except.ok (getProp k fields)
  | _ => Except.ok none

/-- The `catch` of `startScan` and of `checkScanStatus`: a notification with
the message of the error, then `resetScanForm()`. -/
def scanFailure (prefixText : String) (message : String) (st : Page) : Page :=
  resetScanForm { st with notices := st.notices ++
    [{ message := prefixText ++ message, kind := "error" }] }

/-- The handler of the response to the request of `startScan`:
`scanJobId = data.job_id; checkScanStatus();`, or the `catch`. -/
def onScanStarted (rt : Runtime) (st : Page) (response : Response) : Page :=
  match parseResponse "Ошибка при запуске сканирования" response with
  | Except.error message => scanFailure "Ошибка при запуске сканирования: " message st
  | Except.ok data =>
    match member "job_id" data with
    | Except.error message => scanFailure "Ошибка при запуске сканирования: " message st
    | Except.ok jobId => checkScanStatus rt { st with scanJobId := jobId }

/-- The entry that `showScanResults` renders for one device; reading a member
of a `null` device throws. -/
def scanItem (rt : Runtime) (device : JsVal) : Except String ScanItem :=
  match member "id" device, member "name" device, member "ip" device with
  | Except.ok id, Except.ok name, Except.ok ip =>
    Except.ok
      { dataId := rt.string id
        label := (if truthy name then rt.string name else rt.string ip) ++ " (" ++
          rt.string ip ++ ")"
        checked := true }
  | _, _, _ => Except.error "TypeError: cannot read properties of null"

/-- The entries for a list of devices; the first device that throws ends the loop. -/
def scanItems (rt : Runtime) : List JsVal → Except String (List ScanItem)
  | [] => Except.ok []
  | device :: rest =>
    match scanItem rt device with
    | Except.error message => Except.error message
    | Except.ok item =>
      match scanItems rt rest with
      | Except.error message => Except.error message
      | Except.ok items => Except.ok (item :: items)

/-- The property `devices.length` as text, for an array, a string or an object. -/
def lengthText (rt : Runtime) : JsVal → String
  | JsVal.arr items => toString items.length
  | JsVal.str s => toString s.length
  | JsVal.obj fields => rt.string (getProp "length" fields)
  | _ => "undefined"

/-- The function `showScanResults(data.devices || [])`: the state it leaves
and the message of the error it throws, if any (a device that is `null`, or
devices that are no array and have no `forEach`). -/
def showScanResults (rt : Runtime) (devices : Option JsVal) (st : Page) : Page × Option String :=
  let list := if truthy devices then devices.getD (JsVal.arr []) else JsVal.arr []
  let st1 := { st with scanFoundCount := lengthText rt list }
  match list with
  | JsVal.arr items =>
    match scanItems rt items with
    | Except.error message => (st1, some message)
    | Except.ok entries =>
      ({ st1 with scanDevicesList := entries
                  scanResultsShown := true
                  addDevicesBtnShown := true
                  cancelScanBtnText := "Закрыть" }, none)
  | _ => (st1, some "TypeError: devices.forEach is not a function")

/-- The second `then` of `checkScanStatus` on the parsed body `data`: the
state it leaves and the message of the error it throws, if any. -/
def scanStatusBody (rt : Runtime) (data : JsVal) (st : Page) : Page × Option String :=
  match member "progress" data, member "status" data, member "message" data,
      member "devices" data with
  | Except.ok progress, Except.ok status, Except.ok message, Except.ok devices =>
    let st1 := { st with progressWidth := progress
                         progressText := "Сканирование: " ++ rt.string progress ++ "%" }
    if strictEq status (some (JsVal.str "completed")) then
      showScanResults rt devices { st1 with progressText := "Сканирование завершено" }
    else if strictEq status (some (JsVal.str "failed")) then
      let text := if truthy message then rt.string message else "Неизвестная ошибка"
      ({ st1 with progressText := "Ошибка: " ++ text
                  notices := st1.notices ++
                    [{ message := "Ошибка сканирования: " ++ text, kind := "error" }]
                  timers := st1.timers ++ [(Callback.resetScanForm, 2000)] }, none)
    else
      ({ st1 with timers := st1.timers ++ [(Callback.checkScanStatus, 1000)] }, none)
  | _, _, _, _ => (st, some "TypeError: cannot read properties of null")

/-- The handler of the response to the request of `checkScanStatus`: both
`then` callbacks and the `catch`. -/
def onScanStatus (rt : Runtime) (st : Page) (response : Response) : Page :=
  match parseResponse "Ошибка при проверке статуса сканирования" response with
  | Except.error message =>
    scanFailure "Ошибка при проверке статуса сканирования: " message st
  | Except.ok data =>
    match scanStatusBody rt data st with
    | (st1, some message) =>
      scanFailure "Ошибка при проверке статуса сканирования: " message st1
    | (st1, none) => st1

/-- The callback of a timer, run when the timer fires. -/
def runCallback (rt : Runtime) (st : Page) : Callback → Page
  | Callback.checkScanStatus => checkScanStatus rt st
  | Callback.resetScanForm => resetScanForm st

/-- The first pending timer fires: it leaves the list and its callback runs. -/
def fireTimer (rt : Runtime) (st : Page) : Page :=
  match st.timers with
  | [] => st
  | (callback, _) :: rest => runCallback rt { st with timers := rest } callback

/-- The states right after each response of a scan job is handled, when every
timer fires before the next response arrives. -/
def pollTrace (rt : Runtime) (st : Page) : List Response → List Page
  | [] => []
  | response :: rest =>
    onScanStatus rt st response :: pollTrace rt (fireTimer rt (onScanStatus rt st response)) rest

/-- The state after the responses of a scan job, each followed by the timer
it started. -/
def pollAll (rt : Runtime) (st : Page) : List Response → Page
  | [] => st
  | response :: rest => pollAll rt (fireTimer rt (onScanStatus rt st response)) rest

end Controller

/-! # The topology page: closing the scan dialog, adding devices, loading -/

namespace Controller

/-- The click handler of `#closeScanModal`: `scanNetworkModal.classList.remove('show')`. -/
def onCloseScanModalClick (st : Page) : Page := { st with modalShown := false }

/-- The click handler of `#cancelScanBtn`:
`scanNetworkModal.classList.remove('show'); resetScanForm();`. -/
def onCancelScanClick (st : Page) : Page := resetScanForm { st with modalShown := false }

/-- What a click inside the scan dialog hit: the dialog element itself, an
element with the class `modal-backdrop`, or anything else. -/
inductive ClickTarget where
  | modal
  | backdrop
  | other
deriving DecidableEq

/-- The click handler of `scanNetworkModal`: on the dialog element or on the
backdrop it hides the dialog and calls `resetScanForm()`. -/
def onScanModalClick (st : Page) : ClickTarget → Page
  | ClickTarget.other => st
  | _ => resetScanForm { st with modalShown := false }

/-- The page: the scan dialog with the logs, the loader and the error panel,
every `TopologyVisualizer` constructed so far (oldest first; the variable
`visualizer` holds the last one), the size of the container, the devices of
the table, whether the container listens to `node:select` and
`node:deselect` (the listeners are the same two functions on every load, so
the container keeps one registration of each), for each zoom button the number
of click listeners registered on it (each listener of `#zoomInBtn` is a new
function `() => visualizer.zoom(1.2)`), the calls `visualizer.zoom(factor)`
that the listeners made, each with the index of the engine it was made on, and
the exceptions that left a listener. -/
structure App where
  scan : Page
  loaderShown : Bool
  errorShown : Bool
  topologyData : Option (List Props × List Props)
  engines : List Engine
  containerWidth : ℚ
  containerHeight : ℚ
  devicesTable : List Props
  nodeSelectListening : Bool
  zoomInListeners : Nat
  zoomOutListeners : Nat
  resetZoomListeners : Nat
  zoomCalls : List (Nat × ℚ)
  uncaught : List String

/-- The function `initializeTopology()` up to its `fetch`: `showLoader()` and
the request for the topology. -/
def initializeTopology (app : App) : App :=
  { app with loaderShown := true
             errorShown := false
             scan := { app.scan with requests := app.scan.requests ++
               [{ method := "GET", url := "/api/topology/network", body := none }] } }

/-- The outcome of the request of `initializeTopology`: a failure (network
error, status outside 2xx, body that is not JSON), or a topology, a body with
an array `nodes` and an array `links` of objects. Other JSON bodies are not
part of the model. -/
inductive LoadResponse where
  | failed
  | loaded (nodes links : List Props)

/-- The function `showError()`. -/
def showError (app : App) : App := { app with loaderShown := false, errorShown := true }

/-- The handler of the response to the request of `initializeTopology`. On
success: `topologyData = data; hideLoader(); initializeVisualizer(data);
updateDevicesTable(data.nodes);`, where `initializeVisualizer` constructs a new
`TopologyVisualizer` on the container, assigns it to `visualizer`, calls
`setData` and then registers the listeners. An exception of `setData` skips
the rest and reaches the `catch`, which calls `showError()`. -/
def onTopologyLoaded (rt : Runtime) (app : App) : LoadResponse → App
  | LoadResponse.failed => showError app
  | LoadResponse.loaded nodes links =>
    let bound := setData rt (create app.containerWidth app.containerHeight) nodes links
    let app1 := { app with topologyData := some (nodes, links)
                           loaderShown := false
                           engines := app.engines ++ [bound.state] }
    match bound.thrown with
    | some _ => showError app1
    | none =>
      { app1 with nodeSelectListening := true
                  zoomInListeners := app1.zoomInListeners + 1
                  zoomOutListeners := app1.zoomOutListeners + 1
                  resetZoomListeners := app1.resetZoomListeners + 1
                  devicesTable := nodes }

/-- A listener `() => visualizer.zoom(factor)` runs: the call is made on the
engine constructed last (on `null` before the first load), and the exception
it throws leaves the listener. -/
def zoomVisualizer (factor : ℚ) (app : App) : App :=
  match app.engines.getLast? with
  | none =>
    { app with uncaught := app.uncaught ++
        ["TypeError: cannot read properties of null (reading zoom)"] }
  | some e =>
    { app with engines := app.engines.dropLast ++ [(zoom e factor).state]
               zoomCalls := app.zoomCalls ++ [(app.engines.length - 1, factor)]
               uncaught := app.uncaught ++ (zoom e factor).thrown.toList }

/-- A click on `#zoomInBtn`: every registered listener runs
`visualizer.zoom(1.2)`, one after the other; an exception in a listener does
not stop the next one. -/
def onZoomInClick (app : App) : App :=
  Nat.iterate (zoomVisualizer (6 / 5)) app.zoomInListeners app

/-- The ids of the checked devices of `#scanDevicesList`. -/
def checkedIds (st : Page) : List String :=
  (st.scanDevicesList.filter (fun item => item.checked)).map (fun item => item.dataId)

/-- The function `addDevices()` up to its `fetch`. The body is
`{ devices: deviceIds, job_id: scanJobId }`, with `null` for a `scanJobId`
that holds no value. -/
def addDevices (app : App) : App :=
  if (checkedIds app.scan).length = 0 then
    { app with scan := { app.scan with alerts := app.scan.alerts ++
        ["Выберите устройства для добавления"] } }
  else
    { app with scan := { app.scan with requests := app.scan.requests ++
        [{ method := "POST", url := "/api/topology/devices/add",
           body := some (JsVal.obj
             [("devices", JsVal.arr ((checkedIds app.scan).map JsVal.str)),
              ("job_id", app.scan.scanJobId.getD JsVal.null)]) }] } }

/-- The handler of the response to the request of `addDevices`, for the
`count` devices that were sent: a notification, and on success
`scanNetworkModal.classList.remove('show'); resetScanForm(); initializeTopology();`. -/
def onDevicesAdded (app : App) (count : Nat) (response : Response) : App :=
  match parseResponse "Ошибка при добавлении устройств" response with
  | Except.error message =>
    let failed : Notice :=
      { message := "Ошибка при добавлении устройств: " ++ message, kind := "error" }
    { app with scan := { app.scan with notices := app.scan.notices ++ [failed] } }
  | Except.ok _ =>
    let added : Notice :=
      { message := "Добавлено " ++ toString count ++ " устройств", kind := "success" }
    let closed : Page :=
      { app.scan with notices := app.scan.notices ++ [added], modalShown := false }
    initializeTopology { app with scan := resetScanForm closed }

/-! ## The device panel -/

/-- A row of a table of the device panel: the placeholder row `Нет данных`
spanning the table, or a row of cells. -/
inductive TableRow where
  | noData
  | cells (texts : List String)
deriving DecidableEq

/-- The text of `v || fallback` in a template literal. -/
def textOr (rt : Runtime) (v : Option JsVal) (fallback : String) : String :=
  if truthy v then rt.string v else fallback

/-- The row of one interface: name, ip, mac, state. -/
def interfaceRow (rt : Runtime) (iface : JsVal) : Except String TableRow :=
  match member "name" iface, member "ip" iface, member "mac" iface, member "is_up" iface with
  | Except.ok name, Except.ok ip, Except.ok mac, Except.ok isUp =>
    Except.ok (TableRow.cells
      [textOr rt name "Неизвестно", textOr rt ip "Нет данных", textOr rt mac "Нет данных",
       if truthy isUp then "Активен" else "Отключен"])
  | _, _, _, _ => Except.error "TypeError: cannot read properties of null"

/-- The row of one service: port, protocol, name, state. -/
def serviceRow (rt : Runtime) (service : JsVal) : Except String TableRow :=
  match member "port" service, member "protocol" service, member "name" service,
      member "status" service with
  | Except.ok port, Except.ok protocol, Except.ok name, Except.ok status =>
    Except.ok (TableRow.cells
      [textOr rt port "Нет данных", textOr rt protocol "Нет данных", textOr rt name "Неизвестно",
       if strictEq status (some (JsVal.str "open")) then "Открыт" else "Закрыт"])
  | _, _, _, _ => Except.error "TypeError: cannot read properties of null"

/-- A table body of the device panel with the `display` of its section. -/
structure DetailTable where
  rows : List TableRow
  sectionShown : Bool
deriving DecidableEq

/-- The rows of a list, as `forEach` builds them; the first callback that
throws ends the loop. -/
def tableRows (row : JsVal → Except String TableRow) : List JsVal → Except String (List TableRow)
  | [] => Except.ok []
  | item :: rest =>
    match row item with
    | Except.error message => Except.error message
    | Except.ok r =>
      match tableRows row rest with
      | Except.error message => Except.error message
      | Except.ok rs => Except.ok (r :: rs)

/-- The part of `updateDeviceDetails` for one list of the device (`list &&
list.length > 0`, then `forEach`): a non-empty array gives its rows in a shown
section; a missing, falsy or empty list gives the placeholder row in a hidden
section; a non-empty string, or an object with a positive `length`, has no
`forEach` and throws. -/
def detailTable (row : JsVal → Except String TableRow) (list : Option JsVal) :
    Except String DetailTable :=
  match list with
  | some (JsVal.arr (item :: rest)) =>
    match tableRows row (item :: rest) with
    | Except.error message => Except.error message
    | Except.ok rows => Except.ok { rows := rows, sectionShown := true }
  | some (JsVal.str s) =>
    if s = "" then Except.ok { rows := [TableRow.noData], sectionShown := false }
    else Except.error "TypeError: forEach is not a function"
  | some (JsVal.obj fields) =>
    match getProp "length" fields with
    | some (JsVal.num q) =>
      if 0 < q then Except.error "TypeError: forEach is not a function"
      else Except.ok { rows := [TableRow.noData], sectionShown := false }
    | _ => Except.ok { rows := [TableRow.noData], sectionShown := false }
  | _ => Except.ok { rows := [TableRow.noData], sectionShown := false }

/-- The interfaces table of `updateDeviceDetails(device)`. -/
def interfacesTable (rt : Runtime) (device : Props) : Except String DetailTable :=
  detailTable (interfaceRow rt) (getProp "interfaces" device)

/-- The services table of `updateDeviceDetails(device)`. -/
def servicesTable (rt : Runtime) (device : Props) : Except String DetailTable :=
  detailTable (serviceRow rt) (getProp "services" device)

end Controller

/-! # The request helper (`static/js/api.js`) -/

namespace API

/-- An HTTP response as `fetch` resolves it: status code, status text, and what
`response.json()` settles to, the parsed body or the message of the
`SyntaxError` for a body that is not JSON (an empty body is not). -/
structure HttpResponse where
  status : Nat
  statusText : String
  json : Except String JsVal

/-- The property `response.ok`: the status is in the range 200-299. -/
def HttpResponse.ok (r : HttpResponse) : Bool := decide (200 ≤ r.status) && decide (r.status ≤ 299)

/-- The request of a helper: method, url, body. -/
structure Call where
  method : String
  url : String
  body : Option JsVal

/-- The `then` chain shared by the four helpers:
`if (!response.ok) throw new Error(...); return response.json();`, then the
second `then`, which logs and returns the data. The result is the value the
promise resolves to, or the message of the error it rejects with. -/
def settle (response : HttpResponse) : Except String JsVal :=
  if !response.ok then
    Except.error ("Ошибка " ++ toString response.status ++ ": " ++ response.statusText)
  else response.json

/-- The helper `API.get(url, params = {})`: the request it sends and, for a
response, what its promise settles to. The parameter `params` is never read. -/
def get (url : String) (_params : Option JsVal) (response : HttpResponse) :
    Call × Except String JsVal :=
  ({ method := "GET", url := url, body := none }, settle response)

/-- The helper `API.post(url, data = {})`; `none` is a `data` left out. -/
def post (url : String) (data : Option JsVal) (response : HttpResponse) :
    Call × Except String JsVal :=
  ({ method := "POST", url := url, body := some (data.getD (JsVal.obj [])) }, settle response)

/-- The helper `API.put(url, data = {})`; `none` is a `data` left out. -/
def put (url : String) (data : Option JsVal) (response : HttpResponse) :
    Call × Except String JsVal :=
  ({ method := "PUT", url := url, body := some (data.getD (JsVal.obj [])) }, settle response)

/-- The helper `API.delete(url)`. -/
def delete (url : String) (response : HttpResponse) : Call × Except String JsVal :=
  ({ method := "DELETE", url := url, body := none }, settle response)

end API

/-! ## Notions used to state the properties -/

/-- The state after a sequence of calls `engine.zoom(factor)`; an exception
ends its call and the next call runs on the state left behind. -/
def zoomCalls (e : Engine) : List ℚ → Engine
  | [] => e
  | f :: fs => zoomCalls (zoom e f).state fs

/-- An engine on a container of 1000 x 600 that the user has zoomed with the
wheel to the upper bound of the scale: d3 called `handleZoom` with scale 3. -/
def boundScaleEngine : Engine := handleZoom (create 1000 600) ⟨3, 0, 0⟩

/-- A link endpoint held as a node object or as a raw id (a string or a number). -/
def isEndpoint : Option Val → Bool
  | some (Val.node _) => true
  | some (Val.json (JsVal.str _)) => true
  | some (Val.json (JsVal.num _)) => true
  | _ => false

/-- The id of a link endpoint: the `id` of a node object, or the raw id itself. -/
def endpointId : Option Val → Option Val
  | some (Val.node n) => n.id.map Val.json
  | v => v

/-- A small engine state: two nodes, one link whose source is a node object
and whose target is a raw id. -/
def sampleEngine : Engine :=
  { create 800 600 with
    nodes := [⟨0, [("id", JsVal.str "r1"), ("x", JsVal.num 3), ("vx", JsVal.num 1)]⟩,
              ⟨1, [("id", JsVal.str "d1"), ("name", JsVal.str "printer")]⟩]
    links := [[("source", Val.node ⟨0, [("id", JsVal.str "r1")]⟩),
               ("target", Val.json (JsVal.str "d1")),
               ("index", Val.json (JsVal.num 0))]]
    nextOid := 2 }

/-- The digits after the decimal point of `r / d` for `r < d`, at most `fuel` of them. -/
def fractionDigits : Nat → Nat → Nat → String
  | 0, _, _ => ""
  | fuel + 1, r, d =>
    if r = 0 then "" else toString (r * 10 / d) ++ fractionDigits fuel (r * 10 % d) d

/-- The decimal expansion of a number, cut after 17 digits: this is
`String(n)` for a number with a short expansion, such as `10`, `-7` or `0.5`. -/
def decimalText (q : ℚ) : String :=
  (if q < 0 then "-" else "") ++ toString (q.num.natAbs / q.den) ++
    (if q.num.natAbs % q.den = 0 then ""
     else "." ++ fractionDigits 17 (q.num.natAbs % q.den) q.den)

/-- A runtime for the examples. The places are those of d3-force rounded to
whole numbers: `(7, 0)` for index 0, `(-9, 8)` for index 1, `(1, -16)` for
index 2 and, for every later index, the `(11, 15)` of index 3 (the examples
have at most four nodes). A number converts to its decimal expansion, an
object to `[object Object]`; no example converts a string to a number or an
array to a string. -/
def sampleRuntime : Runtime :=
  { place := fun i => match i with
      | 0 => (7, 0)
      | 1 => (-9, 8)
      | 2 => (1, -16)
      | _ => (11, 15)
    toNum := fun _ => none
    toStr := fun v => match v with
      | JsVal.num q => decimalText q
      | JsVal.obj _ => "[object Object]"
      | _ => "" }

/-- An engine that has rendered the two nodes `r1` and `d1`, without links. -/
def boundEngine : Engine :=
  (setData sampleRuntime (create 800 600)
    [[("id", JsVal.str "r1"), ("type", JsVal.str "router")],
     [("id", JsVal.str "d1"), ("type", JsVal.str "device")]] []).state

/-- The pair of endpoint ids of a link. -/
def linkEnds (l : Link) : Option Val × Option Val :=
  (endpointId (getProp "source" l), endpointId (getProp "target" l))

/-- Whether the member read `v.id` returns (it throws on `undefined` and `null`). -/
def canReadId (v : Option Val) : Bool :=
  match Val.idOf v with
  | Except.ok _ => true
  | Except.error _ => false

/-- A rendered graph with unique ids: node and link groups exist, the node
groups carry the nodes of `this.nodes` in order, the ids are strings or
numbers and pairwise different, the node objects are pairwise different, the
endpoints of the links and of the link groups can be read, and a circle with
the selected stroke belongs to the selected node. -/
def Rendered (e : Engine) : Prop :=
  ∃ gs ls, e.nodeGroups = some gs ∧ e.linkGroups = some ls ∧
    gs.map (fun g => g.datum) = e.nodes ∧
    (∀ n ∈ e.nodes, isStringOrNumber n.id = true) ∧
    (e.nodes.map Node.id).Nodup ∧
    (e.nodes.map Node.oid).Nodup ∧
    (∀ l ∈ e.links, canReadId (getProp "source" l) = true ∧
      canReadId (getProp "target" l) = true) ∧
    (∀ g ∈ ls, canReadId (getProp "source" g.datum) = true ∧
      canReadId (getProp "target" g.datum) = true) ∧
    (∀ g ∈ gs, g.stroke = Stroke.primary →
      ∃ sel, e.selectedNode = some sel ∧ sel.oid = g.datum.oid)

/-- The events `deselectNode()` dispatches: one `node:deselect` carrying the
selected node, or none when nothing is selected. -/
def deselectEvents (e : Engine) : List Event :=
  match e.selectedNode with
  | some sel => [Event.deselect sel]
  | none => []

/-- The engine `boundEngine` after `setData` with the nodes `r1`, `d1` and the
link `r1 - d1` (the link force resolves both ids among the nodes rendered
before). -/
def linkedEngine : Engine :=
  (setData sampleRuntime boundEngine
    [[("id", JsVal.str "r1"), ("type", JsVal.str "router")],
     [("id", JsVal.str "d1"), ("type", JsVal.str "device")]]
    [[("source", JsVal.str "r1"), ("target", JsVal.str "d1"), ("bandwidth", JsVal.num 500)]]).state

/-- The engine `linkedEngine` after a click on its first node, `r1`. -/
def selectedEngine : Engine := clicks sampleRuntime linkedEngine [Click.node 0]

/-- The second node object of `selectedEngine`, `d1`. -/
def secondNode : Node := selectedEngine.nodes.getD 1 ⟨0, []⟩

/-- The engine `boundEngine` after `setData` with the nodes `r1`, `d1`, a link
from `r1` to itself and the link `r1 - d1`. -/
def loopEngine : Engine :=
  (setData sampleRuntime boundEngine
    [[("id", JsVal.str "r1"), ("type", JsVal.str "router")],
     [("id", JsVal.str "d1"), ("type", JsVal.str "device")]]
    [[("source", JsVal.str "r1"), ("target", JsVal.str "r1")],
     [("source", JsVal.str "r1"), ("target", JsVal.str "d1")]]).state

/-- The engine `boundEngine` after `setData` with the nodes `r1`, `d1` and a
link from `r1` to the unknown id `zz`: the link force throws, so the node
array holds the new node objects while the node groups still carry the
objects rendered before. -/
def unboundEngine : Engine :=
  (setData sampleRuntime boundEngine
    [[("id", JsVal.str "r1"), ("type", JsVal.str "router")],
     [("id", JsVal.str "d1"), ("type", JsVal.str "device")]]
    [[("source", JsVal.str "r1"), ("target", JsVal.str "zz")]]).state

namespace Controller

/-- The response to a status request with HTTP status 2xx and a JSON object as body. -/
def statusResponse (fields : Props) : Response := Response.http true (some (JsVal.obj fields))

/-- A status that keeps the polling going: neither `'completed'` nor `'failed'`. -/
def isRunning (fields : Props) : Bool :=
  !strictEq (getProp "status" fields) (some (JsVal.str "completed")) &&
    !strictEq (getProp "status" fields) (some (JsVal.str "failed"))

/-- The text of the failure shown for a failed job: `data.message || 'Неизвестная ошибка'`. -/
def failureText (rt : Runtime) (fields : Props) : String :=
  if truthy (getProp "message" fields) then rt.string (getProp "message" fields)
  else "Неизвестная ошибка"

/-- The scan dialog while a job is running: the range was submitted, the job
id `'job-1'` is stored and the first status request has been sent. -/
def scanningPage : Page :=
  { scanJobId := some (JsVal.str "job-1")
    scanRange := "192.168.1.0/24"
    scanPorts := true
    scanVendors := false
    scanServices := false
    modalShown := true
    startScanBtnShown := false
    cancelScanBtnText := "Отмена"
    scanProgressShown := true
    scanResultsShown := false
    scanDevicesList := []
    scanFoundCount := "0"
    addDevicesBtnShown := false
    progressWidth := some (JsVal.num 0)
    progressText := "Подготовка к сканированию..."
    alerts := []
    notices := []
    requests :=
      [{ method := "POST", url := "/api/topology/scan", body := none },
       { method := "GET", url := "/api/topology/scan/job-1", body := none }]
    timers := [] }

/-- The scan dialog as it is opened, before any scan: no job, empty range. -/
def idlePage : Page :=
  { scanningPage with scanJobId := none
                      scanRange := ""
                      startScanBtnShown := true
                      scanProgressShown := false
                      requests := [] }

end Controller

namespace Controller

/-- The status request that `checkScanStatus` sends for the job of `st`. -/
def statusRequest (rt : Runtime) (st : Page) : Request :=
  { method := "GET", url := "/api/topology/scan/" ++ rt.string st.scanJobId, body := none }

/-- The state right after the failed response of a scan job is handled: the
responses `running` came first, each followed by the next poll. -/
def afterFailed (rt : Runtime) (st : Page) (running : List Props) (failed : Props) : Page :=
  onScanStatus rt (pollAll rt st (running.map statusResponse)) (statusResponse failed)

/-- Two status bodies of a running job, at 10 and at 60 percent. -/
def sampleRunning : List Props :=
  [[("status", JsVal.str "running"), ("progress", JsVal.num 10)],
   [("status", JsVal.str "running"), ("progress", JsVal.num 60)]]

/-- The status body of a job that failed with the message `timeout`. -/
def sampleFailed : Props :=
  [("status", JsVal.str "failed"), ("progress", JsVal.num 60), ("message", JsVal.str "timeout")]

end Controller

namespace Controller

/-- The number shown by the progress bar, when its width is a number of percent. -/
def barValue (st : Page) : Option ℚ :=
  match st.progressWidth with
  | some (JsVal.num q) => some q
  | _ => none

/-- The status bodies of a job that reports 50 percent, then 30 percent, then
completes at 30 percent without devices. -/
def sampleRegress : List Props :=
  [[("status", JsVal.str "running"), ("progress", JsVal.num 50)],
   [("status", JsVal.str "running"), ("progress", JsVal.num 30)],
   [("status", JsVal.str "completed"), ("progress", JsVal.num 30), ("devices", JsVal.arr [])]]

end Controller

/-- A call of a method of the engine from outside, or a click. -/
inductive Action where
  | setData (nodes links : List Props)
  | selectNode (arg : SelectArg)
  | deselectNode
  | click (c : Click)

/-- The outcome of an action. -/
def act (rt : Runtime) (e : Engine) : Action → Outcome
  | Action.setData nodes links => setData rt e nodes links
  | Action.selectNode arg => selectNode rt e arg
  | Action.deselectNode => deselectNode e
  | Action.click c => click rt e c

/-- The state after a sequence of actions; an exception ends its call and the
next action runs on the state left behind. -/
def acts (rt : Runtime) (e : Engine) : List Action → Engine
  | [] => e
  | a :: rest => acts rt (act rt e a).state rest

/-- Whether `selectedNode` is `null` or one of the node objects of `this.nodes`. -/
def selectionCurrent (e : Engine) : Bool :=
  match e.selectedNode with
  | none => true
  | some sel => e.nodes.any (fun n => Node.same sel n)

/-- Whether every `setData` of a sequence of actions is called while nothing
is selected. -/
def setDataUnselected (rt : Runtime) (e : Engine) : List Action → Bool
  | [] => true
  | Action.setData nodes links :: rest =>
    e.selectedNode.isNone && setDataUnselected rt (setData rt e nodes links).state rest
  | a :: rest => setDataUnselected rt (act rt e a).state rest

/-- A session on a new engine: the nodes `r1` and `d1` are loaded, `r1` is
clicked, then `setData` is called with `d1` alone. -/
def staleSession : List Action :=
  [Action.setData [[("id", JsVal.str "r1")], [("id", JsVal.str "d1")]] [],
   Action.click (Click.node 0),
   Action.setData [[("id", JsVal.str "d1")]] []]

/-- A session on a new engine in which `setData` is called only while nothing
is selected: load, click `r1`, click the background, load again, select `d1`. -/
def tidySession : List Action :=
  [Action.setData [[("id", JsVal.str "r1")], [("id", JsVal.str "d1")]] [],
   Action.click (Click.node 0),
   Action.click Click.background,
   Action.setData [[("id", JsVal.str "d1")]] [],
   Action.selectNode (SelectArg.id "d1")]

namespace Controller

/-- The status body of a running job at 10 percent. -/
def runningBody : Props := [("status", JsVal.str "running"), ("progress", JsVal.num 10)]

/-- The scan dialog right after a running status response was handled: the
job id `'job-1'` is stored and the next poll is pending. -/
def runningPage : Page := onScanStatus sampleRuntime scanningPage (statusResponse runningBody)

/-- The request that `startScan` sends for the form of `st`. -/
def scanRequest (st : Page) : Request :=
  { method := "POST", url := "/api/topology/scan",
    body := some (JsVal.obj
      [("range", JsVal.str st.scanRange),
       ("options", JsVal.obj
         [("scan_ports", JsVal.bool st.scanPorts),
          ("detect_vendors", JsVal.bool st.scanVendors),
          ("detect_services", JsVal.bool st.scanServices)])]) }

/-- The request of the load flow. -/
def topologyRequest : Request := { method := "GET", url := "/api/topology/network", body := none }

/-- The request that `addDevices` sends for the ids `ids` and the job id `jobId`. -/
def addRequest (ids : List String) (jobId : Option JsVal) : Request :=
  { method := "POST", url := "/api/topology/devices/add",
    body := some (JsVal.obj
      [("devices", JsVal.arr (ids.map JsVal.str)), ("job_id", jobId.getD JsVal.null)]) }

/-- The scan dialog with the results of the job `'job-1'`: three discovered
devices, the first and the third checked. -/
def resultsPage : Page :=
  { scanningPage with
    scanDevicesList :=
      [{ dataId := "dev-1", label := "printer (10.0.0.5)", checked := true },
       { dataId := "dev-2", label := "camera (10.0.0.6)", checked := false },
       { dataId := "dev-3", label := "10.0.0.7 (10.0.0.7)", checked := true }]
    scanResultsShown := true
    addDevicesBtnShown := true
    cancelScanBtnText := "Закрыть" }

/-- One run of the load flow: the request and the handling of its response. -/
def loadFlow (rt : Runtime) (app : App) (response : LoadResponse) : App :=
  onTopologyLoaded rt (initializeTopology app) response

/-- Runs of the load flow, one after the other. -/
def runLoads (rt : Runtime) (app : App) : List LoadResponse → App
  | [] => app
  | response :: rest => runLoads rt (loadFlow rt app response) rest

/-- A response with which the load flow succeeds on a container of the given
size: the topology arrives and `setData` returns normally on the new engine. -/
def successful (rt : Runtime) (width height : ℚ) : LoadResponse → Bool
  | LoadResponse.failed => false
  | LoadResponse.loaded nodes links => (setData rt (create width height) nodes links).thrown.isNone

/-- The page before the first load: no engine, no listener on the zoom
buttons, the scan dialog idle. -/
def startApp : App :=
  { scan := idlePage
    loaderShown := false
    errorShown := false
    topologyData := none
    engines := []
    containerWidth := 800
    containerHeight := 600
    devicesTable := []
    nodeSelectListening := false
    zoomInListeners := 0
    zoomOutListeners := 0
    resetZoomListeners := 0
    zoomCalls := []
    uncaught := [] }

/-- A response that brings a topology: the load flow then constructs an engine. -/
def isLoaded : LoadResponse → Bool
  | LoadResponse.failed => false
  | LoadResponse.loaded _ _ => true

/-- The page with the results of a scan shown in the dialog. -/
def resultsApp : App := { startApp with scan := resultsPage }

/-- The page of `resultsApp` with no device checked. -/
def uncheckedApp : App :=
  { startApp with scan := { resultsPage with
      scanDevicesList := resultsPage.scanDevicesList.map (fun item => { item with checked := false }) } }

/-- A topology of two nodes without links. -/
def sampleTopology : LoadResponse :=
  LoadResponse.loaded
    [[("id", JsVal.str "r1"), ("type", JsVal.str "router")],
     [("id", JsVal.str "d1"), ("type", JsVal.str "device")]] []

/-- A topology of two nodes and the link between them, given by their ids. On
a new engine the link force holds no node yet, so `setData` throws. -/
def linkedTopology : LoadResponse :=
  LoadResponse.loaded
    [[("id", JsVal.str "r1"), ("type", JsVal.str "router")],
     [("id", JsVal.str "d1"), ("type", JsVal.str "device")]]
    [[("source", JsVal.str "r1"), ("target", JsVal.str "d1")]]

/-- The page after two successful loads. -/
def reloadedApp : App := runLoads sampleRuntime startApp [sampleTopology, sampleTopology]

/-- The page after a successful load, a load whose `setData` throws, a failed
request and another successful load. -/
def mixedApp : App :=
  runLoads sampleRuntime startApp
    [sampleTopology, linkedTopology, LoadResponse.failed, sampleTopology]

/-- A device without an `interfaces` property and with an empty `services` list. -/
def bareDevice : Props := [("id", JsVal.str "d1"), ("services", JsVal.arr [])]

/-- A device with two interfaces and one service. -/
def fullDevice : Props :=
  [("id", JsVal.str "r1"),
   ("interfaces", JsVal.arr
     [JsVal.obj [("name", JsVal.str "eth0"), ("ip", JsVal.str "10.0.0.1"), ("is_up", JsVal.bool true)],
      JsVal.obj [("name", JsVal.str "wlan0")]]),
   ("services", JsVal.arr
     [JsVal.obj [("port", JsVal.str "22"), ("protocol", JsVal.str "tcp"),
       ("name", JsVal.str "ssh"), ("status", JsVal.str "open")]])]

end Controller

/-! # Theorems -/

/-! ## Objects as association lists -/

theorem getProp_map {α β : Type} (f : α → β) (k : String) (o : List (String × α)) :
    getProp k (o.map (fun p => (p.1, f p.2))) = (getProp k o).map f := by
  induction o with
  | nil => rfl
  | cons p rest ih =>
    obtain ⟨k', v⟩ := p
    by_cases h : k' = k <;> simp [getProp, h, ih]

theorem getProp_append {α : Type} (k : String) (o₁ o₂ : List (String × α)) :
    getProp k (o₁ ++ o₂) = match getProp k o₁ with
      | some v => some v
      | none => getProp k o₂ := by
  induction o₁ with
  | nil => rfl
  | cons p rest ih =>
    obtain ⟨k', v⟩ := p
    by_cases h : k' = k <;> simp [getProp, h, ih]

theorem getProp_restProps_mem {α : Type} (ks : List String) (k : String) (hk : k ∈ ks)
    (o : List (String × α)) : getProp k (restProps ks o) = none := by
  induction o with
  | nil => rfl
  | cons p rest ih =>
    obtain ⟨k', v⟩ := p
    simp only [restProps, List.filter_cons] at ih ⊢
    by_cases h : k' ∈ ks
    · simpa [h] using ih
    · have hne : k' ≠ k := fun hh => h (hh ▸ hk)
      simpa [h, getProp, hne] using ih

theorem getProp_restProps_not_mem {α : Type} (ks : List String) (k : String) (hk : k ∉ ks)
    (o : List (String × α)) : getProp k (restProps ks o) = getProp k o := by
  induction o with
  | nil => rfl
  | cons p rest ih =>
    obtain ⟨k', v⟩ := p
    simp only [restProps, List.filter_cons] at ih ⊢
    by_cases h : k' ∈ ks
    · have hne : k' ≠ k := fun hh => hk (hh ▸ h)
      simpa [h, getProp, hne] using ih
    · by_cases h2 : k' = k
      · subst h2
        simp [h, getProp]
      · simpa [h, getProp, h2] using ih

theorem hasProp_eq_isSome {α : Type} (k : String) (o : List (String × α)) :
    hasProp k o = (getProp k o).isSome := by
  induction o with
  | nil => rfl
  | cons p rest ih =>
    obtain ⟨k', v⟩ := p
    unfold hasProp at ih ⊢
    by_cases h : k' = k <;> simp [getProp, h, ih]

/-! ## getData -/

theorem getDataLinks_forall₂ (R : Link → Plain Val → Prop) :
    ∀ (links : List Link), (∀ l ∈ links, ∃ o, getDataLink l = Except.ok o ∧ R l o) →
      ∃ os, getDataLinks links = Except.ok os ∧ List.Forall₂ R links os := by
  intro links
  induction links with
  | nil => intro _; exact ⟨[], rfl, List.Forall₂.nil⟩
  | cons l rest ih =>
    intro h
    obtain ⟨o, ho, hR⟩ := h l (List.mem_cons_self _ _)
    obtain ⟨os, hos, hF⟩ := ih (fun l' hl' => h l' (List.mem_cons_of_mem _ hl'))
    exact ⟨o :: os, by simp [getDataLinks, ho, hos], List.Forall₂.cons hR hF⟩

theorem collapseEndpoint_of_isEndpoint (v : Option Val) (h : isEndpoint v = true) :
    collapseEndpoint v = Except.ok (endpointId v) := by
  match v, h with
  | some (Val.node n), _ => rfl
  | some (Val.json (JsVal.str s)), _ => rfl
  | some (Val.json (JsVal.num q)), _ => rfl

/-- Claim C4. Every node returned by `getData()` has no `vx`, `vy`, `fx`, `fy`
or `index`, has the `x` and `y` of the engine node, and carries every other
field unchanged; every returned link has `source` and `target` equal to the
ids of its endpoints (held as node objects or as raw ids), has no
`sourceNode`, `targetNode` or `index`, and carries every other field unchanged. -/
theorem getData_snapshot (e : Engine)
    (hl : ∀ l ∈ e.links,
      isEndpoint (getProp "source" l) = true ∧ isEndpoint (getProp "target" l) = true) :
    ∃ ns ls, getData e = Except.ok (ns, ls) ∧
      List.Forall₂ (fun n o =>
        (∀ k ∈ ["vx", "vy", "fx", "fy", "index"], hasProp k o = false) ∧
        Plain.get "x" o = getProp "x" n.props ∧
        Plain.get "y" o = getProp "y" n.props ∧
        (∀ k, k ∉ ["x", "y", "vx", "vy", "fx", "fy", "index"] →
          getProp k o = (getProp k n.props).map some)) e.nodes ns ∧
      List.Forall₂ (fun l o =>
        Plain.get "source" o = endpointId (getProp "source" l) ∧
        Plain.get "target" o = endpointId (getProp "target" l) ∧
        (∀ k ∈ ["sourceNode", "targetNode", "index"], hasProp k o = false) ∧
        (∀ k, k ∉ ["source", "target", "sourceNode", "targetNode", "index"] →
          getProp k o = (getProp k l).map some)) e.links ls := by
  obtain ⟨ls, hls, hF⟩ := getDataLinks_forall₂ (fun l o =>
        Plain.get "source" o = endpointId (getProp "source" l) ∧
        Plain.get "target" o = endpointId (getProp "target" l) ∧
        (∀ k ∈ ["sourceNode", "targetNode", "index"], hasProp k o = false) ∧
        (∀ k, k ∉ ["source", "target", "sourceNode", "targetNode", "index"] →
          getProp k o = (getProp k l).map some)) e.links (by
    intro l hmem
    obtain ⟨hs, ht⟩ := hl l hmem
    refine ⟨_, by simp [getDataLink, collapseEndpoint_of_isEndpoint _ hs,
      collapseEndpoint_of_isEndpoint _ ht]; rfl, ?_, ?_, ?_, ?_⟩
    · simp [Plain.get, getProp_append, getProp_map, getProp_restProps_mem, getProp]
    · simp [Plain.get, getProp_append, getProp_map, getProp_restProps_mem, getProp]
    · intro k hk
      have hk' : k ∈ ["source", "target", "sourceNode", "targetNode", "index"] := by
        simp at hk ⊢; tauto
      have h1 : k ≠ "source" := by rintro rfl; simp at hk
      have h2 : k ≠ "target" := by rintro rfl; simp at hk
      simp [hasProp_eq_isSome, getProp_append, getProp_map, getProp_restProps_mem _ _ hk',
        getProp, Ne.symm h1, Ne.symm h2]
    · intro k hk
      have h1 : k ≠ "source" := by rintro rfl; simp at hk
      have h2 : k ≠ "target" := by rintro rfl; simp at hk
      simp only [getProp_append, getProp_map, getProp_restProps_not_mem _ _ hk]
      cases getProp k l <;> simp [getProp, Ne.symm h1, Ne.symm h2])
  refine ⟨e.nodes.map getDataNode, ls, by simp [getData, hls], ?_, hF⟩
  rw [List.forall₂_map_right_iff]
  apply List.forall₂_same.mpr
  intro n _
  refine ⟨?_, ?_, ?_, ?_⟩
  · intro k hk
    have hk' : k ∈ ["x", "y", "vx", "vy", "fx", "fy", "index"] := by
      simp at hk ⊢; tauto
    have h1 : k ≠ "x" := by rintro rfl; simp at hk
    have h2 : k ≠ "y" := by rintro rfl; simp at hk
    simp [getDataNode, hasProp_eq_isSome, getProp_append, getProp_map,
      getProp_restProps_mem _ _ hk', getProp, Ne.symm h1, Ne.symm h2]
  · simp [getDataNode, Plain.get, getProp_append, getProp_map, getProp_restProps_mem, getProp]
  · simp [getDataNode, Plain.get, getProp_append, getProp_map, getProp_restProps_mem, getProp]
  · intro k hk
    have h1 : k ≠ "x" := by rintro rfl; simp at hk
    have h2 : k ≠ "y" := by rintro rfl; simp at hk
    simp only [getDataNode, getProp_append, getProp_map, getProp_restProps_not_mem _ _ hk]
    cases getProp k n.props <;> simp [getProp, Ne.symm h1, Ne.symm h2]

theorem getData_snapshot_witness :
    (∀ l ∈ sampleEngine.links,
      isEndpoint (getProp "source" l) = true ∧ isEndpoint (getProp "target" l) = true) ∧
    ∃ ns ls, getData sampleEngine = Except.ok (ns, ls) ∧
      List.Forall₂ (fun n o =>
        (∀ k ∈ ["vx", "vy", "fx", "fy", "index"], hasProp k o = false) ∧
        Plain.get "x" o = getProp "x" n.props ∧
        Plain.get "y" o = getProp "y" n.props ∧
        (∀ k, k ∉ ["x", "y", "vx", "vy", "fx", "fy", "index"] →
          getProp k o = (getProp k n.props).map some)) sampleEngine.nodes ns ∧
      List.Forall₂ (fun l o =>
        Plain.get "source" o = endpointId (getProp "source" l) ∧
        Plain.get "target" o = endpointId (getProp "target" l) ∧
        (∀ k ∈ ["sourceNode", "targetNode", "index"], hasProp k o = false) ∧
        (∀ k, k ∉ ["source", "target", "sourceNode", "targetNode", "index"] →
          getProp k o = (getProp k l).map some)) sampleEngine.links ls :=
  ⟨by decide, getData_snapshot sampleEngine (by decide)⟩

/-! ## Zoom -/

theorem zoomTarget_k (e : Engine) (factor : ℚ) :
    (zoomTarget e factor).k = max (1 / 5) (min 3 (e.transform.k * factor)) := by
  simp [zoomTarget, Transform.scale, Transform.translate, zoomIdentity]

theorem zoomCalls_eq (factors : List ℚ) : ∀ e : Engine, zoomCalls e factors = e := by
  induction factors with
  | nil => intro e; rfl
  | cons f fs ih => intro e; exact ih e

/-- Claim C6, evaluated at a failing input. On a new engine of size 1000 x 600
the call `zoom(1.2)` throws a `TypeError` and hands no target transform to
d3; after the calls `zoom(0)`, `zoom(-7)` and `zoom(1000000)` no target has
been handed over either, so there is no target whose scale could lie in
[0.2, 3]. For every engine and every sequence of factors, the calls leave the
whole state as it was. -/
theorem zoom_hands_no_target (e : Engine) (factors : List ℚ) :
    (zoom (create 1000 600) (6 / 5)).thrown =
        some "TypeError: selection.property is not a function" ∧
      (zoom (create 1000 600) (6 / 5)).state.zoomTargets = [] ∧
      (zoomCalls (create 1000 600) [0, -7, 1000000]).zoomTargets = [] ∧
      zoomCalls e factors = e :=
  ⟨rfl, rfl, rfl, zoomCalls_eq factors e⟩

/-- Claim C7, evaluated at a failing input. On a new engine of size 1000 x 600
(identity transform, scale 1) the product of the scale and the factor 1.2 lies
in [0.2, 3], but the call `zoom(1.2)` throws a `TypeError` before any
transform is computed: no target is handed over, and when the pending
transitions have ended the transform is still the identity, of scale 1 and
not 1.2. -/
theorem zoom_call_not_anchored :
    (1 / 5 ≤ (create 1000 600).transform.k * (6 / 5) ∧
      (create 1000 600).transform.k * (6 / 5) ≤ 3) ∧
    (zoom (create 1000 600) (6 / 5)).thrown =
      some "TypeError: selection.property is not a function" ∧
    (zoom (create 1000 600) (6 / 5)).state.zoomTargets = [] ∧
    (endTransition (zoom (create 1000 600) (6 / 5)).state).transform = zoomIdentity ∧
    (endTransition (zoom (create 1000 600) (6 / 5)).state).transform.k ≠
      (create 1000 600).transform.k * (6 / 5) := by
  refine ⟨?_, rfl, rfl, rfl, ?_⟩
  · simp [create, zoomIdentity]
    norm_num
  · simp [endTransition, zoom, create, zoomIdentity]
    norm_num

/-! ## centerNode -/

/-- Claim C8. For a node at position `(x, y)`, `centerNode(node)` hands to
`zoom.transform` a target whose scale is the current scale and under which the
node's position is shown at the viewport centre `(width / 2, height / 2)`. -/
theorem centerNode_centres (rt : Runtime) (e : Engine) (node : Node) (x y : ℚ)
    (hx : getProp "x" node.props = some (JsVal.num x))
    (hy : getProp "y" node.props = some (JsVal.num y)) :
    ∃ t, (centerNode rt e node).zoomTargets = e.zoomTargets ++ [some t] ∧
      t.k = e.transform.k ∧
      t.apply (x, y) = (e.width / 2, e.height / 2) := by
  refine ⟨_, by simp [centerNode, centerTarget, hx, hy, Runtime.number]; rfl, ?_, ?_⟩
  · simp [Transform.scale, Transform.translate, zoomIdentity]
  · simp [Transform.scale, Transform.translate, Transform.apply, zoomIdentity]

theorem centerNode_centres_witness :
    (getProp "x" (⟨0, [("id", JsVal.str "r1"), ("x", JsVal.num 40), ("y", JsVal.num 10)]⟩ : Node).props
      = some (JsVal.num 40) ∧
     getProp "y" (⟨0, [("id", JsVal.str "r1"), ("x", JsVal.num 40), ("y", JsVal.num 10)]⟩ : Node).props
      = some (JsVal.num 10)) ∧
    ∃ t, (centerNode ⟨fun _ => (0, 0), fun _ => none, fun _ => ""⟩
        (handleZoom (create 800 600) ⟨2, 5, 7⟩)
        ⟨0, [("id", JsVal.str "r1"), ("x", JsVal.num 40), ("y", JsVal.num 10)]⟩).zoomTargets =
          (handleZoom (create 800 600) ⟨2, 5, 7⟩).zoomTargets ++ [some t] ∧
      t.k = (handleZoom (create 800 600) ⟨2, 5, 7⟩).transform.k ∧
      t.apply (40, 10) = ((handleZoom (create 800 600) ⟨2, 5, 7⟩).width / 2,
        (handleZoom (create 800 600) ⟨2, 5, 7⟩).height / 2) :=
  ⟨⟨rfl, rfl⟩, centerNode_centres _ _ _ 40 10 rfl rfl⟩

/-! ## setData -/

/-- Claim C1, evaluated at a failing input. On an engine that has rendered the
nodes `r1` and `d1`, `setData` with the same nodes, the link `r1 - d1` and the
dangling link `r1 - zz` throws (`node not found`, from the d3 link force) and
leaves both links in `this.links`, the dangling one with its raw target `zz`. -/
theorem setData_dangling_link :
    (setData sampleRuntime boundEngine
      [[("id", JsVal.str "r1")], [("id", JsVal.str "d1")]]
      [[("source", JsVal.str "r1"), ("target", JsVal.str "d1")],
       [("source", JsVal.str "r1"), ("target", JsVal.str "zz")]]).thrown
      = some "Error: node not found" ∧
    (setData sampleRuntime boundEngine
      [[("id", JsVal.str "r1")], [("id", JsVal.str "d1")]]
      [[("source", JsVal.str "r1"), ("target", JsVal.str "d1")],
       [("source", JsVal.str "r1"), ("target", JsVal.str "zz")]]).state.links.map
        (fun l => Val.asJson (getProp "target" l))
      = [none, some (JsVal.str "zz")] := by
  constructor <;> rfl

/-- Claim C2, evaluated at a failing input. On a new engine, `setData` with the
nodes `{ id: 'a', x: 0, y: 5 }` and `{ id: 'b' }` and no link returns
normally. Node `a` stays at `(0, 5)` without `fx` and without `fy`: a
coordinate equal to zero fails the test `node.x && node.y`. Node `b`, of index
1, has no position in the input, is placed by the simulation (near
`(-9, 8)`), and is pinned there. -/
theorem setData_zero_position_not_pinned :
    (setData sampleRuntime (create 800 600)
      [[("id", JsVal.str "a"), ("x", JsVal.num 0), ("y", JsVal.num 5)],
       [("id", JsVal.str "b")]] []).thrown = none ∧
    (setData sampleRuntime (create 800 600)
      [[("id", JsVal.str "a"), ("x", JsVal.num 0), ("y", JsVal.num 5)],
       [("id", JsVal.str "b")]] []).state.nodes.map
        (fun n => (getProp "x" n.props, getProp "y" n.props, getProp "fx" n.props,
          getProp "fy" n.props))
      = [(some (JsVal.num 0), some (JsVal.num 5), none, none),
         (some (JsVal.num (-9)), some (JsVal.num 8), some (JsVal.num (-9)),
           some (JsVal.num 8))] := by
  refine ⟨?_, ?_⟩ <;> rfl

/-! ## Property writes -/

theorem getProp_setProp_self {α : Type} (k : String) (v : α) (o : List (String × α)) :
    getProp k (setProp k v o) = some v := by
  induction o with
  | nil => simp [setProp, getProp]
  | cons p rest ih =>
    obtain ⟨k', v'⟩ := p
    by_cases h : k' = k <;> simp [setProp, getProp, h, ih]

theorem getProp_setProp_ne {α : Type} {k k' : String} (h : k' ≠ k) (v : α)
    (o : List (String × α)) : getProp k (setProp k' v o) = getProp k o := by
  induction o with
  | nil => simp [setProp, getProp, h]
  | cons p rest ih =>
    obtain ⟨k'', v'⟩ := p
    by_cases h1 : k'' = k'
    · subst h1
      simp [setProp, getProp, h]
    · by_cases h2 : k'' = k
      · subst h2
        simp [setProp, getProp, h1]
      · simp [setProp, getProp, h1, h2, ih]

theorem strictEq_eq_of_isStringOrNumber {a key : Option JsVal}
    (hk : isStringOrNumber key = true) (h : strictEq a key = true) : a = key := by
  match key, hk with
  | some (JsVal.str s), _ =>
    match a, h with
    | some (JsVal.str t), h => simpa [strictEq] using h
  | some (JsVal.num q), _ =>
    match a, h with
    | some (JsVal.num r), h => simpa [strictEq] using h

theorem strictEq_self_of_isStringOrNumber {key : Option JsVal}
    (hk : isStringOrNumber key = true) : strictEq key key = true := by
  match key, hk with
  | some (JsVal.str s), _ => simp [strictEq]
  | some (JsVal.num q), _ => simp [strictEq]

/-! ## What the simulation and the pin loop leave untouched -/

theorem simulationNode_id (rt : Runtime) (i : Nat) (n : Node) :
    (simulationNode rt i n).id = n.id := by
  simp only [simulationNode, Node.id]
  repeat' split
  all_goals simp [getProp_setProp_ne]

theorem simulationNode_oid (rt : Runtime) (i : Nat) (n : Node) :
    (simulationNode rt i n).oid = n.oid := rfl

theorem pinNode_id (n : Node) : (pinNode n).id = n.id := by
  simp only [pinNode, Node.id]
  repeat' split
  all_goals simp [getProp_setProp_ne]

theorem pinNode_oid (n : Node) : (pinNode n).oid = n.oid := by
  simp only [pinNode]
  repeat' split
  all_goals rfl

theorem simulationNodesFrom_map_id (rt : Runtime) (nodes : List Node) :
    ∀ i, (simulationNodesFrom rt i nodes).map Node.id = nodes.map Node.id := by
  induction nodes with
  | nil => intro i; rfl
  | cons n rest ih => intro i; simp [simulationNodesFrom, simulationNode_id, ih]

theorem simulationNodesFrom_map_oid (rt : Runtime) (nodes : List Node) :
    ∀ i, (simulationNodesFrom rt i nodes).map Node.oid = nodes.map Node.oid := by
  induction nodes with
  | nil => intro i; rfl
  | cons n rest ih => intro i; simp [simulationNodesFrom, simulationNode_oid, ih]

theorem parseNodes_map_props (N : List Props) :
    ∀ oid, (parseNodes oid N).map Node.props = N := by
  induction N with
  | nil => intro oid; rfl
  | cons p rest ih => intro oid; simp [parseNodes, ih]

theorem parseNodes_map_id (N : List Props) :
    ∀ oid, (parseNodes oid N).map Node.id = N.map (getProp "id") := by
  induction N with
  | nil => intro oid; rfl
  | cons p rest ih => intro oid; simp [parseNodes, Node.id, ih]

theorem rendered_nodes_map_id (rt : Runtime) (nodes : List Node) :
    ((simulationNodes rt nodes).map pinNode).map Node.id = nodes.map Node.id := by
  rw [List.map_map, ← simulationNodesFrom_map_id rt nodes 0, simulationNodes]
  apply List.map_congr_left
  intro n _
  exact pinNode_id n

theorem updateLinks_nodes (rt : Runtime) (e : Engine) :
    (updateLinks rt e).state.nodes = e.nodes := by
  simp only [updateLinks]
  repeat' split
  all_goals rfl

theorem updateLinks_links (rt : Runtime) (e : Engine) :
    (updateLinks rt e).state.links = e.links := by
  simp only [updateLinks]
  repeat' split
  all_goals rfl

theorem setData_links (rt : Runtime) (e : Engine) (N L : List Props) :
    (setData rt e N L).state.links =
      (forceLinkLinks e.simNodes
        ((L.map parseLink).map (annotateLink (parseNodes e.nextOid N)))).1 := by
  simp only [setData, updateVisualization]
  split
  · rfl
  · simp [updateLinks_links, updateNodes]

theorem setData_nodes_map_id (rt : Runtime) (e : Engine) (N L : List Props) :
    (setData rt e N L).state.nodes.map Node.id = N.map (getProp "id") := by
  simp only [setData, updateVisualization]
  split
  · simp [parseNodes_map_id]
  · simp only [updateLinks_nodes, updateNodes]
    rw [rendered_nodes_map_id, parseNodes_map_id]

/-! ## Binding links to the link force -/

theorem findById_strictEq {nodes : List Node} {key : Option JsVal} {n : Node}
    (h : findById nodes key = some n) : strictEq n.id key = true := by
  have hm := List.mem_of_getLast?_eq_some h
  exact (List.mem_filter.mp hm).2

theorem isEndpoint_cases {v : Option Val} (h : isEndpoint v = true) :
    (∃ n, v = some (Val.node n)) ∨
      (∃ j, v = some (Val.json j) ∧ isStringOrNumber (some j) = true ∧
        Val.isObject v = false) := by
  match v, h with
  | some (Val.node n), _ => exact Or.inl ⟨n, rfl⟩
  | some (Val.json (JsVal.str s)), _ => exact Or.inr ⟨_, rfl, rfl, rfl⟩
  | some (Val.json (JsVal.num q)), _ => exact Or.inr ⟨_, rfl, rfl, rfl⟩

theorem resolveEndpoint_ok {sim : List Node} {k : String} {l l' : Link}
    (h : resolveEndpoint sim k l = Except.ok l') (hk : isEndpoint (getProp k l) = true) :
    isEndpoint (getProp k l') = true ∧
      endpointId (getProp k l') = endpointId (getProp k l) ∧
      ∀ k', k ≠ k' → getProp k' l' = getProp k' l := by
  unfold resolveEndpoint at h
  split at h
  · cases h
    exact ⟨hk, rfl, fun _ _ => rfl⟩
  · rename_i hobj
    split at h
    · rename_i n hn
      cases h
      rcases isEndpoint_cases hk with ⟨m, hm⟩ | ⟨j, hj, hsn, _⟩
      · rw [hm] at hobj
        exact absurd rfl hobj
      · have hid : n.id = some j := by
          apply strictEq_eq_of_isStringOrNumber hsn
          have := findById_strictEq hn
          rwa [hj] at this
        refine ⟨by rw [getProp_setProp_self]; rfl, ?_, fun k' hne => getProp_setProp_ne hne _ _⟩
        rw [getProp_setProp_self, hj]
        simp [endpointId, hid]
    · cases h

/-- What binding keeps of a link: both endpoints are node objects or raw ids,
with the ids of the original link. -/
theorem bindLinksFrom_ends (sim : List Node) (links : List Link) :
    ∀ i, (∀ l ∈ links, isEndpoint (getProp "source" l) = true ∧
        isEndpoint (getProp "target" l) = true) →
      (∀ l ∈ (bindLinksFrom sim i links).1, isEndpoint (getProp "source" l) = true ∧
        isEndpoint (getProp "target" l) = true) ∧
      (bindLinksFrom sim i links).1.map linkEnds = links.map linkEnds := by
  induction links with
  | nil => intro i _; simp [bindLinksFrom]
  | cons l rest ih =>
    intro i h
    obtain ⟨hs, ht⟩ := h l (List.mem_cons_self _ _)
    have hrest := fun l' hl' => h l' (List.mem_cons_of_mem _ hl')
    have key : ∀ l' : Link, isEndpoint (getProp "source" l') = true →
        isEndpoint (getProp "target" l') = true → linkEnds l' = linkEnds l →
        (∀ x ∈ l' :: rest, isEndpoint (getProp "source" x) = true ∧
          isEndpoint (getProp "target" x) = true) ∧
        (l' :: rest).map linkEnds = (l :: rest).map linkEnds := by
      intro l' h1 h2 h3
      refine ⟨?_, by simp [h3]⟩
      intro x hx
      rcases List.mem_cons.mp hx with rfl | hx
      · exact ⟨h1, h2⟩
      · exact hrest x hx
    have hi : ∀ k, "index" ≠ k → getProp k (setProp "index" (Val.json (JsVal.num i)) l) =
        getProp k l := fun k hk => getProp_setProp_ne hk _ _
    have h0s := hi "source" (by decide)
    have h0t := hi "target" (by decide)
    simp only [bindLinksFrom]
    split
    · exact key _ (by rw [h0s]; exact hs) (by rw [h0t]; exact ht)
        (by simp [linkEnds, h0s, h0t])
    · rename_i l1 h1
      obtain ⟨a1, a2, a3⟩ := resolveEndpoint_ok h1 (by rw [h0s]; exact hs)
      have h1t : getProp "target" l1 = getProp "target" l := by
        rw [a3 "target" (by decide), h0t]
      have h1e : endpointId (getProp "source" l1) = endpointId (getProp "source" l) := by
        rw [a2, h0s]
      split
      · exact key _ a1 (by rw [h1t]; exact ht) (by simp [linkEnds, h1t, h1e])
      · rename_i l2 h2
        obtain ⟨b1, b2, b3⟩ := resolveEndpoint_ok h2 (by rw [h1t]; exact ht)
        have h2s : getProp "source" l2 = getProp "source" l1 := b3 "source" (by decide)
        have hends : linkEnds l2 = linkEnds l := by
          simp [linkEnds, h2s, h1e, b2, h1t]
        split
        · exact key _ (by rw [h2s]; exact a1) b1 hends
        · obtain ⟨r1, r2⟩ := ih (i + 1) hrest
          refine ⟨?_, by simp [hends, r2]⟩
          intro x hx
          rcases List.mem_cons.mp hx with rfl | hx
          · exact ⟨by rw [h2s]; exact a1, b1⟩
          · exact r1 x hx

theorem annotateLink_getProp (nodes : List Node) (l : Link) (k : String)
    (h1 : "sourceNode" ≠ k) (h2 : "targetNode" ≠ k) :
    getProp k (annotateLink nodes l) = getProp k l := by
  unfold annotateLink
  repeat' split
  all_goals simp [getProp_setProp_ne, h1, h2]

theorem parsed_link_ends (nodes : List Node) (p : Props)
    (hs : isStringOrNumber (getProp "source" p) = true)
    (ht : isStringOrNumber (getProp "target" p) = true) :
    (isEndpoint (getProp "source" (annotateLink nodes (parseLink p))) = true ∧
      isEndpoint (getProp "target" (annotateLink nodes (parseLink p))) = true) ∧
    linkEnds (annotateLink nodes (parseLink p)) =
      ((getProp "source" p).map Val.json, (getProp "target" p).map Val.json) := by
  have e1 : getProp "source" (annotateLink nodes (parseLink p)) =
      (getProp "source" p).map Val.json := by
    rw [annotateLink_getProp _ _ _ (by decide) (by decide)]
    exact getProp_map Val.json "source" p
  have e2 : getProp "target" (annotateLink nodes (parseLink p)) =
      (getProp "target" p).map Val.json := by
    rw [annotateLink_getProp _ _ _ (by decide) (by decide)]
    exact getProp_map Val.json "target" p
  rw [linkEnds, e1, e2]
  match hsv : getProp "source" p, htv : getProp "target" p, hs, ht with
  | some (JsVal.str _), some (JsVal.str _), _, _ => exact ⟨⟨rfl, rfl⟩, rfl⟩
  | some (JsVal.str _), some (JsVal.num _), _, _ => exact ⟨⟨rfl, rfl⟩, rfl⟩
  | some (JsVal.num _), some (JsVal.str _), _, _ => exact ⟨⟨rfl, rfl⟩, rfl⟩
  | some (JsVal.num _), some (JsVal.num _), _, _ => exact ⟨⟨rfl, rfl⟩, rfl⟩

theorem getDataLink_ends (l : Link) (hs : isEndpoint (getProp "source" l) = true)
    (ht : isEndpoint (getProp "target" l) = true) :
    ∃ o, getDataLink l = Except.ok o ∧
      (Plain.get "source" o, Plain.get "target" o) = linkEnds l := by
  refine ⟨_, by simp [getDataLink, collapseEndpoint_of_isEndpoint _ hs,
    collapseEndpoint_of_isEndpoint _ ht]; rfl, ?_⟩
  simp [Plain.get, getProp_append, getProp_map, getProp_restProps_mem, getProp, linkEnds]

theorem getDataLinks_ends (links : List Link)
    (h : ∀ l ∈ links, isEndpoint (getProp "source" l) = true ∧
      isEndpoint (getProp "target" l) = true) :
    ∃ os, getDataLinks links = Except.ok os ∧
      os.map (fun o => (Plain.get "source" o, Plain.get "target" o)) = links.map linkEnds := by
  induction links with
  | nil => exact ⟨[], rfl, rfl⟩
  | cons l rest ih =>
    obtain ⟨hs, ht⟩ := h l (List.mem_cons_self _ _)
    obtain ⟨o, ho, he⟩ := getDataLink_ends l hs ht
    obtain ⟨os, hos, hes⟩ := ih (fun l' hl' => h l' (List.mem_cons_of_mem _ hl'))
    exact ⟨o :: os, by simp [getDataLinks, ho, hos], by simp [he, hes]⟩

theorem getDataNode_id (n : Node) : Plain.get "id" (getDataNode n) = n.id := by
  have hk : "id" ∉ ["x", "y", "vx", "vy", "fx", "fy", "index"] := by decide
  simp only [getDataNode, Plain.get, getProp_append, getProp_map,
    getProp_restProps_not_mem _ _ hk, Node.id]
  cases getProp "id" n.props <;> simp [getProp]

/-- Claim C3. For every engine state, node list `N` and link list `L` whose
endpoints are ids (strings or numbers), `getData()` on the state left by
`setData(N, L)` returns nodes whose ids are those of `N`, in the same number
and order, and links whose (source, target) id pairs are those of `L`, in the
same number and order. Neither the uniqueness of the ids nor the presence of
the endpoints in `N` is needed. -/
theorem getData_after_setData (rt : Runtime) (e : Engine) (N L : List Props)
    (hL : ∀ p ∈ L, isStringOrNumber (getProp "source" p) = true ∧
      isStringOrNumber (getProp "target" p) = true) :
    ∃ ns ls, getData (setData rt e N L).state = Except.ok (ns, ls) ∧
      ns.map (Plain.get "id") = N.map (getProp "id") ∧
      ls.map (fun o => (Plain.get "source" o, Plain.get "target" o)) =
        L.map (fun p => ((getProp "source" p).map Val.json, (getProp "target" p).map Val.json)) := by
  have hgood : ∀ l ∈ (L.map parseLink).map (annotateLink (parseNodes e.nextOid N)),
      isEndpoint (getProp "source" l) = true ∧ isEndpoint (getProp "target" l) = true := by
    intro l hl
    simp only [List.map_map, List.mem_map, Function.comp] at hl
    obtain ⟨p, hp, rfl⟩ := hl
    exact (parsed_link_ends _ p (hL p hp).1 (hL p hp).2).1
  obtain ⟨b1, b2⟩ := bindLinksFrom_ends e.simNodes _ 0 hgood
  obtain ⟨ls, hls, hends⟩ := getDataLinks_ends (setData rt e N L).state.links (by
    rw [setData_links]; exact b1)
  refine ⟨(setData rt e N L).state.nodes.map getDataNode, ls, by simp [getData, hls], ?_, ?_⟩
  · rw [List.map_map, ← setData_nodes_map_id rt e N L]
    apply List.map_congr_left
    intro n _
    exact getDataNode_id n
  · rw [hends, setData_links]
    show (bindLinksFrom e.simNodes 0 _).1.map linkEnds = _
    rw [b2, List.map_map, List.map_map]
    apply List.map_congr_left
    intro p hp
    exact (parsed_link_ends _ p (hL p hp).1 (hL p hp).2).2

theorem getData_after_setData_witness :
    (∀ p ∈ [[("source", JsVal.str "r1"), ("target", JsVal.str "d1"), ("bandwidth", JsVal.num 500)]],
      isStringOrNumber (getProp "source" p) = true ∧
        isStringOrNumber (getProp "target" p) = true) ∧
    ∃ ns ls, getData (setData sampleRuntime boundEngine
        [[("id", JsVal.str "r1")], [("id", JsVal.str "d1")]]
        [[("source", JsVal.str "r1"), ("target", JsVal.str "d1"),
          ("bandwidth", JsVal.num 500)]]).state = Except.ok (ns, ls) ∧
      ns.map (Plain.get "id") =
        [[("id", JsVal.str "r1")], [("id", JsVal.str "d1")]].map (getProp "id") ∧
      ls.map (fun o => (Plain.get "source" o, Plain.get "target" o)) =
        [[("source", JsVal.str "r1"), ("target", JsVal.str "d1"),
          ("bandwidth", JsVal.num 500)]].map
          (fun p => ((getProp "source" p).map Val.json, (getProp "target" p).map Val.json)) :=
  ⟨by decide, getData_after_setData sampleRuntime boundEngine _ _ (by decide)⟩

/-! ## Calling setData twice -/

/-- Claim C5, evaluated at a failing input. On an engine that has rendered the
nodes `r1` and `d1`, take `N = [{ id: 'r1', x: 1, y: 1 }, { id: 'c1' }]` and
`L = [{ source: 'r1', target: 'd1' }]`. The first `setData(N, L)` returns
normally (the link force still holds the previous nodes, among them `d1`) and
pins `r1` at `(1, 1)`; the second one throws in the link force (`d1` is not
among the nodes of the first call) and leaves `r1` without `fx` and `fy`. -/
theorem setData_twice_differs :
    (setData sampleRuntime boundEngine
      [[("id", JsVal.str "r1"), ("x", JsVal.num 1), ("y", JsVal.num 1)], [("id", JsVal.str "c1")]]
      [[("source", JsVal.str "r1"), ("target", JsVal.str "d1")]]).thrown = none ∧
    (setData sampleRuntime boundEngine
      [[("id", JsVal.str "r1"), ("x", JsVal.num 1), ("y", JsVal.num 1)], [("id", JsVal.str "c1")]]
      [[("source", JsVal.str "r1"), ("target", JsVal.str "d1")]]).state.nodes.map
        (fun n => (getProp "x" n.props, getProp "y" n.props, getProp "fx" n.props,
          getProp "fy" n.props))
      = [(some (JsVal.num 1), some (JsVal.num 1), some (JsVal.num 1), some (JsVal.num 1)),
         (some (JsVal.num (-9)), some (JsVal.num 8), some (JsVal.num (-9)), some (JsVal.num 8))] ∧
    (setData sampleRuntime
      (setData sampleRuntime boundEngine
        [[("id", JsVal.str "r1"), ("x", JsVal.num 1), ("y", JsVal.num 1)], [("id", JsVal.str "c1")]]
        [[("source", JsVal.str "r1"), ("target", JsVal.str "d1")]]).state
      [[("id", JsVal.str "r1"), ("x", JsVal.num 1), ("y", JsVal.num 1)], [("id", JsVal.str "c1")]]
      [[("source", JsVal.str "r1"), ("target", JsVal.str "d1")]]).thrown
      = some "Error: node not found" ∧
    (setData sampleRuntime
      (setData sampleRuntime boundEngine
        [[("id", JsVal.str "r1"), ("x", JsVal.num 1), ("y", JsVal.num 1)], [("id", JsVal.str "c1")]]
        [[("source", JsVal.str "r1"), ("target", JsVal.str "d1")]]).state
      [[("id", JsVal.str "r1"), ("x", JsVal.num 1), ("y", JsVal.num 1)], [("id", JsVal.str "c1")]]
      [[("source", JsVal.str "r1"), ("target", JsVal.str "d1")]]).state.nodes.map
        (fun n => (getProp "x" n.props, getProp "y" n.props, getProp "fx" n.props,
          getProp "fy" n.props))
      = [(some (JsVal.num 1), some (JsVal.num 1), none, none), (none, none, none, none)] := by
  refine ⟨?_, ?_, ?_, ?_⟩ <;> rfl

theorem updateLinks_state (rt : Runtime) (e : Engine) :
    ∃ lg, (updateLinks rt e).state = { e with linkGroups := lg } := by
  simp only [updateLinks]
  repeat' split
  · exact ⟨e.linkGroups, rfl⟩
  · exact ⟨e.linkGroups, rfl⟩
  · exact ⟨_, rfl⟩

theorem resolveEndpoint_congr (sim : List Node) (k : String) (l l' : Link)
    (h : getProp k l = getProp k l') :
    (∃ err, resolveEndpoint sim k l = Except.error err ∧
        resolveEndpoint sim k l' = Except.error err) ∨
      (∃ r r', resolveEndpoint sim k l = Except.ok r ∧ resolveEndpoint sim k l' = Except.ok r' ∧
        getProp k r = getProp k r' ∧
        ∀ k', k ≠ k' → getProp k' r = getProp k' l ∧ getProp k' r' = getProp k' l') := by
  unfold resolveEndpoint
  rw [← h]
  split
  · exact Or.inr ⟨l, l', rfl, rfl, h, fun _ _ => ⟨rfl, rfl⟩⟩
  · split
    · rename_i n _
      refine Or.inr ⟨_, _, rfl, rfl, ?_, fun k' hk => ⟨getProp_setProp_ne hk _ _,
        getProp_setProp_ne hk _ _⟩⟩
      rw [getProp_setProp_self, getProp_setProp_self]
    · exact Or.inl ⟨_, rfl, rfl⟩

/-- Whether the link force throws, and with what, depends only on the
`source` and `target` of the links. -/
theorem bindLinksFrom_thrown_congr (sim : List Node) (links links' : List Link)
    (h : List.Forall₂ (fun l l' => getProp "source" l = getProp "source" l' ∧
      getProp "target" l = getProp "target" l') links links') :
    ∀ i j, (bindLinksFrom sim i links).2 = (bindLinksFrom sim j links').2 := by
  induction h with
  | nil => intro i j; rfl
  | @cons l l' rest rest' hl _ ih =>
    intro i j
    obtain ⟨hs, ht⟩ := hl
    have h0s : getProp "source" (setProp "index" (Val.json (JsVal.num i)) l) =
        getProp "source" (setProp "index" (Val.json (JsVal.num j)) l') := by
      rw [getProp_setProp_ne (by decide), getProp_setProp_ne (by decide), hs]
    have h0t : getProp "target" (setProp "index" (Val.json (JsVal.num i)) l) =
        getProp "target" (setProp "index" (Val.json (JsVal.num j)) l') := by
      rw [getProp_setProp_ne (by decide), getProp_setProp_ne (by decide), ht]
    simp only [bindLinksFrom]
    rcases resolveEndpoint_congr sim "source" _ _ h0s with ⟨err, e1, e2⟩ | ⟨r, r', e1, e2, e3, e4⟩
    · rw [e1, e2]
    · rw [e1, e2]
      have h1t : getProp "target" r = getProp "target" r' := by
        rw [(e4 "target" (by decide)).1, (e4 "target" (by decide)).2, h0t]
      rcases resolveEndpoint_congr sim "target" _ _ h1t with
        ⟨err, f1, f2⟩ | ⟨q, q', f1, f2, f3, f4⟩
      · simp only [f1, f2]
      · simp only [f1, f2]
        have h2s : getProp "source" q = getProp "source" q' := by
          rw [(f4 "source" (by decide)).1, (f4 "source" (by decide)).2, e3]
        rw [h2s, f3]
        split
        · rfl
        · exact ih (i + 1) (j + 1)

theorem findById_isSome {nodes : List Node} {key : Option JsVal}
    (hk : isStringOrNumber key = true) (h : key ∈ nodes.map Node.id) :
    ∃ n, findById nodes key = some n := by
  obtain ⟨m, hm, hid⟩ := List.mem_map.mp h
  have hmem : m ∈ nodes.filter (fun n => strictEq n.id key) := by
    apply List.mem_filter.mpr
    refine ⟨hm, ?_⟩
    simp only [hid]
    exact strictEq_self_of_isStringOrNumber hk
  unfold findById
  cases hlast : (nodes.filter (fun n => strictEq n.id key)).getLast? with
  | some n => exact ⟨n, rfl⟩
  | none =>
    rw [List.getLast?_eq_none_iff] at hlast
    rw [hlast] at hmem
    cases hmem

theorem resolveEndpoint_of_known {sim : List Node} {k : String} {l : Link} {j : JsVal}
    (hv : getProp k l = some (Val.json j)) (hk : isStringOrNumber (some j) = true)
    (hmem : some j ∈ sim.map Node.id) :
    ∃ n, resolveEndpoint sim k l = Except.ok (setProp k (Val.node n) l) := by
  obtain ⟨n, hn⟩ := findById_isSome hk hmem
  refine ⟨n, ?_⟩
  unfold resolveEndpoint
  have hobj : Val.isObject (getProp k l) = false := by
    rw [hv]
    match j, hk with
    | JsVal.str _, _ => rfl
    | JsVal.num _, _ => rfl
  rw [if_neg (by simp [hobj])]
  simp [hv, Val.asJson, hn]

/-- The link force does not throw when every endpoint is the id (a string or
a number) of one of the nodes it holds. -/
theorem bindLinksFrom_of_known (sim : List Node) (links : List Link) :
    ∀ i, (∀ l ∈ links, ∃ s t, getProp "source" l = some (Val.json s) ∧
        getProp "target" l = some (Val.json t) ∧
        isStringOrNumber (some s) = true ∧ isStringOrNumber (some t) = true ∧
        some s ∈ sim.map Node.id ∧ some t ∈ sim.map Node.id) →
      (bindLinksFrom sim i links).2 = none := by
  induction links with
  | nil => intro i _; rfl
  | cons l rest ih =>
    intro i h
    obtain ⟨s, t, hs, ht, hsn, htn, hsm, htm⟩ := h l (List.mem_cons_self _ _)
    have h0s : getProp "source" (setProp "index" (Val.json (JsVal.num i)) l) =
        some (Val.json s) := by rw [getProp_setProp_ne (by decide), hs]
    obtain ⟨n, hn⟩ := resolveEndpoint_of_known h0s hsn hsm
    have h1t : getProp "target"
        (setProp "source" (Val.node n) (setProp "index" (Val.json (JsVal.num i)) l)) =
        some (Val.json t) := by
      rw [getProp_setProp_ne (by decide), getProp_setProp_ne (by decide), ht]
    obtain ⟨m, hm⟩ := resolveEndpoint_of_known h1t htn htm
    simp only [bindLinksFrom, hn, hm]
    rw [getProp_setProp_self, getProp_setProp_ne (by decide), getProp_setProp_self]
    simp only [Val.isNull, Bool.or_self, Bool.false_eq_true, if_false]
    exact ih (i + 1) (fun l' hl' => h l' (List.mem_cons_of_mem _ hl'))

theorem simulationNodesFrom_props_congr (rt : Runtime) (nodes nodes' : List Node)
    (h : nodes.map Node.props = nodes'.map Node.props) :
    ∀ i, ((simulationNodesFrom rt i nodes).map pinNode).map Node.props =
      ((simulationNodesFrom rt i nodes').map pinNode).map Node.props := by
  induction nodes generalizing nodes' with
  | nil =>
    intro i
    cases nodes' with
    | nil => rfl
    | cons _ _ => simp at h
  | cons n rest ih =>
    intro i
    cases nodes' with
    | nil => simp at h
    | cons n' rest' =>
      simp only [List.map_cons, List.cons.injEq] at h
      have hn : (pinNode (simulationNode rt i n)).props =
          (pinNode (simulationNode rt i n')).props := by
        simp only [pinNode, simulationNode, h.1]
        repeat' split
        all_goals rfl
      simp only [simulationNodesFrom, List.map_cons, hn, ih rest' h.2 (i + 1)]

theorem setData_of_bind_thrown (rt : Runtime) (e : Engine) (N L : List Props) (err : String)
    (hb : (forceLinkLinks e.simNodes
      ((L.map parseLink).map (annotateLink (parseNodes e.nextOid N)))).2 = some err) :
    (setData rt e N L).state.nodes = parseNodes e.nextOid N ∧
      (setData rt e N L).state.simNodes = e.simNodes ∧
      (setData rt e N L).state.nextOid = e.nextOid + N.length := by
  simp only [setData, updateVisualization]
  split
  · exact ⟨rfl, rfl, rfl⟩
  · rename_i hnone
    rw [hb] at hnone
    cases hnone

theorem setData_of_bind_ok (rt : Runtime) (e : Engine) (N L : List Props)
    (hb : (forceLinkLinks e.simNodes
      ((L.map parseLink).map (annotateLink (parseNodes e.nextOid N)))).2 = none) :
    (setData rt e N L).state.nodes =
        (simulationNodes rt (parseNodes e.nextOid N)).map pinNode ∧
      (setData rt e N L).state.simNodes =
        (simulationNodes rt (parseNodes e.nextOid N)).map pinNode ∧
      (setData rt e N L).state.nextOid = e.nextOid + N.length := by
  simp only [setData, updateVisualization]
  split
  · rename_i err hsome
    rw [hb] at hsome
    cases hsome
  · obtain ⟨lg, hlg⟩ := updateLinks_state rt (updateNodes rt
      { e with nodes := (simulationNodes rt (parseNodes e.nextOid N)).map pinNode
               links := (forceLinkLinks e.simNodes
                 ((L.map parseLink).map (annotateLink (parseNodes e.nextOid N)))).1
               simNodes := (simulationNodes rt (parseNodes e.nextOid N)).map pinNode
               nextOid := e.nextOid + N.length })
    rw [hlg]
    exact ⟨rfl, rfl, rfl⟩

theorem setData_links_ends (rt : Runtime) (e : Engine) (N L : List Props)
    (hL : ∀ p ∈ L, isStringOrNumber (getProp "source" p) = true ∧
      isStringOrNumber (getProp "target" p) = true) :
    (setData rt e N L).state.links.map linkEnds =
      L.map (fun p => ((getProp "source" p).map Val.json, (getProp "target" p).map Val.json)) := by
  have hgood : ∀ l ∈ (L.map parseLink).map (annotateLink (parseNodes e.nextOid N)),
      isEndpoint (getProp "source" l) = true ∧ isEndpoint (getProp "target" l) = true := by
    intro l hl
    simp only [List.map_map, List.mem_map, Function.comp] at hl
    obtain ⟨p, hp, rfl⟩ := hl
    exact (parsed_link_ends _ p (hL p hp).1 (hL p hp).2).1
  rw [setData_links]
  show (bindLinksFrom e.simNodes 0 _).1.map linkEnds = _
  rw [(bindLinksFrom_ends e.simNodes _ 0 hgood).2, List.map_map, List.map_map]
  apply List.map_congr_left
  intro p hp
  exact (parsed_link_ends _ p (hL p hp).1 (hL p hp).2).2

/-- For every prior engine state, every node list `N` and every link list `L`
in which each endpoint is the id (a string or a number) of a node of `N`,
calling `setData(N, L)` twice in a row leaves every node with
the same properties (position `x`, `y` and pin `fx`, `fy` included) and every
link with the same endpoint ids as calling it once. -/
theorem setData_twice_same (rt : Runtime) (e : Engine) (N L : List Props)
    (hL : ∀ p ∈ L, ∃ s t, getProp "source" p = some s ∧ getProp "target" p = some t ∧
      isStringOrNumber (some s) = true ∧ isStringOrNumber (some t) = true ∧
      some s ∈ N.map (getProp "id") ∧ some t ∈ N.map (getProp "id")) :
    (setData rt (setData rt e N L).state N L).state.nodes.map Node.props =
        (setData rt e N L).state.nodes.map Node.props ∧
      (setData rt (setData rt e N L).state N L).state.links.map linkEnds =
        (setData rt e N L).state.links.map linkEnds := by
  have hraw : ∀ p ∈ L, isStringOrNumber (getProp "source" p) = true ∧
      isStringOrNumber (getProp "target" p) = true := by
    intro p hp
    obtain ⟨s, t, hs, ht, hsn, htn, _, _⟩ := hL p hp
    rw [hs, ht]
    exact ⟨hsn, htn⟩
  refine ⟨?_, by rw [setData_links_ends _ _ _ _ hraw, setData_links_ends _ _ _ _ hraw]⟩
  cases hb : (forceLinkLinks e.simNodes
      ((L.map parseLink).map (annotateLink (parseNodes e.nextOid N)))).2 with
  | some err =>
    obtain ⟨h1, h2, h3⟩ := setData_of_bind_thrown rt e N L err hb
    have hb2 : (forceLinkLinks (setData rt e N L).state.simNodes
        ((L.map parseLink).map
          (annotateLink (parseNodes (setData rt e N L).state.nextOid N)))).2 = some err := by
      rw [h2, ← hb]
      apply bindLinksFrom_thrown_congr
      rw [List.forall₂_map_left_iff, List.forall₂_map_right_iff]
      apply List.forall₂_same.mpr
      intro l _
      rw [annotateLink_getProp _ _ _ (by decide) (by decide),
        annotateLink_getProp _ _ _ (by decide) (by decide),
        annotateLink_getProp _ _ _ (by decide) (by decide),
        annotateLink_getProp _ _ _ (by decide) (by decide)]
      exact ⟨rfl, rfl⟩
    rw [(setData_of_bind_thrown rt _ N L err hb2).1, h1, parseNodes_map_props,
      parseNodes_map_props]
  | none =>
    obtain ⟨h1, h2, h3⟩ := setData_of_bind_ok rt e N L hb
    have hids : (setData rt e N L).state.simNodes.map Node.id = N.map (getProp "id") := by
      rw [h2, rendered_nodes_map_id, parseNodes_map_id]
    have hb2 : (forceLinkLinks (setData rt e N L).state.simNodes
        ((L.map parseLink).map
          (annotateLink (parseNodes (setData rt e N L).state.nextOid N)))).2 = none := by
      apply bindLinksFrom_of_known
      intro l hl
      simp only [List.map_map, List.mem_map, Function.comp] at hl
      obtain ⟨p, hp, rfl⟩ := hl
      obtain ⟨s, t, hs, ht, hsn, htn, hsm, htm⟩ := hL p hp
      refine ⟨s, t, ?_, ?_, hsn, htn, by rw [hids]; exact hsm, by rw [hids]; exact htm⟩
      · rw [annotateLink_getProp _ _ _ (by decide) (by decide)]
        simpa [hs] using getProp_map Val.json "source" p
      · rw [annotateLink_getProp _ _ _ (by decide) (by decide)]
        simpa [ht] using getProp_map Val.json "target" p
    rw [(setData_of_bind_ok rt _ N L hb2).1, h1]
    apply simulationNodesFrom_props_congr
    rw [parseNodes_map_props, parseNodes_map_props]

theorem setData_twice_same_witness :
    (∀ p ∈ [[("source", JsVal.str "r1"), ("target", JsVal.str "d1")]],
      ∃ s t, getProp "source" p = some s ∧ getProp "target" p = some t ∧
        isStringOrNumber (some s) = true ∧ isStringOrNumber (some t) = true ∧
        some s ∈ [[("id", JsVal.str "r1"), ("x", JsVal.num 1), ("y", JsVal.num 1)],
          [("id", JsVal.str "d1")]].map (getProp "id") ∧
        some t ∈ [[("id", JsVal.str "r1"), ("x", JsVal.num 1), ("y", JsVal.num 1)],
          [("id", JsVal.str "d1")]].map (getProp "id")) ∧
    ((setData sampleRuntime (setData sampleRuntime boundEngine
        [[("id", JsVal.str "r1"), ("x", JsVal.num 1), ("y", JsVal.num 1)], [("id", JsVal.str "d1")]]
        [[("source", JsVal.str "r1"), ("target", JsVal.str "d1")]]).state
        [[("id", JsVal.str "r1"), ("x", JsVal.num 1), ("y", JsVal.num 1)], [("id", JsVal.str "d1")]]
        [[("source", JsVal.str "r1"), ("target", JsVal.str "d1")]]).state.nodes.map Node.props =
      (setData sampleRuntime boundEngine
        [[("id", JsVal.str "r1"), ("x", JsVal.num 1), ("y", JsVal.num 1)], [("id", JsVal.str "d1")]]
        [[("source", JsVal.str "r1"), ("target", JsVal.str "d1")]]).state.nodes.map Node.props ∧
     (setData sampleRuntime (setData sampleRuntime boundEngine
        [[("id", JsVal.str "r1"), ("x", JsVal.num 1), ("y", JsVal.num 1)], [("id", JsVal.str "d1")]]
        [[("source", JsVal.str "r1"), ("target", JsVal.str "d1")]]).state
        [[("id", JsVal.str "r1"), ("x", JsVal.num 1), ("y", JsVal.num 1)], [("id", JsVal.str "d1")]]
        [[("source", JsVal.str "r1"), ("target", JsVal.str "d1")]]).state.links.map linkEnds =
      (setData sampleRuntime boundEngine
        [[("id", JsVal.str "r1"), ("x", JsVal.num 1), ("y", JsVal.num 1)], [("id", JsVal.str "d1")]]
        [[("source", JsVal.str "r1"), ("target", JsVal.str "d1")]]).state.links.map linkEnds) :=
  ⟨by simp [getProp, isStringOrNumber],
   setData_twice_same sampleRuntime boundEngine _ _ (by simp [getProp, isStringOrNumber])⟩

/-! ## Selection -/

theorem find?_of_unique_id {nodes : List Node} {n : Node}
    (hid : ∀ m ∈ nodes, isStringOrNumber m.id = true)
    (hu : (nodes.map Node.id).Nodup) (hn : n ∈ nodes) :
    nodes.find? (fun m => strictEq m.id n.id) = some n := by
  induction nodes with
  | nil => cases hn
  | cons m rest ih =>
    have hnid := hid n hn
    simp only [List.map_cons, List.nodup_cons] at hu
    by_cases hm : strictEq m.id n.id = true
    · have heq : m.id = n.id := strictEq_eq_of_isStringOrNumber hnid hm
      rcases List.mem_cons.mp hn with rfl | hr
      · simp [List.find?, hm]
      · exact absurd (heq ▸ List.mem_map_of_mem Node.id hr) hu.1
    · have hne : n ∈ rest := by
        rcases List.mem_cons.mp hn with rfl | hr
        · exact absurd (strictEq_self_of_isStringOrNumber hnid) hm
        · exact hr
      simp only [List.find?, hm]
      exact ih (fun x hx => hid x (List.mem_cons_of_mem _ hx)) hu.2 hne

theorem filterE_ok {α : Type} (p : α → Except String Bool) (l : List α)
    (h : ∀ a ∈ l, ∃ b, p a = Except.ok b) :
    ∃ r, filterE p l = Except.ok r ∧ ∀ a ∈ r, a ∈ l := by
  induction l with
  | nil => exact ⟨[], rfl, fun _ h => h⟩
  | cons a rest ih =>
    obtain ⟨b, hb⟩ := h a (List.mem_cons_self _ _)
    obtain ⟨r, hr, hsub⟩ := ih (fun x hx => h x (List.mem_cons_of_mem _ hx))
    refine ⟨if b then a :: r else r, by simp [filterE, hb, hr], ?_⟩
    intro x hx
    cases b with
    | true =>
      rcases List.mem_cons.mp hx with rfl | hx'
      · exact List.mem_cons_self _ _
      · exact List.mem_cons_of_mem _ (hsub x hx')
    | false => exact List.mem_cons_of_mem _ (hsub x hx)

theorem mapE_ok {α β : Type} (f : α → Except String β) (l : List α)
    (h : ∀ a ∈ l, ∃ b, f a = Except.ok b) :
    ∃ r, mapE f l = Except.ok r ∧ r.length = l.length := by
  induction l with
  | nil => exact ⟨[], rfl, rfl⟩
  | cons a rest ih =>
    obtain ⟨b, hb⟩ := h a (List.mem_cons_self _ _)
    obtain ⟨r, hr, hlen⟩ := ih (fun x hx => h x (List.mem_cons_of_mem _ hx))
    exact ⟨b :: r, by simp [mapE, hb, hr], by simp [hlen]⟩

theorem idOf_of_canReadId {v : Option Val} (h : canReadId v = true) :
    ∃ i, Val.idOf v = Except.ok i := by
  unfold canReadId at h
  split at h
  · rename_i i hi
    exact ⟨i, hi⟩
  · cases h

theorem touches_ok (nodeId : Option JsVal) (l : Link)
    (h : canReadId (getProp "source" l) = true ∧ canReadId (getProp "target" l) = true) :
    ∃ b, touches nodeId l = Except.ok b := by
  obtain ⟨s, hs⟩ := idOf_of_canReadId h.1
  obtain ⟨t, ht⟩ := idOf_of_canReadId h.2
  simp only [touches, hs, ht]
  split
  · exact ⟨true, rfl⟩
  · exact ⟨_, rfl⟩

theorem otherEnd_ok (nodeId : Option JsVal) (l : Link)
    (h : canReadId (getProp "source" l) = true ∧ canReadId (getProp "target" l) = true) :
    ∃ i, otherEnd nodeId l = Except.ok i := by
  obtain ⟨s, hs⟩ := idOf_of_canReadId h.1
  obtain ⟨t, ht⟩ := idOf_of_canReadId h.2
  simp only [otherEnd, hs, ht]
  split
  · exact ⟨t, rfl⟩
  · exact ⟨s, rfl⟩

theorem connectedNodeIds_ok (nodeId : Option JsVal) (links : List Link)
    (h : ∀ l ∈ links, canReadId (getProp "source" l) = true ∧
      canReadId (getProp "target" l) = true) :
    ∃ ids, connectedNodeIds nodeId links = Except.ok ids := by
  obtain ⟨r, hr, hsub⟩ := filterE_ok (touches nodeId) links
    (fun l hl => touches_ok nodeId l (h l hl))
  obtain ⟨ids, hids, _⟩ := mapE_ok (otherEnd nodeId) r
    (fun l hl => otherEnd_ok nodeId l (h l (hsub l hl)))
  exact ⟨ids, by simp [connectedNodeIds, hr, hids]⟩

/-- What `deselectNode()` does once the graph is rendered. -/
theorem deselectNode_of_groups (e : Engine) (gs : List NodeGroup) (ls : List LinkGroup)
    (hg : e.nodeGroups = some gs) (hl : e.linkGroups = some ls) :
    ∃ gs' ls', deselectNode e =
        ⟨{ e with nodeGroups := some gs'
                  linkGroups := some ls'
                  events := e.events ++ deselectEvents e
                  selectedNode := none }, none⟩ ∧
      gs'.map (fun g => g.datum) = gs.map (fun g => g.datum) ∧
      ls'.map (fun g => g.datum) = ls.map (fun g => g.datum) ∧
      ((∀ g ∈ gs', g.stroke = Stroke.typeDarker) ∨ (gs' = gs ∧ e.selectedNode = none)) := by
  cases hsel : e.selectedNode with
  | none =>
    refine ⟨gs, ls, ?_, rfl, rfl, Or.inr ⟨rfl, rfl⟩⟩
    simp only [deselectNode, hsel, deselectEvents, List.append_nil]
    rw [← hg, ← hl, ← hsel]
  | some sel =>
    refine ⟨gs.map (fun g => { g with strokeWidth := 2, stroke := Stroke.typeDarker }),
      ls.map (fun g => { g with opacity := 7 / 10, width := LineWidth.base }), ?_, ?_, ?_, ?_⟩
    · simp only [deselectNode, hsel, hg, hl, deselectEvents]
    · simp [List.map_map, Function.comp]
    · simp [List.map_map, Function.comp]
    · left
      intro g hgm
      obtain ⟨g0, _, rfl⟩ := List.mem_map.mp hgm
      rfl

theorem zip_map_datum (f : LinkGroup × Bool → LinkGroup)
    (hf : ∀ gh, (f gh).datum = gh.1.datum) :
    ∀ (ls : List LinkGroup) (hits : List Bool), hits.length = ls.length →
      ((ls.zip hits).map f).map (fun g => g.datum) = ls.map (fun g => g.datum) := by
  intro ls
  induction ls with
  | nil => intro hits _; simp
  | cons g rest ih =>
    intro hits hlen
    cases hits with
    | nil => simp at hlen
    | cons b hs =>
      simp only [List.zip_cons_cons, List.map_cons, hf, List.cons.injEq, true_and]
      exact ih hs (by simpa using hlen)

/-- What `selectNode(n)` does on a rendered graph, for a node `n` of `this.nodes`. -/
theorem selectNode_of_rendered (rt : Runtime) (e : Engine) (n : Node)
    (h : Rendered e) (hn : n ∈ e.nodes) :
    ∃ gs' ls', selectNode rt e (SelectArg.node n) =
        ⟨{ e with selectedNode := some n
                  nodeGroups := some gs'
                  linkGroups := some ls'
                  events := e.events ++ deselectEvents e ++ [Event.select n]
                  zoomTargets := e.zoomTargets ++ [centerTarget rt e n] }, none⟩ ∧
      gs'.map (fun g => g.datum) = e.nodes ∧
      (∀ g ∈ ls', canReadId (getProp "source" g.datum) = true ∧
        canReadId (getProp "target" g.datum) = true) ∧
      (∀ g ∈ gs', g.stroke = Stroke.primary → g.datum = n) := by
  obtain ⟨gs, ls, hg, hl, hdat, hid, hu, _, hlinks, hlines, hhi⟩ := h
  have hfind := find?_of_unique_id hid hu hn
  obtain ⟨gd, ld, hd, hgd, hld, hstroke⟩ := deselectNode_of_groups e gs ls hg hl
  obtain ⟨ids, hids⟩ := connectedNodeIds_ok n.id e.links hlinks
  have hldr : ∀ g ∈ ld, canReadId (getProp "source" g.datum) = true ∧
      canReadId (getProp "target" g.datum) = true := by
    intro g hgm
    have : g.datum ∈ ls.map (fun g => g.datum) := by
      rw [← hld]; exact List.mem_map_of_mem _ hgm
    obtain ⟨g0, hg0, hgeq⟩ := List.mem_map.mp this
    rw [← hgeq]
    exact hlines g0 hg0
  obtain ⟨hits, hhits, hlen⟩ := mapE_ok (fun g => touches n.id g.datum) ld
    (fun g hgm => touches_ok n.id g.datum (hldr g hgm))
  have hnoprim : ∀ g ∈ gd, g.stroke ≠ Stroke.primary := by
    intro g hgm hp
    rcases hstroke with hall | ⟨rfl, hnone⟩
    · rw [hall g hgm] at hp
      cases hp
    · obtain ⟨sel, hsel, _⟩ := hhi g hgm hp
      rw [hnone] at hsel
      cases hsel
  refine ⟨(gd.map (fun g =>
        if strictEq g.datum.id n.id then { g with strokeWidth := 3, stroke := Stroke.primary }
        else g)).map (fun g =>
        if ids.any (fun i => strictEq i g.datum.id) then
          { g with strokeWidth := 2, stroke := Stroke.secondary }
        else g),
      (ld.zip hits).map (fun gh =>
        if gh.2 then { gh.1 with opacity := 1, width := LineWidth.raised } else gh.1),
      ?_, ?_, ?_, ?_⟩
  · simp only [selectNode, hfind, hd, hids, hhits]
    rfl
  · rw [← hdat, ← hgd]
    simp only [List.map_map]
    apply List.map_congr_left
    intro g _
    simp only [Function.comp]
    split <;> split <;> rfl
  · intro g hgm
    have hmap := zip_map_datum (fun gh : LinkGroup × Bool =>
      if gh.2 then { gh.1 with opacity := 1, width := LineWidth.raised } else gh.1)
      (fun gh => by dsimp only; split <;> rfl) ld hits hlen
    have : g.datum ∈ ld.map (fun g => g.datum) := by
      rw [← hmap]; exact List.mem_map_of_mem _ hgm
    obtain ⟨g0, hg0, hgeq⟩ := List.mem_map.mp this
    rw [← hgeq]
    exact hldr g0 hg0
  · intro g hgm hp
    obtain ⟨g1, hg1, rfl⟩ := List.mem_map.mp hgm
    obtain ⟨g0, hg0, rfl⟩ := List.mem_map.mp hg1
    have hg0n : g0.datum ∈ e.nodes := by
      rw [← hdat, ← hgd]; exact List.mem_map_of_mem _ hg0
    have hs : strictEq g0.datum.id n.id = true := by
      by_cases hs : strictEq g0.datum.id n.id = true
      · exact hs
      · exfalso
        rw [if_neg hs] at hp
        by_cases hc : (ids.any fun i => strictEq i g0.datum.id) = true
        · rw [if_pos hc] at hp
          cases hp
        · rw [if_neg hc] at hp
          exact hnoprim g0 hg0 hp
    have hideq : g0.datum.id = n.id := strictEq_eq_of_isStringOrNumber (hid n hn) hs
    have hinj : g0.datum = n := List.inj_on_of_nodup_map hu hg0n hn hideq
    rw [← hinj]
    split <;> split <;> rfl

theorem rendered_selectNode (rt : Runtime) (e : Engine) (n : Node)
    (h : Rendered e) (hn : n ∈ e.nodes) :
    Rendered (selectNode rt e (SelectArg.node n)).state := by
  obtain ⟨gs', ls', heq, hdat, hread, hprim⟩ := selectNode_of_rendered rt e n h hn
  obtain ⟨_, _, _, _, _, hid, hu, ho, hlinks, _, _⟩ := h
  rw [heq]
  refine ⟨gs', ls', rfl, rfl, hdat, hid, hu, ho, hlinks, hread, ?_⟩
  intro g hg hp
  exact ⟨n, rfl, by rw [hprim g hg hp]⟩

theorem rendered_deselectNode (e : Engine) (h : Rendered e) :
    Rendered (deselectNode e).state ∧ (deselectNode e).state.selectedNode = none := by
  obtain ⟨gs, ls, hg, hl, hdat, hid, hu, ho, hlinks, hlines, hhi⟩ := h
  obtain ⟨gd, ld, hd, hgd, hld, hstroke⟩ := deselectNode_of_groups e gs ls hg hl
  rw [hd]
  refine ⟨⟨gd, ld, rfl, rfl, by rw [hgd]; exact hdat, hid, hu, ho, hlinks, ?_, ?_⟩, rfl⟩
  · intro g hgm
    have : g.datum ∈ ls.map (fun g => g.datum) := by
      rw [← hld]; exact List.mem_map_of_mem _ hgm
    obtain ⟨g0, hg0, hgeq⟩ := List.mem_map.mp this
    rw [← hgeq]
    exact hlines g0 hg0
  · intro g hgm hp
    exfalso
    rcases hstroke with hall | ⟨rfl, hnone⟩
    · rw [hall g hgm] at hp
      cases hp
    · obtain ⟨sel, hsel, _⟩ := hhi g hgm hp
      rw [hnone] at hsel
      cases hsel

theorem group_datum_mem {e : Engine} {gs : List NodeGroup} {i : Nat} {g : NodeGroup}
    (hdat : gs.map (fun g => g.datum) = e.nodes) (hi : gs[i]? = some g) :
    g.datum ∈ e.nodes := by
  rw [← hdat]
  exact List.mem_map_of_mem _ (List.getElem?_mem hi)

theorem rendered_click (rt : Runtime) (e : Engine) (c : Click) (h : Rendered e) :
    Rendered (click rt e c).state := by
  cases c with
  | background => exact (rendered_deselectNode e h).1
  | node i =>
    obtain ⟨gs, ls, hg, hl, hdat, _⟩ := id h
    simp only [click, hg, Option.getD_some]
    cases hi : gs[i]? with
    | none => exact h
    | some g =>
      have hmem := group_datum_mem hdat hi
      simp only [handleNodeClick]
      split
      · split
        · exact (rendered_deselectNode e h).1
        · exact rendered_selectNode rt e g.datum h hmem
      · exact rendered_selectNode rt e g.datum h hmem

theorem rendered_clicks (rt : Runtime) (cs : List Click) :
    ∀ e, Rendered e → Rendered (clicks rt e cs) := by
  induction cs with
  | nil => intro e h; exact h
  | cons c rest ih => intro e h; exact ih _ (rendered_click rt e c h)

theorem index_eq_of_nodup {α : Type} {l : List α} (h : l.Nodup) {i j : Nat} {a : α}
    (hi : l[i]? = some a) (hj : l[j]? = some a) : i = j := by
  have hjl : j < l.length := (List.getElem?_eq_some_iff.mp hj).1
  have hil : i < l.length := (List.getElem?_eq_some_iff.mp hi).1
  rcases Nat.lt_trichotomy i j with hlt | heq | hgt
  · exact absurd (hi.trans hj.symm) (List.nodup_iff_getElem?_ne_getElem?.mp h i j hlt hjl)
  · exact heq
  · exact absurd (hj.trans hi.symm) (List.nodup_iff_getElem?_ne_getElem?.mp h j i hgt hil)

/-- On a rendered graph at most one circle has the selected stroke, it belongs
to the selected node, and a click on the selected node clears the selection. -/
theorem rendered_exclusive (rt : Runtime) (e : Engine) (h : Rendered e) :
    ∃ gs, e.nodeGroups = some gs ∧
      (∀ (i j : Nat) (gi gj : NodeGroup), gs[i]? = some gi → gs[j]? = some gj →
        gi.stroke = Stroke.primary → gj.stroke = Stroke.primary → i = j) ∧
      (∀ g ∈ gs, g.stroke = Stroke.primary →
        ∃ sel, e.selectedNode = some sel ∧ Node.same sel g.datum = true) ∧
      (∀ (i : Nat) (g : NodeGroup) (sel : Node), gs[i]? = some g → e.selectedNode = some sel →
        Node.same sel g.datum = true →
        (click rt e (Click.node i)).state.selectedNode = none) := by
  obtain ⟨gs, ls, hg, hl, hdat, hid, hu, ho, hlinks, hlines, hhi⟩ := id h
  refine ⟨gs, hg, ?_, ?_, ?_⟩
  · intro i j gi gj hi hj hpi hpj
    obtain ⟨si, hsi, hoi⟩ := hhi gi (List.getElem?_mem hi) hpi
    obtain ⟨sj, hsj, hoj⟩ := hhi gj (List.getElem?_mem hj) hpj
    rw [hsi] at hsj
    cases hsj
    have hnd : (gs.map (fun g => g.datum.oid)).Nodup := by
      have : gs.map (fun g => g.datum.oid) = e.nodes.map Node.oid := by
        rw [← hdat, List.map_map]; rfl
      rw [this]; exact ho
    apply index_eq_of_nodup hnd (a := si.oid)
    · simp [List.getElem?_map, hi, hoi]
    · simp [List.getElem?_map, hj, hoj]
  · intro g hgm hp
    obtain ⟨sel, hsel, hoid⟩ := hhi g hgm hp
    exact ⟨sel, hsel, by simp [Node.same, hoid]⟩
  · intro i g sel hi hsel hsame
    simp only [click, hg, Option.getD_some, hi, handleNodeClick, hsel, hsame, if_true]
    exact (rendered_deselectNode e h).2

/-! ## A setData that returns normally renders the graph -/

theorem joinNodes_spec (rt : Runtime) (nodes : List Node) :
    ∀ dom, (joinNodes rt dom nodes).map (fun g => g.datum) = nodes ∧
      ∀ g ∈ joinNodes rt dom nodes, g.stroke = Stroke.typeDarker := by
  induction nodes with
  | nil => intro dom; simp [joinNodes]
  | cons n rest ih =>
    intro dom
    simp only [joinNodes]
    split
    · refine ⟨by simp [(ih _).1], ?_⟩
      intro g hg
      rcases List.mem_cons.mp hg with rfl | hg
      · rfl
      · exact (ih _).2 g hg
    · refine ⟨by simp [(ih _).1], ?_⟩
      intro g hg
      rcases List.mem_cons.mp hg with rfl | hg
      · rfl
      · exact (ih _).2 g hg

theorem joinLinks_datum_mem (data : List (String × Link)) :
    ∀ dom, ∀ g ∈ joinLinks dom data, g.datum ∈ data.map Prod.snd := by
  induction data with
  | nil => intro dom g hg; simp [joinLinks] at hg
  | cons kd rest ih =>
    intro dom g hg
    obtain ⟨k, d⟩ := kd
    simp only [joinLinks] at hg
    split at hg
    · rcases List.mem_cons.mp hg with rfl | hg
      · simp
      · exact List.mem_cons_of_mem _ (ih _ g hg)
    · rcases List.mem_cons.mp hg with rfl | hg
      · simp
      · exact List.mem_cons_of_mem _ (ih _ g hg)

theorem canReadId_of_object {v : Option Val} (ho : Val.isObject v = true)
    (hn : Val.isNull v = false) : canReadId v = true := by
  match v, ho, hn with
  | some (Val.node _), _, _ => rfl
  | some (Val.json (JsVal.arr _)), _, _ => rfl
  | some (Val.json (JsVal.obj _)), _, _ => rfl

theorem resolveEndpoint_isObject {sim : List Node} {k : String} {l l' : Link}
    (h : resolveEndpoint sim k l = Except.ok l') :
    Val.isObject (getProp k l') = true ∧ ∀ k', k ≠ k' → getProp k' l' = getProp k' l := by
  unfold resolveEndpoint at h
  split at h
  · cases h
    exact ⟨‹_›, fun _ _ => rfl⟩
  · split at h
    · cases h
      exact ⟨by rw [getProp_setProp_self]; rfl, fun k' hk => getProp_setProp_ne hk _ _⟩
    · cases h

/-- After a binding that did not throw, both endpoints of every link are objects. -/
theorem bindLinksFrom_readable (sim : List Node) (links : List Link) :
    ∀ i, (bindLinksFrom sim i links).2 = none →
      ∀ l ∈ (bindLinksFrom sim i links).1,
        canReadId (getProp "source" l) = true ∧ canReadId (getProp "target" l) = true := by
  induction links with
  | nil => intro i _ l hl; simp [bindLinksFrom] at hl
  | cons l rest ih =>
    intro i
    simp only [bindLinksFrom]
    split
    · intro h; cases h
    · rename_i l1 h1
      split
      · intro h; cases h
      · rename_i l2 h2
        split
        · intro h; cases h
        · rename_i hnull
          intro hnone x hx
          rcases List.mem_cons.mp hx with rfl | hx
          · obtain ⟨o1, _⟩ := resolveEndpoint_isObject h1
            obtain ⟨o2, p2⟩ := resolveEndpoint_isObject h2
            rw [← p2 "source" (by decide)] at o1
            simp only [Bool.or_eq_true, not_or, Bool.not_eq_true] at hnull
            exact ⟨canReadId_of_object o1 hnull.1, canReadId_of_object o2 hnull.2⟩
          · exact ih (i + 1) hnone x hx

theorem updateLinks_of_ok (rt : Runtime) (e : Engine) (h : (updateLinks rt e).thrown = none) :
    ∃ lg, (updateLinks rt e).state = { e with linkGroups := some lg } ∧
      ∀ g ∈ lg, g.datum ∈ e.links := by
  simp only [updateLinks] at h ⊢
  split
  · rename_i hk; simp [hk] at h
  · rename_i domKeys hk
    split
    · rename_i hk2; simp [hk, hk2] at h
    · rename_i dataKeys hk2
      refine ⟨_, rfl, ?_⟩
      intro g hg
      have := joinLinks_datum_mem _ _ g hg
      obtain ⟨kd, hkd, hsnd⟩ := List.mem_map.mp this
      rw [← hsnd]
      exact (List.of_mem_zip (a := kd.1) (b := kd.2) hkd).2

theorem parseNodes_map_oid (N : List Props) :
    ∀ oid, (parseNodes oid N).map Node.oid = List.range' oid N.length := by
  induction N with
  | nil => intro oid; rfl
  | cons p rest ih => intro oid; simp [parseNodes, ih, List.range'_succ]

theorem rendered_nodes_map_oid (rt : Runtime) (nodes : List Node) :
    ((simulationNodes rt nodes).map pinNode).map Node.oid = nodes.map Node.oid := by
  rw [List.map_map, ← simulationNodesFrom_map_oid rt nodes 0, simulationNodes]
  apply List.map_congr_left
  intro n _
  exact pinNode_oid n

theorem setData_eq_of_bind_ok (rt : Runtime) (e : Engine) (N L : List Props)
    (hb : (forceLinkLinks e.simNodes
      ((L.map parseLink).map (annotateLink (parseNodes e.nextOid N)))).2 = none) :
    setData rt e N L = updateLinks rt (updateNodes rt
      { e with nodes := (simulationNodes rt (parseNodes e.nextOid N)).map pinNode
               links := (forceLinkLinks e.simNodes
                 ((L.map parseLink).map (annotateLink (parseNodes e.nextOid N)))).1
               simNodes := (simulationNodes rt (parseNodes e.nextOid N)).map pinNode
               nextOid := e.nextOid + N.length }) := by
  simp only [setData, updateVisualization]
  split
  · rename_i err hsome
    rw [hb] at hsome
    cases hsome
  · rfl

theorem bind_ok_of_setData_ok (rt : Runtime) (e : Engine) (N L : List Props)
    (hok : (setData rt e N L).thrown = none) :
    (forceLinkLinks e.simNodes
      ((L.map parseLink).map (annotateLink (parseNodes e.nextOid N)))).2 = none := by
  simp only [setData, updateVisualization] at hok
  split at hok
  · cases hok
  · assumption

/-- A `setData(N, L)` that returns normally, with the ids of `N` strings or
numbers and pairwise different, leaves a rendered graph. -/
theorem rendered_setData (rt : Runtime) (e : Engine) (N L : List Props)
    (hid : ∀ p ∈ N, isStringOrNumber (getProp "id" p) = true)
    (hu : (N.map (getProp "id")).Nodup)
    (hok : (setData rt e N L).thrown = none) :
    Rendered (setData rt e N L).state := by
  have hb := bind_ok_of_setData_ok rt e N L hok
  have hread := bindLinksFrom_readable e.simNodes _ 0 hb
  rw [setData_eq_of_bind_ok rt e N L hb] at hok ⊢
  obtain ⟨lg, hlg, hmem⟩ := updateLinks_of_ok rt _ hok
  rw [hlg]
  have hj := joinNodes_spec rt ((simulationNodes rt (parseNodes e.nextOid N)).map pinNode)
    (e.nodeGroups.getD [])
  have hids : ((simulationNodes rt (parseNodes e.nextOid N)).map pinNode).map Node.id =
      N.map (getProp "id") := by
    rw [rendered_nodes_map_id, parseNodes_map_id]
  refine ⟨_, lg, rfl, rfl, hj.1, ?_, ?_, ?_, hread, ?_, ?_⟩
  · intro n hnm
    have : n.id ∈ N.map (getProp "id") := by
      rw [← hids]; exact List.mem_map_of_mem _ hnm
    obtain ⟨p, hp, hpe⟩ := List.mem_map.mp this
    rw [← hpe]; exact hid p hp
  · show (((simulationNodes rt (parseNodes e.nextOid N)).map pinNode).map Node.id).Nodup
    rw [hids]; exact hu
  · show (((simulationNodes rt (parseNodes e.nextOid N)).map pinNode).map Node.oid).Nodup
    rw [rendered_nodes_map_oid, parseNodes_map_oid]
    exact List.nodup_range' _ _
  · intro g hg
    exact hread _ (hmem g hg)
  · intro g hg hp
    rw [hj.2 g hg] at hp
    cases hp

/-! ## Selection: the claims -/

/-- Take a graph whose node ids are strings or numbers and pairwise different,
rendered by a `setData` that returned normally, and any sequence of clicks on
nodes and on the background. After the clicks at most one node circle has the
selected stroke, a circle with the selected stroke belongs to `selectedNode`,
and a click on the group of the selected node object leaves
`selectedNode = null`. -/
theorem selection_exclusive (rt : Runtime) (e : Engine) (N L : List Props) (cs : List Click)
    (hid : ∀ p ∈ N, isStringOrNumber (getProp "id" p) = true)
    (hu : (N.map (getProp "id")).Nodup)
    (hok : (setData rt e N L).thrown = none) :
    ∃ gs, (clicks rt (setData rt e N L).state cs).nodeGroups = some gs ∧
      (∀ (i j : Nat) (gi gj : NodeGroup), gs[i]? = some gi → gs[j]? = some gj →
        gi.stroke = Stroke.primary → gj.stroke = Stroke.primary → i = j) ∧
      (∀ g ∈ gs, g.stroke = Stroke.primary →
        ∃ sel, (clicks rt (setData rt e N L).state cs).selectedNode = some sel ∧
          Node.same sel g.datum = true) ∧
      (∀ (i : Nat) (g : NodeGroup) (sel : Node), gs[i]? = some g →
        (clicks rt (setData rt e N L).state cs).selectedNode = some sel →
        Node.same sel g.datum = true →
        (click rt (clicks rt (setData rt e N L).state cs) (Click.node i)).state.selectedNode
          = none) :=
  rendered_exclusive rt _ (rendered_clicks rt cs _ (rendered_setData rt e N L hid hu hok))

theorem sample_ids_nodup :
    ([[("id", JsVal.str "r1"), ("type", JsVal.str "router")],
      [("id", JsVal.str "d1"), ("type", JsVal.str "device")]].map (getProp "id")).Nodup := by
  simp [getProp]

theorem selection_exclusive_witness :
    ((∀ p ∈ [[("id", JsVal.str "r1"), ("type", JsVal.str "router")],
        [("id", JsVal.str "d1"), ("type", JsVal.str "device")]],
        isStringOrNumber (getProp "id" p) = true) ∧
      (setData sampleRuntime boundEngine
        [[("id", JsVal.str "r1"), ("type", JsVal.str "router")],
         [("id", JsVal.str "d1"), ("type", JsVal.str "device")]]
        [[("source", JsVal.str "r1"), ("target", JsVal.str "d1"),
          ("bandwidth", JsVal.num 500)]]).thrown = none) ∧
    ∃ gs, (clicks sampleRuntime (setData sampleRuntime boundEngine
        [[("id", JsVal.str "r1"), ("type", JsVal.str "router")],
         [("id", JsVal.str "d1"), ("type", JsVal.str "device")]]
        [[("source", JsVal.str "r1"), ("target", JsVal.str "d1"),
          ("bandwidth", JsVal.num 500)]]).state
        [Click.node 0, Click.node 1, Click.node 1, Click.background, Click.node 0]).nodeGroups
          = some gs ∧
      (∀ (i j : Nat) (gi gj : NodeGroup), gs[i]? = some gi → gs[j]? = some gj →
        gi.stroke = Stroke.primary → gj.stroke = Stroke.primary → i = j) ∧
      (∀ g ∈ gs, g.stroke = Stroke.primary →
        ∃ sel, (clicks sampleRuntime (setData sampleRuntime boundEngine
          [[("id", JsVal.str "r1"), ("type", JsVal.str "router")],
           [("id", JsVal.str "d1"), ("type", JsVal.str "device")]]
          [[("source", JsVal.str "r1"), ("target", JsVal.str "d1"),
            ("bandwidth", JsVal.num 500)]]).state
          [Click.node 0, Click.node 1, Click.node 1, Click.background,
            Click.node 0]).selectedNode = some sel ∧
          Node.same sel g.datum = true) ∧
      (∀ (i : Nat) (g : NodeGroup) (sel : Node), gs[i]? = some g →
        (clicks sampleRuntime (setData sampleRuntime boundEngine
          [[("id", JsVal.str "r1"), ("type", JsVal.str "router")],
           [("id", JsVal.str "d1"), ("type", JsVal.str "device")]]
          [[("source", JsVal.str "r1"), ("target", JsVal.str "d1"),
            ("bandwidth", JsVal.num 500)]]).state
          [Click.node 0, Click.node 1, Click.node 1, Click.background,
            Click.node 0]).selectedNode = some sel →
        Node.same sel g.datum = true →
        (click sampleRuntime (clicks sampleRuntime (setData sampleRuntime boundEngine
          [[("id", JsVal.str "r1"), ("type", JsVal.str "router")],
           [("id", JsVal.str "d1"), ("type", JsVal.str "device")]]
          [[("source", JsVal.str "r1"), ("target", JsVal.str "d1"),
            ("bandwidth", JsVal.num 500)]]).state
          [Click.node 0, Click.node 1, Click.node 1, Click.background, Click.node 0])
          (Click.node i)).state.selectedNode = none) :=
  ⟨⟨by decide, rfl⟩,
   selection_exclusive sampleRuntime boundEngine _ _ _ (by decide) sample_ids_nodup rfl⟩

theorem linkedEngine_rendered : Rendered linkedEngine :=
  rendered_setData sampleRuntime boundEngine _ _ (by decide) sample_ids_nodup rfl

/-- Claim C10. On a rendered graph with unique ids, `selectNode(n)` for a node
`n` of `this.nodes` returns normally and leaves `selectedNode = n`. While a
node `m` is selected it dispatches exactly two events, `node:deselect` with
`m` and then `node:select` with the engine's record `n`; with nothing
selected it dispatches only `node:select` with `n`. -/
theorem selectNode_events (rt : Runtime) (e : Engine) (n : Node)
    (h : Rendered e) (hn : n ∈ e.nodes) :
    (selectNode rt e (SelectArg.node n)).thrown = none ∧
      (selectNode rt e (SelectArg.node n)).state.selectedNode = some n ∧
      (selectNode rt e (SelectArg.node n)).state.events =
        e.events ++ (match e.selectedNode with
          | some m => [Event.deselect m, Event.select n]
          | none => [Event.select n]) := by
  obtain ⟨gs', ls', heq, _, _, _⟩ := selectNode_of_rendered rt e n h hn
  rw [heq]
  refine ⟨rfl, rfl, ?_⟩
  show e.events ++ deselectEvents e ++ [Event.select n] = _
  unfold deselectEvents
  cases e.selectedNode <;> simp

theorem selectedEngine_rendered : Rendered selectedEngine :=
  rendered_clicks sampleRuntime _ _ linkedEngine_rendered

theorem secondNode_mem : secondNode ∈ selectedEngine.nodes :=
  List.mem_cons_of_mem _ (List.mem_cons_self _ _)

theorem selectNode_events_witness :
    (Rendered selectedEngine ∧ secondNode ∈ selectedEngine.nodes ∧
      secondNode.id = some (JsVal.str "d1") ∧
      selectedEngine.selectedNode.map Node.id = some (some (JsVal.str "r1"))) ∧
    (selectNode sampleRuntime selectedEngine (SelectArg.node secondNode)).thrown = none ∧
      (selectNode sampleRuntime selectedEngine (SelectArg.node secondNode)).state.selectedNode
        = some secondNode ∧
      (selectNode sampleRuntime selectedEngine (SelectArg.node secondNode)).state.events =
        selectedEngine.events ++ (match selectedEngine.selectedNode with
          | some m => [Event.deselect m, Event.select secondNode]
          | none => [Event.select secondNode]) :=
  ⟨⟨selectedEngine_rendered, secondNode_mem, rfl, rfl⟩,
   selectNode_events sampleRuntime selectedEngine secondNode selectedEngine_rendered
     secondNode_mem⟩

/-! ## Deselecting by a click -/

theorem deselectNode_of_selected (e : Engine) (n : Node) (gs : List NodeGroup)
    (ls : List LinkGroup) (hg : e.nodeGroups = some gs) (hl : e.linkGroups = some ls)
    (hsel : e.selectedNode = some n) :
    deselectNode e =
      ⟨{ e with nodeGroups :=
                  some (gs.map (fun g => { g with strokeWidth := 2, stroke := Stroke.typeDarker }))
                linkGroups :=
                  some (ls.map (fun g => { g with opacity := 7 / 10, width := LineWidth.base }))
                events := e.events ++ [Event.deselect n]
                selectedNode := none }, none⟩ := by
  simp only [deselectNode, hsel, hg, hl]

theorem click_of_selected (rt : Runtime) (e : Engine) (n : Node) (gs : List NodeGroup)
    (c : Click) (hg : e.nodeGroups = some gs) (hsel : e.selectedNode = some n)
    (hc : c = Click.background ∨
      ∃ i g, c = Click.node i ∧ gs[i]? = some g ∧ Node.same n g.datum = true) :
    click rt e c = deselectNode e := by
  rcases hc with rfl | ⟨i, g, rfl, hi, hsame⟩
  · rfl
  · simp only [click, hg, Option.getD_some, hi, handleNodeClick, hsel, hsame, if_true]

/-- Claim C11. While a node `n` is selected on a rendered graph, a click on
the background or on the group of `n` returns normally, sets `selectedNode`
to `null`, gives every node circle the stroke width 2 and its default stroke
(the darker colour of its type), gives every link line the opacity 0.7 and
the width `getLinkWidth(link)`, and dispatches exactly one event,
`node:deselect` with `n`. -/
theorem click_deselects (rt : Runtime) (opts : Options) (e : Engine) (n : Node)
    (gs : List NodeGroup) (ls : List LinkGroup) (c : Click)
    (hg : e.nodeGroups = some gs) (hl : e.linkGroups = some ls)
    (hsel : e.selectedNode = some n)
    (hc : c = Click.background ∨
      ∃ i g, c = Click.node i ∧ gs[i]? = some g ∧ Node.same n g.datum = true) :
    (click rt e c).thrown = none ∧
      (click rt e c).state.selectedNode = none ∧
      (click rt e c).state.events = e.events ++ [Event.deselect n] ∧
      (∃ gs', (click rt e c).state.nodeGroups = some gs' ∧
        gs'.map (fun g => g.datum) = gs.map (fun g => g.datum) ∧
        ∀ g ∈ gs', g.strokeWidth = 2 ∧ g.stroke = Stroke.typeDarker) ∧
      (∃ ls', (click rt e c).state.linkGroups = some ls' ∧
        ls'.map (fun g => g.datum) = ls.map (fun g => g.datum) ∧
        ∀ g ∈ ls', g.opacity = 7 / 10 ∧
          LinkGroup.strokeWidth rt opts g = getLinkWidth rt opts g.datum) := by
  rw [click_of_selected rt e n gs c hg hsel hc, deselectNode_of_selected e n gs ls hg hl hsel]
  refine ⟨rfl, rfl, rfl, ⟨_, rfl, ?_, ?_⟩, ⟨_, rfl, ?_, ?_⟩⟩
  · simp [List.map_map, Function.comp]
  · intro g hgm
    obtain ⟨g0, _, rfl⟩ := List.mem_map.mp hgm
    exact ⟨rfl, rfl⟩
  · simp [List.map_map, Function.comp]
  · intro g hgm
    obtain ⟨g0, _, rfl⟩ := List.mem_map.mp hgm
    exact ⟨rfl, rfl⟩

theorem click_deselects_witness :
    (selectedEngine.nodeGroups.isSome = true ∧ selectedEngine.linkGroups.isSome = true ∧
      selectedEngine.selectedNode.map Node.oid = some 2) ∧
    (click sampleRuntime selectedEngine (Click.node 0)).thrown = none ∧
      (click sampleRuntime selectedEngine (Click.node 0)).state.selectedNode = none ∧
      (click sampleRuntime selectedEngine (Click.node 0)).state.events =
        selectedEngine.events ++ [Event.deselect (selectedEngine.nodes.getD 0 ⟨0, []⟩)] ∧
      (∃ gs', (click sampleRuntime selectedEngine (Click.node 0)).state.nodeGroups = some gs' ∧
        gs'.map (fun g => g.datum) =
          (selectedEngine.nodeGroups.getD []).map (fun g => g.datum) ∧
        ∀ g ∈ gs', g.strokeWidth = 2 ∧ g.stroke = Stroke.typeDarker) ∧
      (∃ ls', (click sampleRuntime selectedEngine (Click.node 0)).state.linkGroups = some ls' ∧
        ls'.map (fun g => g.datum) =
          (selectedEngine.linkGroups.getD []).map (fun g => g.datum) ∧
        ∀ g ∈ ls', g.opacity = 7 / 10 ∧
          LinkGroup.strokeWidth sampleRuntime defaultOptions g =
            getLinkWidth sampleRuntime defaultOptions g.datum) :=
  ⟨⟨rfl, rfl, rfl⟩,
   click_deselects sampleRuntime defaultOptions selectedEngine
     (selectedEngine.nodes.getD 0 ⟨0, []⟩) (selectedEngine.nodeGroups.getD [])
     (selectedEngine.linkGroups.getD []) (Click.node 0) rfl rfl rfl
     (Or.inr ⟨0, (selectedEngine.nodeGroups.getD []).getD 0 ⟨⟨0, []⟩, Stroke.typeDarker, 0⟩,
       rfl, rfl, rfl⟩)⟩

/-- Claim C9, evaluated at failing inputs. First input: the engine has rendered
the nodes `r1`, `d1` (unique ids), a link from `r1` to itself and the link
`r1 - d1`. After a click on `r1` the handler has returned normally and
`selectedNode` is `r1`, but no circle carries the selected stroke: the
selected node is not the highlighted one. Second input: `setData` has thrown
in the link force, so the groups still carry the node objects rendered
before. A click on `r1` selects the new object of `r1`; a second click on
`r1` compares that object with the old one of the group, selects again, and
`r1` stays selected. -/
theorem selected_without_highlight :
    ((click sampleRuntime loopEngine (Click.node 0)).thrown = none ∧
      (click sampleRuntime loopEngine (Click.node 0)).state.selectedNode.map Node.id =
        some (some (JsVal.str "r1")) ∧
      ((click sampleRuntime loopEngine (Click.node 0)).state.nodeGroups.getD []).map
          (fun g => (g.datum.id, g.stroke))
        = [(some (JsVal.str "r1"), Stroke.secondary),
           (some (JsVal.str "d1"), Stroke.secondary)]) ∧
    ((setData sampleRuntime boundEngine
        [[("id", JsVal.str "r1"), ("type", JsVal.str "router")],
         [("id", JsVal.str "d1"), ("type", JsVal.str "device")]]
        [[("source", JsVal.str "r1"), ("target", JsVal.str "zz")]]).thrown =
        some "Error: node not found" ∧
      (click sampleRuntime unboundEngine (Click.node 0)).thrown = none ∧
      (clicks sampleRuntime unboundEngine [Click.node 0]).selectedNode.map Node.id =
        some (some (JsVal.str "r1")) ∧
      (click sampleRuntime (clicks sampleRuntime unboundEngine [Click.node 0])
        (Click.node 0)).thrown = none ∧
      (clicks sampleRuntime unboundEngine [Click.node 0, Click.node 0]).selectedNode.map Node.id =
        some (some (JsVal.str "r1"))) := by
  refine ⟨⟨?_, ?_, ?_⟩, ⟨?_, ?_, ?_, ?_, ?_⟩⟩ <;> rfl

/-- Claim C12, evaluated at a failing input. The engine has rendered the nodes
`r1`, `d1`, a link from `r1` to itself and the link `r1 - d1`. After
`selectNode(r1)` the circle of `r1` has the stroke `#FF9800` of a neighbour
and the width 2, not the stroke `#FF5722` and the width 3 of the selection:
`r1` is in `connectedNodeIds`, and the neighbour pass runs last. -/
theorem selectNode_self_loop :
    (selectNode sampleRuntime loopEngine (SelectArg.id "r1")).thrown = none ∧
    (selectNode sampleRuntime loopEngine (SelectArg.id "r1")).state.selectedNode.map Node.id
      = some (some (JsVal.str "r1")) ∧
    ((selectNode sampleRuntime loopEngine (SelectArg.id "r1")).state.nodeGroups.getD []).map
        (fun g => (g.datum.id, g.stroke, g.strokeWidth))
      = [(some (JsVal.str "r1"), Stroke.secondary, 2),
         (some (JsVal.str "d1"), Stroke.secondary, 2)] := by
  refine ⟨?_, ?_, ?_⟩ <;> rfl

/-! ## Dragging -/

theorem getProp_assignProp_self (k : String) (v : Option JsVal) (o : Props) :
    getProp k (assignProp k v o) = v := by
  cases v with
  | some w => exact getProp_setProp_self k w o
  | none =>
    simp only [assignProp]
    induction o with
    | nil => rfl
    | cons p rest ih =>
      obtain ⟨k', w⟩ := p
      by_cases h : k' = k
      · simpa [List.filter_cons, h] using ih
      · simpa [List.filter_cons, h, getProp] using ih

theorem getProp_assignProp_ne {k k' : String} (h : k' ≠ k) (v : Option JsVal) (o : Props) :
    getProp k (assignProp k' v o) = getProp k o := by
  cases v with
  | some w => exact getProp_setProp_ne h w o
  | none =>
    simp only [assignProp]
    induction o with
    | nil => rfl
    | cons p rest ih =>
      obtain ⟨k'', w⟩ := p
      by_cases h1 : k'' = k'
      · subst h1
        simpa [List.filter_cons, getProp, h] using ih
      · by_cases h2 : k'' = k
        · subst h2
          simp [List.filter_cons, h1, getProp]
        · simpa [List.filter_cons, h1, getProp, h2] using ih

theorem handleDragEnd_keeps_pin (d : Node) :
    getProp "fx" (handleDragEnd d).props = getProp "fx" d.props ∧
      getProp "fy" (handleDragEnd d).props = getProp "fy" d.props ∧
      getProp "x" (handleDragEnd d).props = getProp "fx" d.props ∧
      getProp "y" (handleDragEnd d).props = getProp "fy" d.props := by
  simp only [handleDragEnd]
  refine ⟨?_, ?_, ?_, ?_⟩
  · rw [getProp_assignProp_ne (by decide), getProp_assignProp_ne (by decide)]
  · rw [getProp_assignProp_ne (by decide), getProp_assignProp_ne (by decide)]
  · rw [getProp_assignProp_ne (by decide), getProp_assignProp_self]
  · rw [getProp_assignProp_self, getProp_assignProp_ne (by decide)]

theorem drag_events_pin (pointer : List (ℚ × ℚ)) :
    ∀ d : Node,
      getProp "fx" (pointer.foldl (fun n p => handleDrag p n) d).props =
        (match pointer.getLast? with
          | some p => some (JsVal.num p.1)
          | none => getProp "fx" d.props) ∧
      getProp "fy" (pointer.foldl (fun n p => handleDrag p n) d).props =
        (match pointer.getLast? with
          | some p => some (JsVal.num p.2)
          | none => getProp "fy" d.props) := by
  induction pointer with
  | nil => intro d; exact ⟨rfl, rfl⟩
  | cons p rest ih =>
    intro d
    have h := ih (handleDrag p d)
    cases rest with
    | nil =>
      simp only [List.foldl, List.getLast?_singleton, handleDrag]
      exact ⟨by rw [getProp_setProp_ne (by decide), getProp_setProp_self],
        by rw [getProp_setProp_self]⟩
    | cons q rest' =>
      simp only [List.foldl_cons, List.getLast?_cons_cons] at h ⊢
      exact h

/-- Claim C13. For a node that has a position and every sequence of pointer
positions, after `handleDragStart`, one `handleDrag` per position and
`handleDragEnd`, the node has `fx` and `fy` set to the last pointer position
(to its position at drag start when there was no `drag` event) and `x = fx`,
`y = fy`; `handleDragEnd` leaves `fx` and `fy` of any node as they are. -/
theorem drag_leaves_pinned (d : Node) (x0 y0 : JsVal) (pointer : List (ℚ × ℚ))
    (hx : getProp "x" d.props = some x0) (hy : getProp "y" d.props = some y0) :
    getProp "fx" (dragGesture pointer d).props =
        (match pointer.getLast? with
          | some p => some (JsVal.num p.1)
          | none => some x0) ∧
      getProp "fy" (dragGesture pointer d).props =
        (match pointer.getLast? with
          | some p => some (JsVal.num p.2)
          | none => some y0) ∧
      getProp "x" (dragGesture pointer d).props = getProp "fx" (dragGesture pointer d).props ∧
      getProp "y" (dragGesture pointer d).props = getProp "fy" (dragGesture pointer d).props ∧
      ∀ n : Node, getProp "fx" (handleDragEnd n).props = getProp "fx" n.props ∧
        getProp "fy" (handleDragEnd n).props = getProp "fy" n.props := by
  have hs : getProp "fx" (handleDragStart d).props = some x0 ∧
      getProp "fy" (handleDragStart d).props = some y0 := by
    simp only [handleDragStart]
    refine ⟨?_, ?_⟩
    · rw [getProp_assignProp_ne (by decide), getProp_assignProp_self, hx]
    · rw [getProp_assignProp_self, getProp_assignProp_ne (by decide), hy]
  have hd := drag_events_pin pointer (handleDragStart d)
  rw [hs.1, hs.2] at hd
  have he := handleDragEnd_keeps_pin (pointer.foldl (fun n p => handleDrag p n) (handleDragStart d))
  refine ⟨?_, ?_, ?_, ?_, fun n => ⟨(handleDragEnd_keeps_pin n).1, (handleDragEnd_keeps_pin n).2.1⟩⟩
  · rw [dragGesture, he.1]; exact hd.1
  · rw [dragGesture, he.2.1]; exact hd.2
  · rw [dragGesture, he.1, he.2.2.1]
  · rw [dragGesture, he.2.1, he.2.2.2]

theorem drag_leaves_pinned_witness :
    (getProp "x" (⟨0, [("id", JsVal.str "r1"), ("x", JsVal.num 7), ("y", JsVal.num 1)]⟩ : Node).props
        = some (JsVal.num 7) ∧
      getProp "y" (⟨0, [("id", JsVal.str "r1"), ("x", JsVal.num 7), ("y", JsVal.num 1)]⟩ : Node).props
        = some (JsVal.num 1)) ∧
    getProp "fx" (dragGesture [(10, 20), (30, 40)]
        ⟨0, [("id", JsVal.str "r1"), ("x", JsVal.num 7), ("y", JsVal.num 1)]⟩).props =
        (match [((10 : ℚ), (20 : ℚ)), (30, 40)].getLast? with
          | some p => some (JsVal.num p.1)
          | none => some (JsVal.num 7)) ∧
      getProp "fy" (dragGesture [(10, 20), (30, 40)]
        ⟨0, [("id", JsVal.str "r1"), ("x", JsVal.num 7), ("y", JsVal.num 1)]⟩).props =
        (match [((10 : ℚ), (20 : ℚ)), (30, 40)].getLast? with
          | some p => some (JsVal.num p.2)
          | none => some (JsVal.num 1)) ∧
      getProp "x" (dragGesture [(10, 20), (30, 40)]
        ⟨0, [("id", JsVal.str "r1"), ("x", JsVal.num 7), ("y", JsVal.num 1)]⟩).props =
        getProp "fx" (dragGesture [(10, 20), (30, 40)]
          ⟨0, [("id", JsVal.str "r1"), ("x", JsVal.num 7), ("y", JsVal.num 1)]⟩).props ∧
      getProp "y" (dragGesture [(10, 20), (30, 40)]
        ⟨0, [("id", JsVal.str "r1"), ("x", JsVal.num 7), ("y", JsVal.num 1)]⟩).props =
        getProp "fy" (dragGesture [(10, 20), (30, 40)]
          ⟨0, [("id", JsVal.str "r1"), ("x", JsVal.num 7), ("y", JsVal.num 1)]⟩).props ∧
      ∀ n : Node, getProp "fx" (handleDragEnd n).props = getProp "fx" n.props ∧
        getProp "fy" (handleDragEnd n).props = getProp "fy" n.props :=
  ⟨⟨rfl, rfl⟩, drag_leaves_pinned _ (JsVal.num 7) (JsVal.num 1) [(10, 20), (30, 40)] rfl rfl⟩

/-! ## Link widths -/

theorem getLinkWidth_of_bandwidth (rt : Runtime) (opts : Options) (link : Link) (b : ℚ)
    (hb : getProp "bandwidth" link = some (Val.json (JsVal.num b))) (h0 : b ≠ 0) :
    getLinkWidth rt opts link = some (1 + (b / 1000) * opts.maxLinkWidth) := by
  simp [getLinkWidth, bandwidthOf, hb, truthy, h0, Runtime.number]

theorem getLinkWidth_of_zero (rt : Runtime) (opts : Options) (link : Link)
    (hb : getProp "bandwidth" link = some (Val.json (JsVal.num 0))) :
    getLinkWidth rt opts link = some (1 + (100 / 1000) * opts.maxLinkWidth) := by
  simp [getLinkWidth, bandwidthOf, hb, truthy]

theorem getLinkWidth_of_missing (rt : Runtime) (opts : Options) (link : Link)
    (hb : getProp "bandwidth" link = none) :
    getLinkWidth rt opts link = some (1 + (100 / 1000) * opts.maxLinkWidth) := by
  simp [getLinkWidth, bandwidthOf, hb]

/-- Claim C14, evaluated at a failing input. With the default `maxLinkWidth`
8 a link of bandwidth 500 has the width 5, but a link of bandwidth 0 has the
width 1.8, that of the default bandwidth 100, and not `1 + (0 / 1000) * 8 = 1`:
`link.bandwidth || 100` takes the zero for a missing value. -/
theorem getLinkWidth_zero_bandwidth :
    getLinkWidth sampleRuntime defaultOptions
        [("source", Val.json (JsVal.str "r1")), ("target", Val.json (JsVal.str "d1")),
         ("bandwidth", Val.json (JsVal.num 500))] = some 5 ∧
    getLinkWidth sampleRuntime defaultOptions
        [("source", Val.json (JsVal.str "r1")), ("target", Val.json (JsVal.str "d1")),
         ("bandwidth", Val.json (JsVal.num 0))] = some (9 / 5) ∧
    (1 : ℚ) + (0 / 1000) * defaultOptions.maxLinkWidth = 1 := by
  refine ⟨?_, ?_, ?_⟩
  · simp [getLinkWidth, bandwidthOf, getProp, truthy, Runtime.number, defaultOptions]
    norm_num
  · simp [getLinkWidth, bandwidthOf, getProp, truthy, defaultOptions]
    norm_num
  · norm_num

/-- Claim C15, evaluated at a failing input. With the default `maxLinkWidth` 8
a link of bandwidth 2000 has the width 17, above `1 + maxLinkWidth = 9`, the
width at the maximum bandwidth 1000: `getLinkWidth` applies no clamp, although
the options call `maxLinkWidth` the maximum line width. -/
theorem getLinkWidth_not_clamped :
    getLinkWidth sampleRuntime defaultOptions [("bandwidth", Val.json (JsVal.num 2000))]
      = some 17 ∧
    getLinkWidth sampleRuntime defaultOptions [("bandwidth", Val.json (JsVal.num 1000))]
      = some (1 + defaultOptions.maxLinkWidth) ∧
    1 + defaultOptions.maxLinkWidth < 17 := by
  refine ⟨?_, ?_, ?_⟩
  · simp [getLinkWidth, bandwidthOf, getProp, truthy, Runtime.number, defaultOptions]
    norm_num
  · simp [getLinkWidth, bandwidthOf, getProp, truthy, Runtime.number, defaultOptions]
  · norm_num [defaultOptions]

/-- For a link whose bandwidth is missing or is a number not above 1000, and a
`maxLinkWidth` that is not negative, `getLinkWidth(link)` is a number and does
not exceed `1 + maxLinkWidth`. -/
theorem getLinkWidth_le_max (rt : Runtime) (opts : Options) (link : Link)
    (hmax : 0 ≤ opts.maxLinkWidth)
    (hb : getProp "bandwidth" link = none ∨
      ∃ b : ℚ, getProp "bandwidth" link = some (Val.json (JsVal.num b)) ∧ b ≤ 1000) :
    ∃ w, getLinkWidth rt opts link = some w ∧ w ≤ 1 + opts.maxLinkWidth := by
  have key : ∀ b : ℚ, b ≤ 1000 → 1 + (b / 1000) * opts.maxLinkWidth ≤ 1 + opts.maxLinkWidth := by
    intro b hb
    have h1 : b / 1000 ≤ 1 := by
      rw [div_le_one (by norm_num)]; exact hb
    nlinarith
  rcases hb with hnone | ⟨b, hb, hle⟩
  · exact ⟨_, getLinkWidth_of_missing rt opts link hnone, key 100 (by norm_num)⟩
  · by_cases h0 : b = 0
    · subst h0
      exact ⟨_, getLinkWidth_of_zero rt opts link hb, key 100 (by norm_num)⟩
    · exact ⟨_, getLinkWidth_of_bandwidth rt opts link b hb h0, key b hle⟩

theorem getLinkWidth_le_max_witness :
    ((0 : ℚ) ≤ defaultOptions.maxLinkWidth ∧
      (getProp "bandwidth" ([("bandwidth", Val.json (JsVal.num 500))] : Link) = none ∨
        ∃ b : ℚ, getProp "bandwidth" ([("bandwidth", Val.json (JsVal.num 500))] : Link) =
          some (Val.json (JsVal.num b)) ∧ b ≤ 1000)) ∧
    ∃ w, getLinkWidth sampleRuntime defaultOptions [("bandwidth", Val.json (JsVal.num 500))]
        = some w ∧ w ≤ 1 + defaultOptions.maxLinkWidth :=
  ⟨⟨by norm_num [defaultOptions], Or.inr ⟨500, rfl, by norm_num⟩⟩,
   getLinkWidth_le_max sampleRuntime defaultOptions _ (by norm_num [defaultOptions])
     (Or.inr ⟨500, rfl, by norm_num⟩)⟩

/-! ## Link arrows -/

/-- Claim C16, refuted as stated. For an outgoing link from `(0, 0)` to
`(10, 0)` the control point is `(25, 0)`: it is displaced from the midpoint
`(5, 0)` by `(20, 0)`, along the segment and not perpendicular to it (the
scalar product of the displacement with the segment is 200, not 0). -/
theorem arrowPath_not_perpendicular :
    (arrowPath (some (Val.json (JsVal.str "outgoing"))) (0, 0) (10, 0)).control = (25, 0) ∧
    ((arrowPath (some (Val.json (JsVal.str "outgoing"))) (0, 0) (10, 0)).control.1
        - (0 + 10) / 2) * (10 - 0) +
      ((arrowPath (some (Val.json (JsVal.str "outgoing"))) (0, 0) (10, 0)).control.2
        - (0 + 0) / 2) * (0 - 0) ≠ 0 := by
  have h : (arrowPath (some (Val.json (JsVal.str "outgoing"))) (0, 0) (10, 0)).control
      = (25, 0) := by
    simp [arrowPath, isIncoming]
    norm_num
  refine ⟨h, ?_⟩
  rw [h]
  norm_num

/-- Claim C16, amended. For every link and all endpoint positions, the control
point of the curve computed on a tick is the midpoint of the two endpoints
displaced by 20 along the x axis, whatever the direction of the segment; and
the path for `dataFlow` `'incoming'` is the path for `'outgoing'` with the two
endpoints swapped. -/
theorem arrowPath_control (dataFlow : Option Val) (source target : ℚ × ℚ) :
    (arrowPath dataFlow source target).control =
        (((arrowPath dataFlow source target).start.1 +
            (arrowPath dataFlow source target).finish.1) / 2 + 20,
          ((arrowPath dataFlow source target).start.2 +
            (arrowPath dataFlow source target).finish.2) / 2) ∧
      (arrowPath (some (Val.json (JsVal.str "outgoing"))) source target).start = source ∧
      (arrowPath (some (Val.json (JsVal.str "outgoing"))) source target).finish = target ∧
      arrowPath (some (Val.json (JsVal.str "incoming"))) source target =
        arrowPath (some (Val.json (JsVal.str "outgoing"))) target source := by
  refine ⟨rfl, ?_, ?_, ?_⟩ <;> simp [arrowPath, isIncoming]

/-! ## Colours and icons -/

/-- Claim C17, evaluated at a failing input. For a node of type
`'constructor'`, `getNodeColor` returns the device colour of the theme, but
`getNodeIcon` returns the member `constructor` that the table `icons`
inherits from `Object.prototype`, not the device glyph; for a node without
type, and for the type `'printer'`, both return what they return for
`'device'`. -/
theorem getNodeIcon_inherited_name :
    getNodeColor sampleRuntime defaultOptions
        ⟨0, [("id", JsVal.str "n1"), ("type", JsVal.str "constructor")]⟩ =
      getNodeColor sampleRuntime defaultOptions
        ⟨1, [("id", JsVal.str "n2"), ("type", JsVal.str "device")]⟩ ∧
    getNodeIcon sampleRuntime ⟨0, [("id", JsVal.str "n1"), ("type", JsVal.str "constructor")]⟩
      = Icon.inherited "constructor" ∧
    getNodeIcon sampleRuntime ⟨1, [("id", JsVal.str "n2"), ("type", JsVal.str "device")]⟩
      = Icon.glyph "📱" ∧
    getNodeIcon sampleRuntime ⟨2, [("id", JsVal.str "n3")]⟩ = Icon.glyph "📱" ∧
    getNodeIcon sampleRuntime ⟨3, [("id", JsVal.str "n4"), ("type", JsVal.str "printer")]⟩
      = Icon.glyph "📱" := by
  refine ⟨?_, ?_, ?_, ?_, ?_⟩ <;> decide

/-! # The scan flow -/

namespace Controller

/-- Claim C18. With an empty range, `startScan` only shows the alert: it sends
no HTTP request, leaves the scan dialog as it is (open when it was open),
leaves `scanJobId` unchanged and changes nothing else of the scan dialog. -/
theorem startScan_empty_range (st : Page) (h : st.scanRange = "") :
    startScan st = { st with alerts := st.alerts ++ ["Введите диапазон IP-адресов"] } ∧
      (startScan st).requests = st.requests ∧
      (startScan st).modalShown = st.modalShown ∧
      (startScan st).scanJobId = st.scanJobId ∧
      (startScan st).timers = st.timers := by
  simp [startScan, h]

theorem startScan_empty_range_witness :
    idlePage.scanRange = "" ∧
    (startScan idlePage =
        { idlePage with alerts := idlePage.alerts ++ ["Введите диапазон IP-адресов"] } ∧
      (startScan idlePage).requests = idlePage.requests ∧
      (startScan idlePage).modalShown = idlePage.modalShown ∧
      (startScan idlePage).scanJobId = idlePage.scanJobId ∧
      (startScan idlePage).timers = idlePage.timers) :=
  ⟨rfl, startScan_empty_range idlePage rfl⟩

end Controller

namespace Controller

theorem onScanStatus_running (rt : Runtime) (st : Page) (fields : Props)
    (h : isRunning fields = true) :
    onScanStatus rt st (statusResponse fields) =
      { st with progressWidth := getProp "progress" fields
                progressText := "Сканирование: " ++ rt.string (getProp "progress" fields) ++ "%"
                timers := st.timers ++ [(Callback.checkScanStatus, 1000)] } := by
  simp only [isRunning, Bool.and_eq_true, Bool.not_eq_true'] at h
  simp [onScanStatus, statusResponse, parseResponse, scanStatusBody, member, h.1, h.2]

theorem onScanStatus_failed (rt : Runtime) (st : Page) (fields : Props)
    (h : getProp "status" fields = some (JsVal.str "failed")) :
    onScanStatus rt st (statusResponse fields) =
      { st with progressWidth := getProp "progress" fields
                progressText := "Ошибка: " ++ failureText rt fields
                notices := st.notices ++
                  [{ message := "Ошибка сканирования: " ++ failureText rt fields, kind := "error" }]
                timers := st.timers ++ [(Callback.resetScanForm, 2000)] } := by
  simp [onScanStatus, statusResponse, parseResponse, scanStatusBody, member, h, strictEq,
    failureText]

/-- While the responses say that the job is running, each of them starts one
timer, which fires and sends the next status request; nothing else changes
but the progress display. -/
theorem pollAll_running (rt : Runtime) (running : List Props) :
    ∀ st : Page, truthy st.scanJobId = true → st.timers = [] →
      (∀ fields ∈ running, isRunning fields = true) →
      (pollAll rt st (running.map statusResponse)).scanJobId = st.scanJobId ∧
        (pollAll rt st (running.map statusResponse)).timers = [] ∧
        (pollAll rt st (running.map statusResponse)).notices = st.notices ∧
        (pollAll rt st (running.map statusResponse)).requests =
          st.requests ++ List.replicate running.length (statusRequest rt st) := by
  induction running with
  | nil => intro st _ ht _; simp [pollAll, ht]
  | cons fields rest ih =>
    intro st hj ht hr
    have hstep : fireTimer rt (onScanStatus rt st (statusResponse fields)) =
        { st with progressWidth := getProp "progress" fields
                  progressText :=
                    "Сканирование: " ++ rt.string (getProp "progress" fields) ++ "%"
                  requests := st.requests ++ [statusRequest rt st] } := by
      rw [onScanStatus_running rt st fields (hr fields (List.mem_cons_self _ _))]
      simp [fireTimer, ht, runCallback, checkScanStatus, hj, statusRequest]
    obtain ⟨h1, h2, h3, h4⟩ := ih (fireTimer rt (onScanStatus rt st (statusResponse fields)))
      (by rw [hstep]; exact hj) (by rw [hstep]; exact ht)
      (fun f hf => hr f (List.mem_cons_of_mem _ hf))
    simp only [List.map_cons, pollAll]
    refine ⟨by rw [h1, hstep], h2, by rw [h3, hstep], ?_⟩
    rw [h4, hstep]
    simp [statusRequest, List.replicate_succ]

/-- Claim C19. For a scan job whose status responses are zero or more running
ones followed by a failed one: when the failed response has been handled, the
failure notification has been shown once, with the message of the job, no
other notification has been shown, the only pending timer is the one of
`resetScanForm`, and one status request was sent per running response; when
that timer fires no request is sent, `scanJobId` is `null`, the start button
is shown and the progress is hidden. -/
theorem scan_failed_once (rt : Runtime) (st : Page) (running : List Props) (failed : Props)
    (hjob : truthy st.scanJobId = true) (htimers : st.timers = [])
    (hrunning : ∀ fields ∈ running, isRunning fields = true)
    (hfailed : getProp "status" failed = some (JsVal.str "failed")) :
    (afterFailed rt st running failed).notices = st.notices ++
        [{ message := "Ошибка сканирования: " ++ failureText rt failed, kind := "error" }] ∧
      (afterFailed rt st running failed).timers = [(Callback.resetScanForm, 2000)] ∧
      (afterFailed rt st running failed).requests =
        st.requests ++ List.replicate running.length (statusRequest rt st) ∧
      (fireTimer rt (afterFailed rt st running failed)).requests =
        (afterFailed rt st running failed).requests ∧
      (fireTimer rt (afterFailed rt st running failed)).notices =
        (afterFailed rt st running failed).notices ∧
      (fireTimer rt (afterFailed rt st running failed)).timers = [] ∧
      (fireTimer rt (afterFailed rt st running failed)).scanJobId = none ∧
      (fireTimer rt (afterFailed rt st running failed)).startScanBtnShown = true ∧
      (fireTimer rt (afterFailed rt st running failed)).scanProgressShown = false := by
  obtain ⟨_, h2, h3, h4⟩ := pollAll_running rt running st hjob htimers hrunning
  have hs : afterFailed rt st running failed =
      { pollAll rt st (running.map statusResponse) with
        progressWidth := getProp "progress" failed
        progressText := "Ошибка: " ++ failureText rt failed
        notices := (pollAll rt st (running.map statusResponse)).notices ++
          [{ message := "Ошибка сканирования: " ++ failureText rt failed, kind := "error" }]
        timers := (pollAll rt st (running.map statusResponse)).timers ++
          [(Callback.resetScanForm, 2000)] } :=
    onScanStatus_failed rt _ failed hfailed
  rw [hs]
  simp [fireTimer, runCallback, resetScanForm, h2, h3, h4]

theorem scan_failed_once_witness :
    (truthy scanningPage.scanJobId = true ∧ scanningPage.timers = [] ∧
      (∀ fields ∈ sampleRunning, isRunning fields = true) ∧
      getProp "status" sampleFailed = some (JsVal.str "failed")) ∧
    ((afterFailed sampleRuntime scanningPage sampleRunning sampleFailed).notices =
        scanningPage.notices ++
          [{ message := "Ошибка сканирования: " ++ failureText sampleRuntime sampleFailed,
             kind := "error" }] ∧
      (afterFailed sampleRuntime scanningPage sampleRunning sampleFailed).timers =
        [(Callback.resetScanForm, 2000)] ∧
      (afterFailed sampleRuntime scanningPage sampleRunning sampleFailed).requests =
        scanningPage.requests ++
          List.replicate sampleRunning.length (statusRequest sampleRuntime scanningPage) ∧
      (fireTimer sampleRuntime
          (afterFailed sampleRuntime scanningPage sampleRunning sampleFailed)).requests =
        (afterFailed sampleRuntime scanningPage sampleRunning sampleFailed).requests ∧
      (fireTimer sampleRuntime
          (afterFailed sampleRuntime scanningPage sampleRunning sampleFailed)).notices =
        (afterFailed sampleRuntime scanningPage sampleRunning sampleFailed).notices ∧
      (fireTimer sampleRuntime
          (afterFailed sampleRuntime scanningPage sampleRunning sampleFailed)).timers = [] ∧
      (fireTimer sampleRuntime
          (afterFailed sampleRuntime scanningPage sampleRunning sampleFailed)).scanJobId = none ∧
      (fireTimer sampleRuntime
          (afterFailed sampleRuntime scanningPage sampleRunning sampleFailed)).startScanBtnShown
        = true ∧
      (fireTimer sampleRuntime
          (afterFailed sampleRuntime scanningPage sampleRunning sampleFailed)).scanProgressShown
        = false) :=
  ⟨⟨rfl, rfl, by decide, rfl⟩,
   scan_failed_once sampleRuntime scanningPage sampleRunning sampleFailed rfl rfl (by decide) rfl⟩

end Controller

namespace Controller

/-- Claim C20, refuted as stated. For a job whose status responses are running
at 50 percent, running at 30 percent and completed at 30 percent, the progress
bar shows 50, then 30, then 30: the values are not non-decreasing. -/
theorem progress_not_monotone :
    (sampleRegress.map isRunning = [true, true, false] ∧
      sampleRegress.map (getProp "status") =
        [some (JsVal.str "running"), some (JsVal.str "running"),
         some (JsVal.str "completed")]) ∧
    (pollTrace sampleRuntime scanningPage (sampleRegress.map statusResponse)).map barValue
      = [some 50, some 30, some 30] ∧
    ¬ List.Pairwise (fun a b : ℚ => a ≤ b) [50, 30, 30] := by
  refine ⟨⟨rfl, rfl⟩, rfl, ?_⟩
  intro h
  have := (List.pairwise_cons.mp h).1 30 (by simp)
  norm_num at this

theorem showScanResults_progressWidth (rt : Runtime) (devices : Option JsVal) (st : Page) :
    (showScanResults rt devices st).1.progressWidth = st.progressWidth := by
  simp only [showScanResults]
  repeat' split
  all_goals rfl

theorem onScanStatus_progressWidth (rt : Runtime) (st : Page) (fields : Props) :
    (onScanStatus rt st (statusResponse fields)).progressWidth = getProp "progress" fields := by
  simp only [onScanStatus, statusResponse, parseResponse, scanStatusBody, member]
  split
  · rename_i st1 message heq
    split at heq
    · have h := showScanResults_progressWidth rt (getProp "devices" fields)
        { st with progressWidth := getProp "progress" fields
                  progressText := "Сканирование завершено" }
      rw [heq] at h
      simpa [scanFailure, resetScanForm] using h
    · split at heq <;> cases heq
  · rename_i st1 heq
    split at heq
    · have h := showScanResults_progressWidth rt (getProp "devices" fields)
        { st with progressWidth := getProp "progress" fields
                  progressText := "Сканирование завершено" }
      rw [heq] at h
      simpa using h
    · split at heq <;> cases heq <;> rfl

/-- Claim C20, amended. For every scan job and every sequence of status
responses (running, running, ..., completed included), the value of the
progress bar after each poll is the percentage reported by that poll: the
values are non-decreasing exactly when the reported percentages are, and
after the completed response the value is the one that response reports. -/
theorem progress_follows_reports (rt : Runtime) (bodies : List Props) :
    ∀ st : Page,
      (pollTrace rt st (bodies.map statusResponse)).map (fun s => s.progressWidth) =
        bodies.map (getProp "progress") := by
  induction bodies with
  | nil => intro st; rfl
  | cons fields rest ih =>
    intro st
    simp only [List.map_cons, pollTrace, onScanStatus_progressWidth, ih]

end Controller

/-! ## Zoom at a bound of the scale -/

/-- The target computed by the body of the method `zoom(factor)` when the
clamped scale equals the current scale. -/
theorem zoomTarget_of_clamped (e : Engine) (factor : ℚ)
    (h : max (1 / 5) (min 3 (e.transform.k * factor)) = e.transform.k) :
    zoomTarget e factor =
      ⟨e.transform.k, e.transform.x + e.transform.k * ((1 - factor) * (e.width / 2)),
        e.transform.y + e.transform.k * ((1 - factor) * (e.height / 2))⟩ := by
  simp only [zoomTarget, zoomIdentity, Transform.translate, Transform.scale, one_mul, zero_add]
  rw [h]

theorem clamped_at_bound (k factor : ℚ)
    (h : (k = 3 ∧ 1 < factor) ∨ (k = 1 / 5 ∧ 0 < factor ∧ factor < 1)) :
    max (1 / 5) (min 3 (k * factor)) = k := by
  rcases h with ⟨hk, hf⟩ | ⟨hk, hf0, hf1⟩
  · subst hk
    rw [min_eq_left (by linarith), max_eq_right (by norm_num)]
  · subst hk
    rw [min_eq_right (by linarith), max_eq_left (by linarith)]

/-- Claim C28, evaluated at a failing input. On an engine at the upper bound
of the scale (transform `(3, 0, 0)`, container 1000 x 600) the call
`zoom(1.2)` throws a `TypeError` and hands no target, and after any number of
such calls, the transitions run to their end, the transform is still
`(3, 0, 0)`: the view is not shifted. The same holds at the lower bound with
the factor 0.8. -/
theorem zoom_at_bound_throws (n : Nat) :
    (boundScaleEngine.transform.k = 3 ∧ (1 : ℚ) < 6 / 5) ∧
    (zoom boundScaleEngine (6 / 5)).thrown =
      some "TypeError: selection.property is not a function" ∧
    (zoom boundScaleEngine (6 / 5)).state.zoomTargets = [] ∧
    (endTransition (zoomCalls boundScaleEngine (List.replicate n (6 / 5)))).transform =
      ⟨3, 0, 0⟩ ∧
    (endTransition (zoomCalls (handleZoom (create 1000 600) ⟨1 / 5, 0, 0⟩)
      (List.replicate n (4 / 5)))).transform = ⟨1 / 5, 0, 0⟩ := by
  refine ⟨⟨rfl, by norm_num⟩, rfl, rfl, ?_, ?_⟩
  · rw [zoomCalls_eq]
    rfl
  · rw [zoomCalls_eq]
    rfl

/-! ## Selecting an unknown id -/

theorem find_none_of_unknown (nodes : List Node) (s : String)
    (h : ∀ n ∈ nodes, n.id ≠ some (JsVal.str s)) :
    nodes.find? (fun n => strictEq n.id (some (JsVal.str s))) = none := by
  rw [List.find?_eq_none]
  intro n hn hs
  exact h n hn (strictEq_eq_of_isStringOrNumber rfl hs)

/-- Claim C29. For every engine state and every string that is not the id of
a node of the current node array, `selectNode(id)` returns without an
exception and leaves the whole state as it was: the selected node, the
highlights, the transform, the transitions and the events. Likewise
`deselectNode()` on a state with nothing selected. -/
theorem selectNode_unknown_id (rt : Runtime) (e : Engine) (s : String)
    (h : ∀ n ∈ e.nodes, n.id ≠ some (JsVal.str s)) :
    selectNode rt e (SelectArg.id s) = ⟨e, none⟩ ∧
      deselectNode { e with selectedNode := none } = ⟨{ e with selectedNode := none }, none⟩ := by
  constructor
  · simp only [selectNode]
    rw [find_none_of_unknown e.nodes s h]
  · rfl

theorem selectNode_unknown_id_witness :
    (∀ n ∈ selectedEngine.nodes, n.id ≠ some (JsVal.str "r9")) ∧
    selectedEngine.selectedNode.map Node.id = some (some (JsVal.str "r1")) ∧
    selectNode sampleRuntime selectedEngine (SelectArg.id "r9") = ⟨selectedEngine, none⟩ ∧
    deselectNode { selectedEngine with selectedNode := none } =
      ⟨{ selectedEngine with selectedNode := none }, none⟩ := by
  have h : ∀ n ∈ selectedEngine.nodes, n.id ≠ some (JsVal.str "r9") := by
    have hn : selectedEngine.nodes.map Node.id =
        [some (JsVal.str "r1"), some (JsVal.str "d1")] := rfl
    intro n hn' heq
    have hm : n.id ∈ selectedEngine.nodes.map Node.id := List.mem_map_of_mem _ hn'
    rw [hn, heq] at hm
    simp at hm
  exact ⟨h, rfl, selectNode_unknown_id sampleRuntime selectedEngine "r9" h⟩

/-! ## The selected node and the node array -/

theorem deselectNode_selection (e : Engine) :
    (deselectNode e).state.nodes = e.nodes ∧
      ((deselectNode e).state.selectedNode = e.selectedNode ∨
        (deselectNode e).state.selectedNode = none) := by
  simp only [deselectNode]
  repeat' split
  all_goals simp

theorem selectNode_selection (rt : Runtime) (e : Engine) (arg : SelectArg) :
    (selectNode rt e arg).state.nodes = e.nodes ∧
      ((selectNode rt e arg).state.selectedNode = e.selectedNode ∨
        (selectNode rt e arg).state.selectedNode = none ∨
        ∃ n ∈ e.nodes, (selectNode rt e arg).state.selectedNode = some n) := by
  obtain ⟨hdn, hds⟩ := deselectNode_selection e
  simp only [selectNode]
  split
  · simp
  · rename_i targetNode hfind
    have hmem : targetNode ∈ e.nodes := List.mem_of_find?_eq_some hfind
    split
    · exact ⟨hdn, hds.elim Or.inl (fun h => Or.inr (Or.inl h))⟩
    · repeat' split
      all_goals exact ⟨by simp [centerNode, hdn], Or.inr (Or.inr ⟨targetNode, hmem, by simp [centerNode]⟩)⟩

theorem selectionCurrent_of (e e1 : Engine) (hn : e1.nodes = e.nodes)
    (hs : e1.selectedNode = e.selectedNode ∨ e1.selectedNode = none ∨
      ∃ n ∈ e.nodes, e1.selectedNode = some n)
    (h : selectionCurrent e = true) : selectionCurrent e1 = true := by
  rcases hs with hs | hs | ⟨n, hmem, hs⟩
  · simpa [selectionCurrent, hs, hn] using h
  · simp [selectionCurrent, hs]
  · simp only [selectionCurrent, hs, hn, List.any_eq_true]
    exact ⟨n, hmem, by simp [Node.same]⟩

theorem click_selection (rt : Runtime) (e : Engine) (c : Click) :
    (click rt e c).state.nodes = e.nodes ∧
      ((click rt e c).state.selectedNode = e.selectedNode ∨
        (click rt e c).state.selectedNode = none ∨
        ∃ n ∈ e.nodes, (click rt e c).state.selectedNode = some n) := by
  have hd := deselectNode_selection e
  have hdes : (deselectNode e).state.nodes = e.nodes ∧
      ((deselectNode e).state.selectedNode = e.selectedNode ∨
        (deselectNode e).state.selectedNode = none ∨
        ∃ n ∈ e.nodes, (deselectNode e).state.selectedNode = some n) :=
    ⟨hd.1, hd.2.elim Or.inl (fun h => Or.inr (Or.inl h))⟩
  cases c with
  | background => exact hdes
  | node i =>
    simp only [click]
    split
    · rename_i g _
      simp only [handleNodeClick]
      split
      · split
        · exact hdes
        · exact selectNode_selection rt e _
      · exact selectNode_selection rt e _
    · exact ⟨rfl, Or.inl rfl⟩

theorem setData_selectedNode (rt : Runtime) (e : Engine) (N L : List Props) :
    (setData rt e N L).state.selectedNode = e.selectedNode := by
  simp only [setData, updateVisualization]
  split
  · rfl
  · obtain ⟨lg, h⟩ := updateLinks_state rt (updateNodes rt
      { e with nodes := (simulationNodes rt (parseNodes e.nextOid N)).map pinNode
               links := (forceLinkLinks e.simNodes
                 ((L.map parseLink).map (annotateLink (parseNodes e.nextOid N)))).1
               simNodes := (simulationNodes rt (parseNodes e.nextOid N)).map pinNode
               nextOid := e.nextOid + N.length })
    simp only [updateNodes] at h ⊢
    rw [h]

theorem selectionCurrent_acts (rt : Runtime) (actions : List Action) :
    ∀ e, selectionCurrent e = true → setDataUnselected rt e actions = true →
      selectionCurrent (acts rt e actions) = true := by
  induction actions with
  | nil => intro e h _; exact h
  | cons a rest ih =>
    intro e h hg
    cases a with
    | setData nodes links =>
      simp only [setDataUnselected, Bool.and_eq_true, Option.isNone_iff_eq_none] at hg
      refine ih _ ?_ hg.2
      show selectionCurrent (setData rt e nodes links).state = true
      simp [selectionCurrent, setData_selectedNode, hg.1]
    | selectNode arg =>
      refine ih _ ?_ hg
      exact selectionCurrent_of e _ (selectNode_selection rt e arg).1
        (selectNode_selection rt e arg).2 h
    | deselectNode =>
      refine ih _ ?_ hg
      exact selectionCurrent_of e _ (deselectNode_selection e).1
        ((deselectNode_selection e).2.elim Or.inl (fun h => Or.inr (Or.inl h))) h
    | click c =>
      refine ih _ ?_ hg
      exact selectionCurrent_of e _ (click_selection rt e c).1 (click_selection rt e c).2 h

/-- Claim C27, evaluated at a counterexample. On a new engine the nodes `r1`
and `d1` are loaded and `r1` is clicked; `setData` with `d1` alone then leaves
`r1` selected, although the node array holds only the new object of `d1`:
`setData` never touches `selectedNode`. -/
theorem setData_keeps_stale_selection :
    (acts sampleRuntime (create 800 600) staleSession).selectedNode.map Node.id =
        some (some (JsVal.str "r1")) ∧
      (acts sampleRuntime (create 800 600) staleSession).nodes.map Node.id =
        [some (JsVal.str "d1")] ∧
      selectionCurrent (acts sampleRuntime (create 800 600) staleSession) = false := by
  refine ⟨rfl, rfl, rfl⟩

/-- Claim C27, amended. From a state in which `selectedNode` is `null` or one
of the node objects of the node array (a new engine is one), every sequence
of `setData`, `selectNode`, `deselectNode`, node clicks and background clicks
in which `setData` is called only while nothing is selected ends in such a
state, whether or not a call threw on the way. -/
theorem selection_current (rt : Runtime) (e : Engine) (actions : List Action)
    (h : selectionCurrent e = true) (hg : setDataUnselected rt e actions = true) :
    selectionCurrent (acts rt e actions) = true :=
  selectionCurrent_acts rt actions e h hg

theorem selection_current_witness :
    (selectionCurrent (create 800 600) = true ∧
      setDataUnselected sampleRuntime (create 800 600) tidySession = true) ∧
    (acts sampleRuntime (create 800 600) tidySession).selectedNode.map Node.id =
      some (some (JsVal.str "d1")) ∧
    selectionCurrent (acts sampleRuntime (create 800 600) tidySession) = true :=
  ⟨⟨rfl, rfl⟩, rfl, selection_current sampleRuntime (create 800 600) tidySession rfl rfl⟩

/-! ## The scan flow: scheduling of the polls -/

namespace Controller

theorem showScanResults_timers (rt : Runtime) (devices : Option JsVal) (st : Page) :
    (showScanResults rt devices st).1.timers = st.timers ∧
      (showScanResults rt devices st).1.requests = st.requests := by
  simp only [showScanResults]
  repeat' split
  all_goals exact ⟨rfl, rfl⟩

theorem onScanStatus_completed (rt : Runtime) (st : Page) (fields : Props)
    (h : getProp "status" fields = some (JsVal.str "completed")) :
    (onScanStatus rt st (statusResponse fields)).timers = st.timers ∧
      (onScanStatus rt st (statusResponse fields)).requests = st.requests := by
  have hs := showScanResults_timers rt (getProp "devices" fields)
    { st with progressWidth := getProp "progress" fields
              progressText := "Сканирование завершено" }
  simp only [onScanStatus, statusResponse, parseResponse, scanStatusBody, member, h, strictEq,
    decide_True, if_true]
  split
  · rename_i st1 message heq
    rw [heq] at hs
    simpa [scanFailure, resetScanForm] using hs
  · rename_i st1 heq
    rw [heq] at hs
    simpa using hs

theorem terminal_cases (fields : Props) (h : isRunning fields = false) :
    getProp "status" fields = some (JsVal.str "completed") ∨
      getProp "status" fields = some (JsVal.str "failed") := by
  simp only [isRunning, Bool.and_eq_false_iff, Bool.not_eq_false'] at h
  rcases h with h | h
  · exact Or.inl (strictEq_eq_of_isStringOrNumber rfl h)
  · exact Or.inr (strictEq_eq_of_isStringOrNumber rfl h)

/-- Claim C21. While a job is stored and no timer is pending: a status
response that is neither completed nor failed starts exactly one timer, of
1000 ms, whose firing sends the next status request and leaves no timer; a
response that is completed or failed starts no timer for a poll, sends no
request, and no request is sent when the timer it started fires. -/
theorem poll_scheduled (rt : Runtime) (st : Page) (running terminal : Props)
    (hj : truthy st.scanJobId = true) (ht : st.timers = [])
    (hr : isRunning running = true) (hterm : isRunning terminal = false) :
    ((onScanStatus rt st (statusResponse running)).timers = [(Callback.checkScanStatus, 1000)] ∧
      (onScanStatus rt st (statusResponse running)).requests = st.requests ∧
      (fireTimer rt (onScanStatus rt st (statusResponse running))).requests =
        st.requests ++ [statusRequest rt st] ∧
      (fireTimer rt (onScanStatus rt st (statusResponse running))).timers = []) ∧
    ((onScanStatus rt st (statusResponse terminal)).timers.filter
        (fun t => decide (t.1 = Callback.checkScanStatus)) = [] ∧
      (onScanStatus rt st (statusResponse terminal)).requests = st.requests ∧
      (fireTimer rt (onScanStatus rt st (statusResponse terminal))).requests = st.requests ∧
      (fireTimer rt (onScanStatus rt st (statusResponse terminal))).timers = []) := by
  constructor
  · rw [onScanStatus_running rt st running hr]
    simp [fireTimer, ht, runCallback, checkScanStatus, hj, statusRequest]
  · rcases terminal_cases terminal hterm with h | h
    · obtain ⟨h1, h2⟩ := onScanStatus_completed rt st terminal h
      have h3 : (onScanStatus rt st (statusResponse terminal)).timers = [] := by rw [h1, ht]
      refine ⟨by rw [h3]; rfl, h2, ?_, ?_⟩
      · simp only [fireTimer, h3]
        exact h2
      · simp only [fireTimer, h3]
    · rw [onScanStatus_failed rt st terminal h]
      simp [fireTimer, ht, runCallback, resetScanForm]

theorem poll_scheduled_witness :
    (truthy scanningPage.scanJobId = true ∧ scanningPage.timers = [] ∧
      isRunning runningBody = true ∧ isRunning sampleFailed = false) ∧
    (fireTimer sampleRuntime
        (onScanStatus sampleRuntime scanningPage (statusResponse runningBody))).requests =
      scanningPage.requests ++ [statusRequest sampleRuntime scanningPage] ∧
    (fireTimer sampleRuntime
        (onScanStatus sampleRuntime scanningPage (statusResponse sampleFailed))).requests =
      scanningPage.requests :=
  ⟨⟨rfl, rfl, rfl, rfl⟩,
   (poll_scheduled sampleRuntime scanningPage runningBody sampleFailed rfl rfl rfl rfl).1.2.2.1,
   (poll_scheduled sampleRuntime scanningPage runningBody sampleFailed rfl rfl rfl rfl).2.2.2.1⟩

/-! ## The scan flow: submitting a range -/

/-- Claim C22, evaluated at a counterexample. The range is not empty and the
response to the POST has status 2xx and the body `{ job_id: 0 }`. The job id
0 is stored, but `checkScanStatus` returns at `if (!scanJobId) return;`: no
status request is sent, no notification is shown and no timer is started,
while the dialog keeps the look of a running scan. -/
theorem startScan_falsy_job_id :
    scanningPage.scanRange ≠ "" ∧
    (onScanStarted sampleRuntime (startScan scanningPage)
        (Response.http true (some (JsVal.obj [("job_id", JsVal.num 0)])))).scanJobId =
      some (JsVal.num 0) ∧
    (onScanStarted sampleRuntime (startScan scanningPage)
        (Response.http true (some (JsVal.obj [("job_id", JsVal.num 0)])))).requests =
      scanningPage.requests ++ [scanRequest scanningPage] ∧
    (onScanStarted sampleRuntime (startScan scanningPage)
        (Response.http true (some (JsVal.obj [("job_id", JsVal.num 0)])))).notices =
      scanningPage.notices ∧
    (onScanStarted sampleRuntime (startScan scanningPage)
        (Response.http true (some (JsVal.obj [("job_id", JsVal.num 0)])))).timers = [] ∧
    (onScanStarted sampleRuntime (startScan scanningPage)
        (Response.http true (some (JsVal.obj [("job_id", JsVal.num 0)])))).scanProgressShown =
      true ∧
    (onScanStarted sampleRuntime (startScan scanningPage)
        (Response.http true (some (JsVal.obj [("job_id", JsVal.num 0)])))).startScanBtnShown =
      false := by
  refine ⟨by decide, ?_, ?_, ?_, ?_, ?_, ?_⟩
  all_goals
    simp [onScanStarted, parseResponse, member, getProp, checkScanStatus, truthy, startScan,
      scanningPage, scanRequest]

/-- Claim C22, amended. For a non-empty range, `startScan` sends one request,
the POST of the range and the three flags to `/api/topology/scan`. A response
with status 2xx whose body is a JSON object stores the `job_id` of the body;
when that `job_id` is truthy the first status request for it is sent, and
when it is falsy (`0`, `''`, `null`, `false` or missing) nothing is sent and
nothing is shown, the dialog keeping the look of a running scan. A network
error or a status outside 2xx shows one error notification, sends no status
request, and leaves the dialog idle: no job id, the start button shown, the
progress hidden, no timer started. -/
theorem startScan_flow (rt : Runtime) (st : Page) (fields falsy : Props) (jobId : JsVal)
    (message : String) (body : Option JsVal)
    (hr : st.scanRange ≠ "") (hj : getProp "job_id" fields = some jobId)
    (ht : truthy (some jobId) = true) (hf : truthy (getProp "job_id" falsy) = false) :
    (startScan st).requests = st.requests ++ [scanRequest st] ∧
    ((onScanStarted rt (startScan st) (Response.http true (some (JsVal.obj fields)))).scanJobId =
        some jobId ∧
      (onScanStarted rt (startScan st) (Response.http true (some (JsVal.obj fields)))).requests =
        st.requests ++ [scanRequest st,
          { method := "GET", url := "/api/topology/scan/" ++ rt.string (some jobId), body := none }] ∧
      (onScanStarted rt (startScan st) (Response.http true (some (JsVal.obj fields)))).notices =
        st.notices) ∧
    ((onScanStarted rt (startScan st) (Response.http true (some (JsVal.obj falsy)))).scanJobId =
        getProp "job_id" falsy ∧
      (onScanStarted rt (startScan st) (Response.http true (some (JsVal.obj falsy)))).requests =
        st.requests ++ [scanRequest st] ∧
      (onScanStarted rt (startScan st) (Response.http true (some (JsVal.obj falsy)))).notices =
        st.notices ∧
      (onScanStarted rt (startScan st) (Response.http true (some (JsVal.obj falsy)))).timers =
        st.timers ∧
      (onScanStarted rt (startScan st)
        (Response.http true (some (JsVal.obj falsy)))).scanProgressShown = true ∧
      (onScanStarted rt (startScan st)
        (Response.http true (some (JsVal.obj falsy)))).startScanBtnShown = false) ∧
    (∀ response, response = Response.networkError message ∨ response = Response.http false body →
      (∃ text, (onScanStarted rt (startScan st) response).notices =
        st.notices ++ [{ message := text, kind := "error" }]) ∧
      (onScanStarted rt (startScan st) response).requests = st.requests ++ [scanRequest st] ∧
      (onScanStarted rt (startScan st) response).scanJobId = none ∧
      (onScanStarted rt (startScan st) response).startScanBtnShown = true ∧
      (onScanStarted rt (startScan st) response).scanProgressShown = false ∧
      (onScanStarted rt (startScan st) response).timers = st.timers) := by
  have hs : (startScan st).requests = st.requests ++ [scanRequest st] := by
    simp [startScan, hr, scanRequest]
  refine ⟨hs, ?_, ?_, ?_⟩
  · simp [onScanStarted, parseResponse, member, hj, checkScanStatus, ht, hs]
    simp [startScan, hr]
  · simp [onScanStarted, parseResponse, member, checkScanStatus, hf, hs]
    simp [startScan, hr]
  · intro response hresp
    rcases hresp with rfl | rfl
    · simp [onScanStarted, parseResponse, scanFailure, resetScanForm, hs]
      simp [startScan, hr]
    · simp [onScanStarted, parseResponse, scanFailure, resetScanForm, hs]
      simp [startScan, hr]

theorem startScan_flow_witness :
    (scanningPage.scanRange ≠ "" ∧
      getProp "job_id" [("job_id", JsVal.str "job-7")] = some (JsVal.str "job-7") ∧
      truthy (some (JsVal.str "job-7")) = true ∧
      truthy (getProp "job_id" [("status", JsVal.str "queued")]) = false) ∧
    (onScanStarted sampleRuntime (startScan scanningPage)
        (Response.http true (some (JsVal.obj [("job_id", JsVal.str "job-7")])))).requests =
      scanningPage.requests ++ [scanRequest scanningPage,
        { method := "GET", url := "/api/topology/scan/" ++ sampleRuntime.string
            (some (JsVal.str "job-7")), body := none }] ∧
    (onScanStarted sampleRuntime (startScan scanningPage)
        (Response.http true (some (JsVal.obj [("status", JsVal.str "queued")])))).requests =
      scanningPage.requests ++ [scanRequest scanningPage] ∧
    (onScanStarted sampleRuntime (startScan scanningPage)
        (Response.networkError "Failed to fetch")).scanJobId = none :=
  ⟨⟨by decide, rfl, rfl, rfl⟩,
   (startScan_flow sampleRuntime scanningPage [("job_id", JsVal.str "job-7")]
      [("status", JsVal.str "queued")] (JsVal.str "job-7")
      "Failed to fetch" none (by decide) rfl rfl rfl).2.1.2.1,
   (startScan_flow sampleRuntime scanningPage [("job_id", JsVal.str "job-7")]
      [("status", JsVal.str "queued")] (JsVal.str "job-7")
      "Failed to fetch" none (by decide) rfl rfl rfl).2.2.1.2.1,
   ((startScan_flow sampleRuntime scanningPage [("job_id", JsVal.str "job-7")]
      [("status", JsVal.str "queued")] (JsVal.str "job-7")
      "Failed to fetch" none (by decide) rfl rfl rfl).2.2.2 _ (Or.inl rfl)).2.2.1⟩

end Controller

/-! ## Adding the discovered devices -/

namespace Controller

/-- Claim C23. When some device of the list is checked, `addDevices` sends
one request, the POST to `/api/topology/devices/add` of the ids of the checked
devices, in the order of the list, and of the job id; when no device is
checked it sends nothing and shows an alert. In both cases it changes
neither the dialog, nor the job id, nor the engines. On a response with
status 2xx and a JSON body the dialog is closed, the job id is reset, one
success notification is shown and the load flow is started once: the loader
is shown and one request for the topology is sent. On a network error, a
status outside 2xx or a body that is not JSON, one error notification is
shown and nothing else changes. -/
theorem addDevices_flow (app idle : App) (count : Nat) (data : JsVal) (message : String)
    (body : Option JsVal)
    (hchecked : ∃ item ∈ app.scan.scanDevicesList, item.checked = true)
    (hidle : ∀ item ∈ idle.scan.scanDevicesList, item.checked = false) :
    ((addDevices app).scan.requests = app.scan.requests ++
        [{ method := "POST", url := "/api/topology/devices/add",
           body := some (JsVal.obj
             [("devices", JsVal.arr
                ((app.scan.scanDevicesList.filter (fun item => item.checked)).map
                  (fun item => JsVal.str item.dataId))),
              ("job_id", app.scan.scanJobId.getD JsVal.null)]) }] ∧
      (addDevices app).scan.alerts = app.scan.alerts ∧
      (addDevices app).scan.modalShown = app.scan.modalShown ∧
      (addDevices app).scan.scanJobId = app.scan.scanJobId ∧
      (addDevices app).engines = app.engines) ∧
    ((addDevices idle).scan.requests = idle.scan.requests ∧
      (addDevices idle).scan.alerts =
        idle.scan.alerts ++ ["Выберите устройства для добавления"] ∧
      (addDevices idle).scan.modalShown = idle.scan.modalShown ∧
      (addDevices idle).scan.scanJobId = idle.scan.scanJobId ∧
      (addDevices idle).engines = idle.engines) ∧
    ((onDevicesAdded app count (Response.http true (some data))).scan.modalShown = false ∧
      (onDevicesAdded app count (Response.http true (some data))).scan.scanJobId = none ∧
      (onDevicesAdded app count (Response.http true (some data))).scan.requests =
        app.scan.requests ++ [topologyRequest] ∧
      (onDevicesAdded app count (Response.http true (some data))).loaderShown = true ∧
      (onDevicesAdded app count (Response.http true (some data))).scan.notices =
        app.scan.notices ++
          [{ message := "Добавлено " ++ toString count ++ " устройств", kind := "success" }] ∧
      (onDevicesAdded app count (Response.http true (some data))).engines = app.engines) ∧
    (onDevicesAdded app count (Response.networkError message) =
        { app with scan := { app.scan with notices := app.scan.notices ++
            [{ message := "Ошибка при добавлении устройств: " ++ message, kind := "error" }] } } ∧
      onDevicesAdded app count (Response.http false body) =
        { app with scan := { app.scan with notices := app.scan.notices ++
            [{ message := "Ошибка при добавлении устройств: Ошибка при добавлении устройств",
               kind := "error" }] } } ∧
      onDevicesAdded app count (Response.http true none) =
        { app with scan := { app.scan with notices := app.scan.notices ++
            [{ message := "Ошибка при добавлении устройств: SyntaxError: the body is not JSON",
               kind := "error" }] } }) := by
  have hne : (checkedIds app.scan).length ≠ 0 := by
    obtain ⟨item, hmem, hc⟩ := hchecked
    have : item.dataId ∈ checkedIds app.scan :=
      List.mem_map_of_mem _ (List.mem_filter.mpr ⟨hmem, hc⟩)
    intro h0
    rw [List.length_eq_zero] at h0
    rw [h0] at this
    exact List.not_mem_nil _ this
  have hnil : (checkedIds idle.scan).length = 0 := by
    rw [List.length_eq_zero, checkedIds, List.map_eq_nil_iff, List.filter_eq_nil_iff]
    intro item hmem
    simp [hidle item hmem]
  refine ⟨⟨?_, ?_, ?_, ?_, ?_⟩, ⟨?_, ?_, ?_, ?_, ?_⟩, ⟨rfl, rfl, rfl, rfl, rfl, rfl⟩,
    ⟨rfl, rfl, rfl⟩⟩
  · rw [addDevices, if_neg hne]
    simp [checkedIds, List.map_map, Function.comp_def]
  · rw [addDevices, if_neg hne]
  · rw [addDevices, if_neg hne]
  · rw [addDevices, if_neg hne]
  · rw [addDevices, if_neg hne]
  · rw [addDevices, if_pos hnil]
  · rw [addDevices, if_pos hnil]
  · rw [addDevices, if_pos hnil]
  · rw [addDevices, if_pos hnil]
  · rw [addDevices, if_pos hnil]

theorem addDevices_flow_witness :
    ((∃ item ∈ resultsApp.scan.scanDevicesList, item.checked = true) ∧
      (∀ item ∈ uncheckedApp.scan.scanDevicesList, item.checked = false)) ∧
    (addDevices resultsApp).scan.requests = resultsApp.scan.requests ++
      [{ method := "POST", url := "/api/topology/devices/add",
         body := some (JsVal.obj
           [("devices", JsVal.arr [JsVal.str "dev-1", JsVal.str "dev-3"]),
            ("job_id", JsVal.str "job-1")]) }] ∧
    (addDevices uncheckedApp).scan.requests = uncheckedApp.scan.requests ∧
    (onDevicesAdded resultsApp 2 (Response.http true (some JsVal.null))).scan.scanJobId = none := by
  have hc : ∃ item ∈ resultsApp.scan.scanDevicesList, item.checked = true :=
    ⟨{ dataId := "dev-1", label := "printer (10.0.0.5)", checked := true },
      List.mem_cons_self _ _, rfl⟩
  have hi : ∀ item ∈ uncheckedApp.scan.scanDevicesList, item.checked = false := by
    intro item hmem
    simp only [uncheckedApp, List.mem_map] at hmem
    obtain ⟨_, _, rfl⟩ := hmem
    rfl
  exact ⟨⟨hc, hi⟩,
    (addDevices_flow resultsApp uncheckedApp 2 JsVal.null "Failed to fetch" none hc hi).1.1,
    (addDevices_flow resultsApp uncheckedApp 2 JsVal.null "Failed to fetch" none hc hi).2.1.1,
    (addDevices_flow resultsApp uncheckedApp 2 JsVal.null "Failed to fetch" none hc hi).2.2.1.2.1⟩

end Controller

namespace Controller

/-! ## Closing the scan dialog -/

/-- Claim C24, evaluated at a failing input. A job `'job-1'` is running, the
dialog is shown and the next poll is pending. A click on the close button
hides the dialog but keeps the job id, and when the pending timer fires one
more status request is sent. After a click on the cancel button or on the
backdrop the job id is `null` and the same timer sends nothing. For every
state of the dialog, none of the three handlers sends a request, and the
cancel button and the backdrop discard the job id. -/
theorem close_button_keeps_polling (st : Page) :
    (runningPage.modalShown = true ∧ runningPage.scanJobId = some (JsVal.str "job-1") ∧
      runningPage.timers = [(Callback.checkScanStatus, 1000)]) ∧
    ((onCloseScanModalClick runningPage).modalShown = false ∧
      (onCloseScanModalClick runningPage).scanJobId = some (JsVal.str "job-1") ∧
      (fireTimer sampleRuntime (onCloseScanModalClick runningPage)).requests =
        runningPage.requests ++
          [{ method := "GET", url := "/api/topology/scan/job-1", body := none }]) ∧
    ((fireTimer sampleRuntime (onCancelScanClick runningPage)).requests = runningPage.requests ∧
      (fireTimer sampleRuntime (onScanModalClick runningPage ClickTarget.backdrop)).requests =
        runningPage.requests ∧
      (fireTimer sampleRuntime (onScanModalClick runningPage ClickTarget.modal)).requests =
        runningPage.requests) ∧
    ((onCloseScanModalClick st).requests = st.requests ∧
      (onCancelScanClick st).requests = st.requests ∧
      (∀ target, (onScanModalClick st target).requests = st.requests) ∧
      (onCloseScanModalClick st).scanJobId = st.scanJobId ∧
      (onCancelScanClick st).scanJobId = none ∧
      (onScanModalClick st ClickTarget.backdrop).scanJobId = none ∧
      (onScanModalClick st ClickTarget.modal).scanJobId = none) := by
  refine ⟨⟨rfl, rfl, rfl⟩, ⟨rfl, rfl, rfl⟩, ⟨rfl, rfl, rfl⟩, rfl, rfl, ?_, rfl, rfl, rfl, rfl⟩
  intro target
  cases target <;> rfl

/-! ## The tables of the device panel -/

theorem tableRows_ok (row : JsVal → Except String TableRow) (items : List JsVal)
    (h : ∀ item ∈ items, ∃ r, row item = Except.ok r) :
    ∃ rows, tableRows row items = Except.ok rows ∧
      List.Forall₂ (fun item r => row item = Except.ok r) items rows := by
  induction items with
  | nil => exact ⟨[], rfl, List.Forall₂.nil⟩
  | cons item rest ih =>
    obtain ⟨r, hr⟩ := h item (List.mem_cons_self _ _)
    obtain ⟨rs, hrs, hall⟩ := ih (fun i hi => h i (List.mem_cons_of_mem _ hi))
    exact ⟨r :: rs, by simp [tableRows, hr, hrs], List.Forall₂.cons hr hall⟩

theorem detailTable_empty (row : JsVal → Except String TableRow) (list : Option JsVal)
    (h : list = none ∨ list = some (JsVal.arr [])) :
    detailTable row list = Except.ok { rows := [TableRow.noData], sectionShown := false } := by
  rcases h with rfl | rfl <;> rfl

theorem detailTable_objects (row : JsVal → Except String TableRow) (entries : List Props)
    (hrow : ∀ fields, ∃ r, row (JsVal.obj fields) = Except.ok r) (hne : entries ≠ []) :
    ∃ rows, detailTable row (some (JsVal.arr (entries.map JsVal.obj))) =
        Except.ok { rows := rows, sectionShown := true } ∧
      List.Forall₂ (fun fields r => row (JsVal.obj fields) = Except.ok r) entries rows := by
  obtain ⟨rows, hrows, hall⟩ := tableRows_ok row (entries.map JsVal.obj) (by
    intro item hitem
    obtain ⟨fields, _, rfl⟩ := List.mem_map.mp hitem
    exact hrow fields)
  refine ⟨rows, ?_, ?_⟩
  · cases entries with
    | nil => exact absurd rfl hne
    | cons first rest =>
      simp only [List.map_cons] at hrows ⊢
      simp only [detailTable, hrows]
  · rw [List.forall₂_map_left_iff] at hall
    exact hall

/-- Claim C25, evaluated at a counterexample. For a device without an
`interfaces` property and with an empty `services` list, each of the two
tables gets the one row `Нет данных`, and each of the two sections is hidden
(`display = 'none'`): the section does not stay displayed. -/
theorem empty_list_hides_section :
    interfacesTable sampleRuntime bareDevice =
        Except.ok { rows := [TableRow.noData], sectionShown := false } ∧
      servicesTable sampleRuntime bareDevice =
        Except.ok { rows := [TableRow.noData], sectionShown := false } := by
  exact ⟨rfl, rfl⟩

/-- Claim C25, amended. For a device whose interfaces list (respectively
services list) is absent or empty, the table gets exactly one row, the row
`Нет данных`, and its section is hidden. For a device whose list is a
non-empty array of objects, the section is shown and the table has one row
per entry, in input order, each the row of its entry. -/
theorem detail_tables (rt : Runtime) (bare full : Props) (interfaces services : List Props)
    (hbi : getProp "interfaces" bare = none ∨ getProp "interfaces" bare = some (JsVal.arr []))
    (hbs : getProp "services" bare = none ∨ getProp "services" bare = some (JsVal.arr []))
    (hfi : getProp "interfaces" full = some (JsVal.arr (interfaces.map JsVal.obj)))
    (hfs : getProp "services" full = some (JsVal.arr (services.map JsVal.obj)))
    (hni : interfaces ≠ []) (hns : services ≠ []) :
    (interfacesTable rt bare = Except.ok { rows := [TableRow.noData], sectionShown := false } ∧
      servicesTable rt bare = Except.ok { rows := [TableRow.noData], sectionShown := false }) ∧
    (∃ rows, interfacesTable rt full = Except.ok { rows := rows, sectionShown := true } ∧
      List.Forall₂ (fun fields r => interfaceRow rt (JsVal.obj fields) = Except.ok r)
        interfaces rows) ∧
    (∃ rows, servicesTable rt full = Except.ok { rows := rows, sectionShown := true } ∧
      List.Forall₂ (fun fields r => serviceRow rt (JsVal.obj fields) = Except.ok r)
        services rows) := by
  refine ⟨⟨detailTable_empty _ _ hbi, detailTable_empty _ _ hbs⟩, ?_, ?_⟩
  · simp only [interfacesTable, hfi]
    exact detailTable_objects (interfaceRow rt) interfaces
      (fun fields => by simp only [interfaceRow, member]; exact ⟨_, rfl⟩) hni
  · simp only [servicesTable, hfs]
    exact detailTable_objects (serviceRow rt) services
      (fun fields => by simp only [serviceRow, member]; exact ⟨_, rfl⟩) hns

theorem detail_tables_witness :
    ((getProp "interfaces" bareDevice = none ∨
        getProp "interfaces" bareDevice = some (JsVal.arr [])) ∧
      (getProp "services" bareDevice = none ∨
        getProp "services" bareDevice = some (JsVal.arr [])) ∧
      getProp "interfaces" fullDevice = some (JsVal.arr
        ([[("name", JsVal.str "eth0"), ("ip", JsVal.str "10.0.0.1"), ("is_up", JsVal.bool true)],
          [("name", JsVal.str "wlan0")]].map JsVal.obj)) ∧
      getProp "services" fullDevice = some (JsVal.arr
        ([[("port", JsVal.str "22"), ("protocol", JsVal.str "tcp"),
           ("name", JsVal.str "ssh"), ("status", JsVal.str "open")]].map JsVal.obj))) ∧
    interfacesTable sampleRuntime fullDevice = Except.ok
      { rows := [TableRow.cells ["eth0", "10.0.0.1", "Нет данных", "Активен"],
                 TableRow.cells ["wlan0", "Нет данных", "Нет данных", "Отключен"]],
        sectionShown := true } ∧
    (∃ rows, servicesTable sampleRuntime fullDevice =
        Except.ok { rows := rows, sectionShown := true } ∧
      List.Forall₂ (fun fields r => serviceRow sampleRuntime (JsVal.obj fields) = Except.ok r)
        [[("port", JsVal.str "22"), ("protocol", JsVal.str "tcp"),
          ("name", JsVal.str "ssh"), ("status", JsVal.str "open")]] rows) :=
  ⟨⟨Or.inl rfl, Or.inr rfl, rfl, rfl⟩, rfl,
   (detail_tables sampleRuntime bareDevice fullDevice
      [[("name", JsVal.str "eth0"), ("ip", JsVal.str "10.0.0.1"), ("is_up", JsVal.bool true)],
       [("name", JsVal.str "wlan0")]]
      [[("port", JsVal.str "22"), ("protocol", JsVal.str "tcp"),
        ("name", JsVal.str "ssh"), ("status", JsVal.str "open")]]
      (Or.inl rfl) (Or.inr rfl) rfl rfl (by simp) (by simp)).2.2⟩

/-! ## The load flow and the zoom buttons -/

theorem zoomVisualizer_of_engines (factor : ℚ) (app : App) (h : app.engines ≠ []) :
    zoomVisualizer factor app =
      { app with zoomCalls := app.zoomCalls ++ [(app.engines.length - 1, factor)]
                 uncaught := app.uncaught ++
                   ["TypeError: selection.property is not a function"] } := by
  obtain ⟨e, he⟩ : ∃ e, app.engines.getLast? = some e := by
    cases hl : app.engines.getLast? with
    | none => exact absurd (List.getLast?_eq_none_iff.mp hl) h
    | some e => exact ⟨e, rfl⟩
  have hd : app.engines.dropLast ++ [e] = app.engines :=
    List.dropLast_append_getLast? e (by rw [he]; rfl)
  simp only [zoomVisualizer, he, zoom, hd, Option.toList]

theorem iterate_zoomVisualizer (factor : ℚ) (n : Nat) :
    ∀ app : App, (n = 0 ∨ app.engines ≠ []) →
      Nat.iterate (zoomVisualizer factor) n app =
        { app with zoomCalls := app.zoomCalls ++
                     List.replicate n (app.engines.length - 1, factor)
                   uncaught := app.uncaught ++
                     List.replicate n "TypeError: selection.property is not a function" } := by
  induction n with
  | zero => intro app _; simp
  | succ n ih =>
    intro app h
    have hne : app.engines ≠ [] := h.resolve_left (Nat.succ_ne_zero n)
    rw [Function.iterate_succ_apply, zoomVisualizer_of_engines factor app hne]
    rw [ih { app with zoomCalls := app.zoomCalls ++ [(app.engines.length - 1, factor)]
                      uncaught := app.uncaught ++
                        ["TypeError: selection.property is not a function"] } (Or.inr hne)]
    simp [List.replicate_succ]

theorem loadFlow_counts (rt : Runtime) (app : App) (response : LoadResponse) :
    (loadFlow rt app response).engines.length =
        app.engines.length + (if isLoaded response = true then 1 else 0) ∧
      (loadFlow rt app response).zoomInListeners = app.zoomInListeners +
        (if successful rt app.containerWidth app.containerHeight response = true then 1 else 0) ∧
      (loadFlow rt app response).zoomOutListeners = app.zoomOutListeners +
        (if successful rt app.containerWidth app.containerHeight response = true then 1 else 0) ∧
      (loadFlow rt app response).resetZoomListeners = app.resetZoomListeners +
        (if successful rt app.containerWidth app.containerHeight response = true then 1 else 0) ∧
      (loadFlow rt app response).containerWidth = app.containerWidth ∧
      (loadFlow rt app response).containerHeight = app.containerHeight := by
  cases response with
  | failed => simp [loadFlow, onTopologyLoaded, initializeTopology, showError, isLoaded, successful]
  | loaded nodes links =>
    simp only [loadFlow, onTopologyLoaded, initializeTopology, isLoaded, successful]
    split
    · rename_i err heq
      simp [showError, heq]
    · rename_i heq
      simp [heq]

theorem runLoads_counts (rt : Runtime) (responses : List LoadResponse) :
    ∀ app : App,
      (runLoads rt app responses).engines.length =
          app.engines.length + responses.countP isLoaded ∧
        (runLoads rt app responses).zoomInListeners = app.zoomInListeners +
          responses.countP (successful rt app.containerWidth app.containerHeight) ∧
        (runLoads rt app responses).zoomOutListeners = app.zoomOutListeners +
          responses.countP (successful rt app.containerWidth app.containerHeight) ∧
        (runLoads rt app responses).resetZoomListeners = app.resetZoomListeners +
          responses.countP (successful rt app.containerWidth app.containerHeight) := by
  induction responses with
  | nil => intro app; simp [runLoads]
  | cons r rest ih =>
    intro app
    obtain ⟨he, hin, hout, hreset, hw, hh⟩ := loadFlow_counts rt app r
    obtain ⟨h1, h2, h3, h4⟩ := ih (loadFlow rt app r)
    rw [hw, hh] at h2 h3 h4
    simp only [runLoads, List.countP_cons]
    refine ⟨?_, ?_, ?_, ?_⟩
    · rw [h1, he]; omega
    · rw [h2, hin]; omega
    · rw [h3, hout]; omega
    · rw [h4, hreset]; omega

theorem successful_isLoaded (rt : Runtime) (width height : ℚ) (response : LoadResponse)
    (h : successful rt width height response = true) : isLoaded response = true := by
  cases response with
  | failed => simp [successful] at h
  | loaded nodes links => rfl

/-- Claim C30, evaluated at a counterexample. After two successful loads there
are two engines and two click listeners on the zoom-in button; one click then
makes two calls `visualizer.zoom(1.2)`, both on the second engine (index 1)
and none on the first: every listener reads the variable `visualizer`, which
holds the engine constructed last. Both calls throw a `TypeError`. -/
theorem zoom_click_hits_latest_engine :
    reloadedApp.engines.length = 2 ∧ reloadedApp.zoomInListeners = 2 ∧
      reloadedApp.zoomCalls = [] ∧
      (onZoomInClick reloadedApp).zoomCalls = [(1, 6 / 5), (1, 6 / 5)] ∧
      (onZoomInClick reloadedApp).uncaught =
        ["TypeError: selection.property is not a function",
         "TypeError: selection.property is not a function"] := by
  exact ⟨rfl, rfl, rfl, rfl, rfl⟩

/-- Claim C30, amended. On a page that had no engine and no listener on the
zoom buttons, after any runs of the load flow: every run that received a
topology has constructed one engine, and every successful run (one whose
`setData` returned normally) has registered one more click listener on each
zoom button. A single click on zoom-in then makes one call
`visualizer.zoom(1.2)` for each listener, every one of them on the engine
constructed last; each call throws a `TypeError`, and the engines are left as
they were. -/
theorem loads_register_listeners (rt : Runtime) (app : App) (responses : List LoadResponse)
    (he : app.engines = []) (hin : app.zoomInListeners = 0) (hout : app.zoomOutListeners = 0)
    (hreset : app.resetZoomListeners = 0) :
    (runLoads rt app responses).engines.length = responses.countP isLoaded ∧
      (runLoads rt app responses).zoomInListeners =
        responses.countP (successful rt app.containerWidth app.containerHeight) ∧
      (runLoads rt app responses).zoomOutListeners =
        responses.countP (successful rt app.containerWidth app.containerHeight) ∧
      (runLoads rt app responses).resetZoomListeners =
        responses.countP (successful rt app.containerWidth app.containerHeight) ∧
      (onZoomInClick (runLoads rt app responses)).engines =
        (runLoads rt app responses).engines ∧
      (onZoomInClick (runLoads rt app responses)).zoomCalls =
        (runLoads rt app responses).zoomCalls ++
          List.replicate
            (responses.countP (successful rt app.containerWidth app.containerHeight))
            (responses.countP isLoaded - 1, 6 / 5) ∧
      (onZoomInClick (runLoads rt app responses)).uncaught =
        (runLoads rt app responses).uncaught ++
          List.replicate
            (responses.countP (successful rt app.containerWidth app.containerHeight))
            "TypeError: selection.property is not a function" := by
  obtain ⟨h1, h2, h3, h4⟩ := runLoads_counts rt responses app
  rw [he] at h1
  rw [hin] at h2
  rw [hout] at h3
  rw [hreset] at h4
  simp only [List.length_nil, Nat.zero_add] at h1 h2 h3 h4
  have hle : responses.countP (successful rt app.containerWidth app.containerHeight) ≤
      responses.countP isLoaded :=
    List.countP_mono_left (fun r _ hr => successful_isLoaded rt _ _ r hr) 
  have hcase : (runLoads rt app responses).zoomInListeners = 0 ∨
      (runLoads rt app responses).engines ≠ [] := by
    by_cases hz : (runLoads rt app responses).zoomInListeners = 0
    · exact Or.inl hz
    · right
      intro hnil
      rw [hnil, List.length_nil] at h1
      omega
  have hclick := iterate_zoomVisualizer (6 / 5) (runLoads rt app responses).zoomInListeners
    (runLoads rt app responses) hcase
  refine ⟨h1, h2, h3, h4, ?_, ?_, ?_⟩
  · simp only [onZoomInClick, hclick]
  · simp only [onZoomInClick, hclick]
    rw [h1, h2]
  · simp only [onZoomInClick, hclick]
    rw [h2]

theorem loads_register_listeners_witness :
    (startApp.engines = [] ∧ startApp.zoomInListeners = 0 ∧ startApp.zoomOutListeners = 0 ∧
      startApp.resetZoomListeners = 0) ∧
    ([sampleTopology, linkedTopology, LoadResponse.failed, sampleTopology].countP isLoaded = 3 ∧
      [sampleTopology, linkedTopology, LoadResponse.failed, sampleTopology].countP
        (successful sampleRuntime startApp.containerWidth startApp.containerHeight) = 2) ∧
    (mixedApp.engines.length = 3 ∧ mixedApp.zoomInListeners = 2 ∧
      mixedApp.errorShown = false) ∧
    (onZoomInClick mixedApp).engines = mixedApp.engines ∧
    (onZoomInClick mixedApp).zoomCalls = [(2, 6 / 5), (2, 6 / 5)] ∧
    (onZoomInClick mixedApp).uncaught =
      ["TypeError: selection.property is not a function",
       "TypeError: selection.property is not a function"] := by
  have hl : [sampleTopology, linkedTopology, LoadResponse.failed, sampleTopology].countP
      isLoaded = 3 := rfl
  have hs : [sampleTopology, linkedTopology, LoadResponse.failed, sampleTopology].countP
      (successful sampleRuntime startApp.containerWidth startApp.containerHeight) = 2 := rfl
  obtain ⟨_, _, _, _, h5, h6, h7⟩ :=
    loads_register_listeners sampleRuntime startApp
      [sampleTopology, linkedTopology, LoadResponse.failed, sampleTopology] rfl rfl rfl rfl
  rw [hl, hs] at h6
  rw [hs] at h7
  exact ⟨⟨rfl, rfl, rfl, rfl⟩, ⟨hl, hs⟩, ⟨rfl, rfl, rfl⟩, h5, h6, h7⟩

end Controller

/-! ## The request helper -/

namespace API

theorem settle_ok (r : HttpResponse) (h : 200 ≤ r.status ∧ r.status ≤ 299) :
    settle r = r.json := by
  simp [settle, HttpResponse.ok, h.1, h.2]

theorem settle_bad (r : HttpResponse) (h : r.status < 200 ∨ 299 < r.status) :
    settle r = Except.error ("Ошибка " ++ toString r.status ++ ": " ++ r.statusText) := by
  have hok : r.ok = false := by
    simp only [HttpResponse.ok, Bool.and_eq_false_iff, decide_eq_false_iff_not, Nat.not_le]
    exact h
  simp [settle, hok]

/-- Claim C26, evaluated at a counterexample. For a response `204 No Content`,
whose empty body makes `response.json()` reject with a `SyntaxError`, the
promise of each of the four helpers rejects with that error: the status is
2xx and the promise does not resolve, and the message of the error carries
neither the status code nor the status text. -/
theorem no_content_rejects :
    (⟨204, "No Content", Except.error "SyntaxError: Unexpected end of JSON input"⟩ :
        HttpResponse).ok = true ∧
    (get "/api/devices" none
        ⟨204, "No Content", Except.error "SyntaxError: Unexpected end of JSON input"⟩).2 =
      Except.error "SyntaxError: Unexpected end of JSON input" ∧
    (post "/api/devices" (some JsVal.null)
        ⟨204, "No Content", Except.error "SyntaxError: Unexpected end of JSON input"⟩).2 =
      Except.error "SyntaxError: Unexpected end of JSON input" ∧
    (put "/api/devices/7" none
        ⟨204, "No Content", Except.error "SyntaxError: Unexpected end of JSON input"⟩).2 =
      Except.error "SyntaxError: Unexpected end of JSON input" ∧
    (delete "/api/devices/7"
        ⟨204, "No Content", Except.error "SyntaxError: Unexpected end of JSON input"⟩).2 =
      Except.error "SyntaxError: Unexpected end of JSON input" := by
  refine ⟨?_, ?_, ?_, ?_, ?_⟩ <;> rfl

/-- Claim C26, amended. Each of `API.get`, `API.post`, `API.put` and
`API.delete` sends its method to the url, the body being the data for `post`
and `put`. For a response with a status in 200-299 the promise settles as
`response.json()` does: it resolves to the parsed body when the body is JSON,
and rejects with the error of the parser when it is not. For a response with
any other status it rejects with an error whose message is made of the status
code and the status text. -/
theorem helpers_settle (url : String) (params sent : Option JsVal)
    (good unparsed bad : HttpResponse) (d : JsVal) (message : String)
    (hgood : 200 ≤ good.status ∧ good.status ≤ 299) (hbody : good.json = Except.ok d)
    (hunparsed : 200 ≤ unparsed.status ∧ unparsed.status ≤ 299)
    (hmessage : unparsed.json = Except.error message)
    (hbad : bad.status < 200 ∨ 299 < bad.status) :
    ((get url params good).1.method = "GET" ∧ (post url sent good).1.method = "POST" ∧
      (put url sent good).1.method = "PUT" ∧ (delete url good).1.method = "DELETE" ∧
      (get url params good).1.url = url ∧ (post url sent good).1.url = url ∧
      (put url sent good).1.url = url ∧ (delete url good).1.url = url ∧
      (post url sent good).1.body = some (sent.getD (JsVal.obj [])) ∧
      (put url sent good).1.body = some (sent.getD (JsVal.obj []))) ∧
    ((get url params good).2 = Except.ok d ∧ (post url sent good).2 = Except.ok d ∧
      (put url sent good).2 = Except.ok d ∧ (delete url good).2 = Except.ok d) ∧
    ((get url params unparsed).2 = Except.error message ∧
      (post url sent unparsed).2 = Except.error message ∧
      (put url sent unparsed).2 = Except.error message ∧
      (delete url unparsed).2 = Except.error message) ∧
    ((get url params bad).2 =
        Except.error ("Ошибка " ++ toString bad.status ++ ": " ++ bad.statusText) ∧
      (post url sent bad).2 =
        Except.error ("Ошибка " ++ toString bad.status ++ ": " ++ bad.statusText) ∧
      (put url sent bad).2 =
        Except.error ("Ошибка " ++ toString bad.status ++ ": " ++ bad.statusText) ∧
      (delete url bad).2 =
        Except.error ("Ошибка " ++ toString bad.status ++ ": " ++ bad.statusText)) := by
  have h1 : settle good = Except.ok d := by rw [settle_ok good hgood, hbody]
  have h2 : settle unparsed = Except.error message := by
    rw [settle_ok unparsed hunparsed, hmessage]
  exact ⟨⟨rfl, rfl, rfl, rfl, rfl, rfl, rfl, rfl, rfl, rfl⟩, ⟨h1, h1, h1, h1⟩,
    ⟨h2, h2, h2, h2⟩,
    ⟨settle_bad bad hbad, settle_bad bad hbad, settle_bad bad hbad, settle_bad bad hbad⟩⟩

theorem helpers_settle_witness :
    (((200 ≤ (⟨201, "Created", Except.ok (JsVal.str "made")⟩ : HttpResponse).status ∧
        (⟨201, "Created", Except.ok (JsVal.str "made")⟩ : HttpResponse).status ≤ 299) ∧
      (200 ≤ (⟨204, "No Content", Except.error "SyntaxError"⟩ : HttpResponse).status ∧
        (⟨204, "No Content", Except.error "SyntaxError"⟩ : HttpResponse).status ≤ 299)) ∧
      ((⟨404, "Not Found", Except.ok JsVal.null⟩ : HttpResponse).status < 200 ∨
        299 < (⟨404, "Not Found", Except.ok JsVal.null⟩ : HttpResponse).status)) ∧
    (post "/api/devices" (some JsVal.null) ⟨201, "Created", Except.ok (JsVal.str "made")⟩).2 =
      Except.ok (JsVal.str "made") ∧
    (put "/api/devices" (some JsVal.null) ⟨204, "No Content", Except.error "SyntaxError"⟩).2 =
      Except.error "SyntaxError" ∧
    (delete "/api/devices" ⟨404, "Not Found", Except.ok JsVal.null⟩).2 =
      Except.error ("Ошибка " ++ toString 404 ++ ": " ++ "Not Found") :=
  ⟨⟨⟨⟨by decide, by decide⟩, ⟨by decide, by decide⟩⟩, Or.inr (by decide)⟩,
   (helpers_settle "/api/devices" none (some JsVal.null)
      ⟨201, "Created", Except.ok (JsVal.str "made")⟩
      ⟨204, "No Content", Except.error "SyntaxError"⟩
      ⟨404, "Not Found", Except.ok JsVal.null⟩ (JsVal.str "made") "SyntaxError"
      ⟨by decide, by decide⟩ rfl ⟨by decide, by decide⟩ rfl (Or.inr (by decide))).2.1.2.1,
   (helpers_settle "/api/devices" none (some JsVal.null)
      ⟨201, "Created", Except.ok (JsVal.str "made")⟩
      ⟨204, "No Content", Except.error "SyntaxError"⟩
      ⟨404, "Not Found", Except.ok JsVal.null⟩ (JsVal.str "made") "SyntaxError"
      ⟨by decide, by decide⟩ rfl ⟨by decide, by decide⟩ rfl (Or.inr (by decide))).2.2.1.2.2.1,
   (helpers_settle "/api/devices" none (some JsVal.null)
      ⟨201, "Created", Except.ok (JsVal.str "made")⟩
      ⟨204, "No Content", Except.error "SyntaxError"⟩
      ⟨404, "Not Found", Except.ok JsVal.null⟩ (JsVal.str "made") "SyntaxError"
      ⟨by decide, by decide⟩ rfl ⟨by decide, by decide⟩ rfl (Or.inr (by decide))).2.2.2.2.2.2⟩

end API

end TopologyVisualizer
